import Mathlib

/-!
Verification of the SIMM aggregation pipeline of `simm-rs` (a Rust
implementation of the ISDA Standard Initial Margin Model) against its
natural-language specification.

Modelling conventions, used throughout:
* `f64` values are modelled by real numbers (`ℝ`); exact table constants and
  purely arithmetic intermediate results are kept in `ℚ` and cast into `ℝ`
  where the code mixes them with square roots.  IEEE rounding, overflow,
  signed zero, infinities and NaN are outside the model; the concrete inputs
  used in the theorems below stay far away from all of those.
* `f64::sqrt` is modelled by `Real.sqrt` (which is `0` on negative inputs).
* Rust `String`s are Lean `String`s; the CRIF content is ASCII, so
  byte-indexed slicing in the source corresponds to character indexing here.
* Rust `HashMap` iteration order is unspecified and varies between runs;
  wherever the source iterates a `HashMap` in a way that can influence the
  output, the embedding takes the enumeration order as an explicit parameter
  together with the constraint that it is a permutation of the canonical
  entry list (see `EntriesMatch` below).  Keyed `HashMap` lookups are
  modelled by association-list/function lookups, which are order-independent.
* The standard-normal quantiles `Φ⁻¹(0.99)` and `Φ⁻¹(0.995)` obtained from
  the `statrs` crate are abstracted as parameters (`RtEnv`); no claim
  depends on their numeric values.
-/

namespace SimmRs

/-! ## Modelling Rust numeric string parsing

`str::parse::<f64>` / `str::parse::<usize>` restricted to finite decimal
numerals.  The special literals `inf`/`infinity`/`nan` (with optional sign),
which Rust also accepts for `f64`, are outside the rational model; the
predicate `isSpecialFloat` recognises them so that hypotheses can exclude
them explicitly. -/

/-- ASCII lower-case table (Rust `to_lowercase` restricted to ASCII, the
alphabet of CRIF content). -/
def asciiLowerPairs : List (Char × Char) :=
  [('A', 'a'), ('B', 'b'), ('C', 'c'), ('D', 'd'), ('E', 'e'), ('F', 'f'),
   ('G', 'g'), ('H', 'h'), ('I', 'i'), ('J', 'j'), ('K', 'k'), ('L', 'l'),
   ('M', 'm'), ('N', 'n'), ('O', 'o'), ('P', 'p'), ('Q', 'q'), ('R', 'r'),
   ('S', 's'), ('T', 't'), ('U', 'u'), ('V', 'v'), ('W', 'w'), ('X', 'x'),
   ('Y', 'y'), ('Z', 'z')]

/-- Lower-case one character. -/
def asciiLower (c : Char) : Char :=
  ((asciiLowerPairs.find? fun p => p.1 = c).map Prod.snd).getD c

/-- Model of Rust `str::to_lowercase` on ASCII strings. -/
def lowerStr (s : String) : String :=
  String.mk (s.data.map asciiLower)

/-- Position of the first occurrence of a key in a list (the
`iter().position(|x| x == key)` pattern of the source). -/
def positionOf (l : List String) (key : String) : Option ℕ :=
  match l with
  | [] => none
  | x :: xs => if x = key then some 0 else (positionOf xs key).map (· + 1)

/-- Numeric value of a list of decimal digit characters. -/
def digitsVal (cs : List Char) : ℕ :=
  cs.foldl (fun a c => a * 10 + (c.toNat - 48)) 0

/-- All characters are decimal digits. -/
def allDigits (cs : List Char) : Bool :=
  cs.all Char.isDigit

/-- Model of `str::parse::<usize>`: optional `+` sign followed by one or
more decimal digits (overflow is outside the model). -/
def parseNat? (s : String) : Option ℕ :=
  let cs := match s.data with
    | '+' :: r => r
    | cs => cs
  if cs ≠ [] && allDigits cs then some (digitsVal cs) else none

/-- Sign-stripping helper: returns `(negative, rest)`. -/
def stripSign : List Char → Bool × List Char
  | '+' :: r => (false, r)
  | '-' :: r => (true, r)
  | cs => (false, cs)

/-- Split a character list on a separator (the `str::split` semantics of
`List.splitOn`, written structurally). -/
def splitOnChar (c : Char) : List Char → List (List Char)
  | [] => [[]]
  | x :: xs =>
      let r := splitOnChar c xs
      if x = c then [] :: r else (x :: r.headD []) :: r.tail

/-- Exponent part of a decimal float literal: optional sign, one or more
digits. -/
def parseExp? (cs : List Char) : Option ℤ :=
  let (neg, ds) := stripSign cs
  if ds ≠ [] && allDigits ds then
    some (if neg then -(digitsVal ds : ℤ) else (digitsVal ds : ℤ))
  else none

/-- Mantissa of a decimal float literal: digits with at most one dot and at
least one digit overall (Rust accepts `3.`, `.5`, `3.5`, `3`). -/
def parseMant? (cs : List Char) : Option ℚ :=
  match splitOnChar '.' cs with
  | [ip] =>
      if ip ≠ [] && allDigits ip then some (digitsVal ip : ℚ) else none
  | [ip, fp] =>
      if (ip ≠ [] || fp ≠ []) && allDigits ip && allDigits fp then
        some ((digitsVal ip : ℚ) + (digitsVal fp : ℚ) / 10 ^ fp.length)
      else none
  | _ => none

/-- Model of `str::parse::<f64>` on finite decimal numerals: optional sign,
mantissa, optional `e`/`E` exponent.  Returns the exact rational value. -/
def parseF64? (s : String) : Option ℚ :=
  let (neg, cs) := stripSign s.data
  let cs := cs.map fun c => if c = 'E' then 'e' else c
  let signed : ℚ → ℚ := fun q => if neg then -q else q
  match splitOnChar 'e' cs with
  | [mant] => (parseMant? mant).map signed
  | [mant, ex] =>
      match parseMant? mant, parseExp? ex with
      | some m, some e => some (signed (m * (10 : ℚ) ^ e))
      | _, _ => none
  | _ => none

/-- Recogniser for the IEEE special literals that Rust's `f64` parser also
accepts (case-insensitively, with optional sign) but that have no rational
value. -/
def isSpecialFloat (s : String) : Bool :=
  let t := lowerStr (String.mk (stripSign s.data).2)
  t == "inf" || t == "infinity" || t == "nan"

/-- A string is accepted by Rust's `f64` parser iff it is a finite decimal
numeral or one of the special literals. -/
def rustParsesF64 (s : String) : Bool :=
  (parseF64? s).isSome || isSpecialFloat s

/-- Model of Rust `f64::round` (round half away from zero), as a map on the
reals whose result is an integer. -/
noncomputable def rustRound (x : ℝ) : ℝ :=
  if 0 ≤ x then (⌊x + 1 / 2⌋ : ℤ) else -((⌊-x + 1 / 2⌋ : ℤ) : ℝ)

/-- Rounding to two decimal places (the operation the specification's words
describe for the combined add-on); stated for comparison with what the
source actually computes. -/
noncomputable def roundTwoDecimals (x : ℝ) : ℝ :=
  rustRound (x * 100) / 100

/-! ## CRIF utilities (from `src/simm_utils.rs`) -/

/-- Type alias for CRIF data: first row is the header, subsequent rows are
data (`simm_utils.rs` line 5). -/
abbrev Crif : Type := List (List String)

/-- Column index of a name in the header row (`get_column_index`,
`simm_utils.rs` lines 8-13). -/
def getColumnIndex (crif : Crif) (columnName : String) : Option ℕ :=
  match crif with
  | [] => none
  | header :: _ => positionOf header columnName

/-- All values of a column, skipping the header; `none` when the row is too
short (`get_column_values`, `simm_utils.rs` lines 16-32). -/
def getColumnValues (crif : Crif) (columnName : String) : List (Option String) :=
  match getColumnIndex crif columnName with
  | none => []
  | some idx => (List.drop 1 crif).map fun row => row.get? idx

/-- Sum of the `AmountUSD` column; blanks and unparseable cells contribute
nothing (`sum_sensitivities`, `simm_utils.rs` lines 40-55). -/
def sumSensitivities (crif : Crif) : ℚ :=
  (getColumnValues crif "AmountUSD").foldl
    (fun total val =>
      match val with
      | some v =>
          if v ≠ "" then
            match parseF64? v with
            | some num => total + num
            | none => total
          else total
      | none => total)
    0

/-- First-seen deduplication of a list (the `HashSet`-plus-`retain` pattern
of the source). -/
def dedupFirst [BEq α] (l : List α) : List α :=
  l.foldl (fun acc v => if acc.contains v then acc else acc ++ [v]) []

/-- Distinct non-empty, non-`"nan"` values of a column in first-seen order
(`unique_column_values`, `simm_utils.rs` lines 90-104). -/
def uniqueColumnValues (crif : Crif) (columnName : String) : List String :=
  (getColumnValues crif columnName).foldl
    (fun result val =>
      match val with
      | some v =>
          if v ≠ "" && v != "nan" && !result.contains v then result ++ [v]
          else result
      | none => result)
    []

/-- The canonical twelve SIMM tenors (`constants.rs` lines 22-24). -/
def SIMM_TENOR_LIST : List String :=
  ["2w", "1m", "3m", "6m", "1y", "2y", "3y", "5y", "10y", "15y", "20y", "30y"]

/-- Distinct lowercased `Label1` values restricted to the canonical twelve
tenors, first-seen order (`tenor_list`, `simm_utils.rs` lines 58-72). -/
def tenorList (crif : Crif) : List String :=
  (getColumnValues crif "Label1").foldl
    (fun tenors x =>
      match x with
      | some val =>
          let tenor := lowerStr val
          if SIMM_TENOR_LIST.contains tenor && !tenors.contains tenor then
            tenors ++ [tenor]
          else tenors
      | none => tenors)
    []

/-- Swap the two three-letter halves of a six-character currency pair. -/
def swapPair (val : String) : String :=
  String.mk (val.data.drop 3 ++ val.data.take 3)

/-- Distinct six-character qualifiers deduplicated up to swapping the two
currencies (`currency_pair_list`, `simm_utils.rs` lines 107-128). -/
def currencyPairList (crif : Crif) : List String :=
  let pairs :=
    (getColumnValues crif "Qualifier").foldl
      (fun ps x =>
        match x with
        | some val =>
            if val ≠ "" && val != "nan" && val.length == 6 then
              if !ps.contains (swapPair val) then ps ++ [val] else ps
            else ps
        | none => ps)
      []
  dedupFirst pairs

/-- Distinct non-empty `ProductClass` values in first-seen order
(`product_list`, `simm_utils.rs` lines 131-148). -/
def productList (crif : Crif) : List String :=
  let products :=
    (getColumnValues crif "ProductClass").foldl
      (fun ps x =>
        match x with
        | some val => if val ≠ "" && val != "nan" then ps ++ [val] else ps
        | none => ps)
      []
  dedupFirst products

/-- Distinct buckets of the `Bucket` column as numbers; `"Residual"` is
mapped to the sentinel `0`, appended after all numeric buckets
(`bucket_list`, `simm_utils.rs` lines 151-178). -/
def bucketList (crif : Crif) : List ℕ :=
  let step :=
    (getColumnValues crif "Bucket").foldl
      (fun (acc : List ℕ × Bool) x =>
        match x with
        | some val =>
            if val = "Residual" then (acc.1, true)
            else if val ≠ "" && val != "nan" then
              match parseNat? val with
              | some num => (acc.1 ++ [num], acc.2)
              | none => acc
            else acc
        | none => acc)
      ([], false)
  dedupFirst (if step.2 then step.1 ++ [0] else step.1)

/-- Remove every occurrence of a character (Rust `str::replace(c, "")`). -/
def removeChar (c : Char) (s : String) : String :=
  String.mk (s.data.filter fun x => x ≠ c)

/-- Guarded ratio `min 1 (14 / tDays)`.  In the source `t_days = 0` yields
`14/0 = +∞` and `f64::min(1.0, +∞) = 1.0`; the rational model makes that
case explicit (negative-zero literals are outside the model). -/
def capRatio14 (tDays : ℚ) : ℚ :=
  if tDays = 0 then 1 else min 1 (14 / tDays)

/-- Curvature scaling function of a tenor label (`scaling_func`,
`simm_utils.rs` lines 181-201).  Total: every parse failure falls through
to the default `0.5`. -/
def scalingFunc (t : String) : ℚ :=
  let tLower := lowerStr t
  if tLower = "2w" then 1 / 2
  else if tLower.data.contains 'm' then
    match parseF64? (removeChar 'm' tLower) with
    | some months => (1 / 2) * capRatio14 ((365 / 12) * months)
    | none => 1 / 2
  else if tLower.data.contains 'y' then
    match parseF64? (removeChar 'y' tLower) with
    | some years => (1 / 2) * capRatio14 (365 * years)
    | none => 1 / 2
  else 1 / 2

/-- Concentration multiplier `max(1, sqrt(|Σs| / T))`
(`concentration_threshold`, `simm_utils.rs` lines 35-37). -/
noncomputable def concentrationThreshold (sumS t : ℝ) : ℝ :=
  max 1 (Real.sqrt (|sumS| / t))

/-! ## Row filtering (from `src/margin_risk_class.rs`) -/

/-- One filter condition holds of a row: the column exists in the header,
the row is long enough, and the cell is among the allowed values. -/
def condHolds (crif : Crif) (row : List String) (cond : String × List String) : Bool :=
  match getColumnIndex crif cond.1 with
  | some idx =>
      match row.get? idx with
      | some v => cond.2.contains v
      | none => false
  | none => false

/-- Keep the header and the rows satisfying every condition (`filter_rows`,
`margin_risk_class.rs` lines 45-91; conditions are a conjunction of
column-membership tests, and a condition naming a missing column rejects
every row). -/
def filterRows (crif : Crif) (conds : List (String × List String)) : Crif :=
  match crif with
  | [] => []
  | header :: rows => header :: rows.filter fun row => conds.all (condHolds crif row)

/-- One drop condition matches a row: the column exists, the row is long
enough and the cell equals the expected value. -/
def dropCondHolds (crif : Crif) (row : List String) (cond : String × String) : Bool :=
  match getColumnIndex crif cond.1 with
  | some idx =>
      match row.get? idx with
      | some v => v == cond.2
      | none => false
  | none => false

/-- Keep the header and the rows NOT matching all conditions (`drop_rows`,
`margin_risk_class.rs` lines 104-145). -/
def dropRows (crif : Crif) (conds : List (String × String)) : Crif :=
  match crif with
  | [] => []
  | header :: rows =>
      header :: rows.filter fun row => !(conds.all (dropCondHolds crif row))

/-- Values of a column as a plain list, rows too short skipped (`to_list`,
`margin_risk_class.rs` lines 148-164). -/
def toListColumn (crif : Crif) (columnName : String) : List String :=
  match getColumnIndex crif columnName with
  | none => []
  | some idx => (List.drop 1 crif).filterMap fun row => row.get? idx

/-- Alias used by `margin_risk_class.rs` (`unique_values`, lines 94-96). -/
def uniqueValues (crif : Crif) (columnName : String) : List String :=
  uniqueColumnValues crif columnName

/-! ## Risk-type groupings (from `src/constants.rs`) -/

/-- Rates risk types (`LIST_RATES`, `constants.rs` lines 26-32). -/
def LIST_RATES : List String :=
  ["Risk_IRCurve", "Risk_Inflation", "Risk_XCcyBasis", "Risk_IRVol", "Risk_InflationVol"]

/-- FX risk types (`LIST_FX`, `constants.rs` lines 34-37). -/
def LIST_FX : List String := ["Risk_FX", "Risk_FXVol"]

/-- Qualifying credit risk types (`LIST_CREDIT_Q`, `constants.rs` lines 39-43). -/
def LIST_CREDIT_Q : List String := ["Risk_CreditQ", "Risk_CreditVol", "Risk_BaseCorr"]

/-- Non-qualifying credit risk types (`LIST_CREDIT_NON_Q`, `constants.rs`
lines 45-48). -/
def LIST_CREDIT_NON_Q : List String := ["Risk_CreditNonQ", "Risk_CreditVolNonQ"]

/-- Equity risk types (`LIST_EQUITY`, `constants.rs` lines 50-53). -/
def LIST_EQUITY : List String := ["Risk_Equity", "Risk_EquityVol"]

/-- Commodity risk types (`LIST_COMMODITY`, `constants.rs` lines 55-58). -/
def LIST_COMMODITY : List String := ["Risk_Commodity", "Risk_CommodityVol"]

/-! ## Version 2.5 parameter tables (from `src/v2_5.rs`; the two `CORR_PARAMS`
matrices of `src/v2_6.rs` and `src/v2_7.rs` are included for the cross-class
correlation claim) -/

/-- Regular-volatility currency bucket (`v2_5.rs` lines 75-78). -/
def REG_VOL_CCY_BUCKET : List String :=
  ["USD", "EUR", "GBP", "CHF", "AUD", "NZD", "CAD",
   "SEK", "NOK", "DKK", "HKD", "KRW", "SGD", "TWD"]

/-- Low-volatility currency bucket (`v2_5.rs` line 80). -/
def LOW_VOL_CCY_BUCKET : List String := ["JPY"]

/-- Regular-volatility IR delta risk weights by tenor (`v2_5.rs` lines 82-95) -/
def REG_VOL_RW : List (String × ℚ) :=
  [("2w", 115), ("1m", 112), ("3m", 96), ("6m", 74), ("1y", 66), ("2y", 61), ("3y", 56), ("5y", 52), ("10y", 53), ("15y", 57), ("20y", 60), ("30y", 66)]

/-- Low-volatility IR delta risk weights by tenor (`v2_5.rs` lines 104-117) -/
def LOW_VOL_RW : List (String × ℚ) :=
  [("2w", 15), ("1m", 18), ("3m", 9), ("6m", 11), ("1y", 13), ("2y", 15), ("3y", 18), ("5y", 20), ("10y", 19), ("15y", 19), ("20y", 20), ("30y", 23)]

/-- High-volatility IR delta risk weights by tenor (`v2_5.rs` lines 128-141) -/
def HIGH_VOL_RW : List (String × ℚ) :=
  [("2w", 119), ("1m", 93), ("3m", 80), ("6m", 82), ("1y", 90), ("2y", 92), ("3y", 95), ("5y", 95), ("10y", 94), ("15y", 108), ("20y", 105), ("30y", 101)]

/-- CreditQ delta risk weights by bucket, index 0 = Residual (`v2_5.rs` lines 176-190) -/
def CREDIT_Q_RW : List ℚ :=
  [665, 75, 91, 78, 55, 67, 47, 187, 665, 262, 251, 172, 247]

/-- CreditQ correlation scalars {same-name, different-name, residual, base-corr} (`v2_5.rs` line 194) -/
def CREDIT_Q_CORR : List ℚ :=
  [0.93, 0.42, 0.5, 0.24]

/-- CreditNonQ delta risk weights by bucket (`v2_5.rs` lines 211-215) -/
def CREDIT_NON_Q_RW : List ℚ :=
  [1300, 280, 1300]

/-- CreditNonQ correlation scalars (`v2_5.rs` line 218) -/
def CREDIT_NON_Q_CORR : List ℚ :=
  [0.82, 0.27, 0.5]

/-- Equity delta risk weights by bucket (`v2_5.rs` lines 221-235) -/
def EQUITY_RW : List ℚ :=
  [34, 26, 28, 34, 28, 23, 25, 29, 27, 32, 32, 18, 18]

/-- Equity intra-bucket correlations by bucket (`v2_5.rs` lines 241-255) -/
def EQUITY_CORR : List ℚ :=
  [0, 0.18, 0.23, 0.30, 0.26, 0.23, 0.35, 0.36, 0.33, 0.19, 0.20, 0.45, 0.45]

/-- Commodity delta risk weights by bucket (`v2_5.rs` lines 272-291) -/
def COMMODITY_RW : List ℚ :=
  [0, 27, 29, 33, 25, 35, 24, 40, 53, 44, 58, 20, 21, 13, 16, 13, 58, 17]

/-- Commodity intra-bucket correlations by bucket (`v2_5.rs` lines 296-315) -/
def COMMODITY_CORR : List ℚ :=
  [0, 0.84, 0.98, 0.96, 0.97, 0.98, 0.88, 0.98, 0.49, 0.80, 0.46, 0.55, 0.46, 0.66, 0.18, 0.21, 0.00, 0.36]

/-- CreditQ delta concentration thresholds by bucket, millions (`v2_5.rs` lines 515-529) -/
def CREDIT_DELTA_CT_QUALIFYING : List ℚ :=
  [0.19, 0.91, 0.19, 0.19, 0.19, 0.19, 0.19, 0.91, 0.19, 0.19, 0.19, 0.19, 0.19]

/-- CreditNonQ delta concentration thresholds by bucket, millions (`v2_5.rs` lines 531-535) -/
def CREDIT_DELTA_CT_NON_QUALIFYING : List ℚ :=
  [0.5, 9.5, 0.5]

/-- Equity delta concentration thresholds by bucket, millions (`v2_5.rs` lines 548-562) -/
def EQUITY_DELTA_CT : List ℚ :=
  [0.6, 10, 10, 10, 10, 21, 21, 21, 21, 1.4, 0.6, 2100, 2100]

/-- Commodity delta concentration thresholds by bucket, millions (`v2_5.rs` lines 565-584) -/
def COMMODITY_DELTA_CT : List ℚ :=
  [52, 310, 2100, 1700, 1700, 1700, 3200, 3200, 2700, 2700, 52, 530, 1600, 100, 100, 100, 52, 4000]

/-- Equity vega concentration thresholds by bucket, millions (`v2_5.rs` lines 637-651) -/
def EQUITY_VEGA_CT : List ℚ :=
  [40, 210, 210, 210, 210, 1300, 1300, 1300, 1300, 40, 200, 5900, 5900]

/-- Commodity vega concentration thresholds by bucket, millions (`v2_5.rs` lines 653-672) -/
def COMMODITY_VEGA_CT : List ℚ :=
  [65, 210, 2700, 290, 290, 290, 5000, 5000, 920, 920, 100, 350, 720, 500, 500, 500, 65, 65]

/-- Tenor-by-tenor IR correlation matrix (`v2_5.rs` lines 157-170) -/
def IR_CORR : List (List ℚ) := [
  [1.00, 0.74, 0.63, 0.55, 0.45, 0.36, 0.32, 0.28, 0.23, 0.20, 0.18, 0.16],
  [0.74, 1.00, 0.80, 0.69, 0.52, 0.41, 0.35, 0.29, 0.24, 0.18, 0.17, 0.16],
  [0.63, 0.80, 1.00, 0.85, 0.67, 0.53, 0.45, 0.39, 0.32, 0.24, 0.22, 0.22],
  [0.55, 0.69, 0.85, 1.00, 0.83, 0.71, 0.62, 0.54, 0.45, 0.36, 0.35, 0.33],
  [0.45, 0.52, 0.67, 0.83, 1.00, 0.94, 0.86, 0.78, 0.65, 0.58, 0.55, 0.53],
  [0.36, 0.41, 0.53, 0.71, 0.94, 1.00, 0.95, 0.89, 0.78, 0.72, 0.68, 0.67],
  [0.32, 0.35, 0.45, 0.62, 0.86, 0.95, 1.00, 0.96, 0.87, 0.80, 0.77, 0.74],
  [0.28, 0.29, 0.39, 0.54, 0.78, 0.89, 0.96, 1.00, 0.94, 0.89, 0.86, 0.84],
  [0.23, 0.24, 0.32, 0.45, 0.65, 0.78, 0.87, 0.94, 1.00, 0.97, 0.95, 0.94],
  [0.20, 0.18, 0.24, 0.36, 0.58, 0.72, 0.80, 0.89, 0.97, 1.00, 0.98, 0.98],
  [0.18, 0.17, 0.22, 0.35, 0.55, 0.68, 0.77, 0.86, 0.95, 0.98, 1.00, 0.99],
  [0.16, 0.16, 0.22, 0.33, 0.53, 0.67, 0.74, 0.84, 0.94, 0.98, 0.99, 1.00]]

/-- CreditQ cross-bucket gamma matrix, buckets 1-12 (`v2_5.rs` lines 196-209) -/
def CREDIT_Q_CORR_NON_RES : List (List ℚ) := [
  [1.00, 0.36, 0.38, 0.35, 0.37, 0.33, 0.36, 0.31, 0.32, 0.33, 0.32, 0.30],
  [0.36, 1.00, 0.46, 0.44, 0.45, 0.43, 0.33, 0.36, 0.38, 0.39, 0.40, 0.36],
  [0.38, 0.46, 1.00, 0.49, 0.49, 0.47, 0.34, 0.36, 0.41, 0.42, 0.43, 0.39],
  [0.35, 0.44, 0.49, 1.00, 0.48, 0.48, 0.31, 0.34, 0.38, 0.42, 0.41, 0.37],
  [0.37, 0.45, 0.49, 0.48, 1.00, 0.48, 0.33, 0.35, 0.39, 0.42, 0.43, 0.38],
  [0.33, 0.43, 0.47, 0.48, 0.48, 1.00, 0.29, 0.32, 0.36, 0.39, 0.40, 0.35],
  [0.36, 0.33, 0.34, 0.31, 0.33, 0.29, 1.00, 0.28, 0.32, 0.31, 0.30, 0.28],
  [0.31, 0.36, 0.36, 0.34, 0.35, 0.32, 0.28, 1.00, 0.33, 0.34, 0.33, 0.30],
  [0.32, 0.38, 0.41, 0.38, 0.39, 0.36, 0.32, 0.33, 1.00, 0.38, 0.36, 0.34],
  [0.33, 0.39, 0.42, 0.42, 0.42, 0.39, 0.31, 0.34, 0.38, 1.00, 0.38, 0.36],
  [0.32, 0.40, 0.43, 0.41, 0.43, 0.40, 0.30, 0.33, 0.36, 0.38, 1.00, 0.35],
  [0.30, 0.36, 0.39, 0.37, 0.38, 0.35, 0.28, 0.30, 0.34, 0.36, 0.35, 1.00]]

/-- Equity cross-bucket gamma matrix, buckets 1-12 (`v2_5.rs` lines 257-270) -/
def EQUITY_CORR_NON_RES : List (List ℚ) := [
  [1.00, 0.20, 0.20, 0.20, 0.13, 0.16, 0.16, 0.16, 0.17, 0.12, 0.18, 0.18],
  [0.20, 1.00, 0.25, 0.23, 0.14, 0.17, 0.18, 0.17, 0.19, 0.13, 0.19, 0.19],
  [0.20, 0.25, 1.00, 0.24, 0.13, 0.17, 0.18, 0.16, 0.20, 0.13, 0.18, 0.18],
  [0.20, 0.23, 0.24, 1.00, 0.17, 0.22, 0.22, 0.22, 0.21, 0.16, 0.24, 0.24],
  [0.13, 0.14, 0.13, 0.17, 1.00, 0.27, 0.26, 0.27, 0.15, 0.20, 0.30, 0.30],
  [0.16, 0.17, 0.17, 0.22, 0.27, 1.00, 0.34, 0.33, 0.18, 0.24, 0.38, 0.38],
  [0.16, 0.18, 0.18, 0.22, 0.26, 0.34, 1.00, 0.32, 0.18, 0.24, 0.37, 0.37],
  [0.16, 0.17, 0.16, 0.22, 0.27, 0.33, 0.32, 1.00, 0.18, 0.23, 0.37, 0.37],
  [0.17, 0.19, 0.20, 0.21, 0.15, 0.18, 0.18, 0.18, 1.00, 0.14, 0.20, 0.20],
  [0.12, 0.13, 0.13, 0.16, 0.20, 0.24, 0.24, 0.23, 0.14, 1.00, 0.25, 0.25],
  [0.18, 0.19, 0.18, 0.24, 0.30, 0.38, 0.37, 0.37, 0.20, 0.25, 1.00, 0.45],
  [0.18, 0.19, 0.18, 0.24, 0.30, 0.38, 0.37, 0.37, 0.20, 0.25, 0.45, 1.00]]

/-- Commodity cross-bucket gamma matrix, buckets 1-17 (`v2_5.rs` lines 317-335) -/
def COMMODITY_CORR_NON_RES : List (List ℚ) := [
  [1.00, 0.33, 0.21, 0.27, 0.29, 0.21, 0.48, 0.16, 0.41, 0.23, 0.18, 0.02, 0.21, 0.19, 0.15, 0.00, 0.24],
  [0.33, 1.00, 0.94, 0.94, 0.89, 0.21, 0.19, 0.13, 0.21, 0.21, 0.41, 0.27, 0.31, 0.29, 0.21, 0.00, 0.60],
  [0.21, 0.94, 1.00, 0.91, 0.85, 0.12, 0.20, 0.09, 0.19, 0.20, 0.36, 0.18, 0.22, 0.23, 0.23, 0.00, 0.54],
  [0.27, 0.94, 0.91, 1.00, 0.84, 0.14, 0.24, 0.13, 0.21, 0.19, 0.39, 0.25, 0.23, 0.27, 0.18, 0.00, 0.59],
  [0.29, 0.89, 0.85, 0.84, 1.00, 0.15, 0.17, 0.09, 0.16, 0.21, 0.38, 0.28, 0.28, 0.27, 0.18, 0.00, 0.55],
  [0.21, 0.21, 0.12, 0.14, 0.15, 1.00, 0.33, 0.53, 0.26, 0.09, 0.21, 0.04, 0.11, 0.10, 0.09, 0.00, 0.24],
  [0.48, 0.19, 0.20, 0.24, 0.17, 0.33, 1.00, 0.31, 0.72, 0.24, 0.14, -0.12, 0.19, 0.14, 0.08, 0.00, 0.24],
  [0.16, 0.13, 0.09, 0.13, 0.09, 0.53, 0.31, 1.00, 0.24, 0.04, 0.13, -0.07, 0.04, 0.06, 0.01, 0.00, 0.16],
  [0.41, 0.21, 0.19, 0.21, 0.16, 0.26, 0.72, 0.24, 1.00, 0.21, 0.18, -0.07, 0.12, 0.12, 0.10, 0.00, 0.21],
  [0.23, 0.21, 0.20, 0.19, 0.21, 0.09, 0.24, 0.04, 0.21, 1.00, 0.14, 0.11, 0.11, 0.10, 0.07, 0.00, 0.14],
  [0.18, 0.41, 0.36, 0.39, 0.38, 0.21, 0.14, 0.13, 0.18, 0.14, 1.00, 0.28, 0.30, 0.25, 0.18, 0.00, 0.38],
  [0.02, 0.27, 0.18, 0.25, 0.28, 0.04, -0.12, -0.07, -0.07, 0.11, 0.28, 1.00, 0.18, 0.18, 0.08, 0.00, 0.21],
  [0.21, 0.31, 0.22, 0.23, 0.28, 0.11, 0.19, 0.04, 0.12, 0.11, 0.30, 0.18, 1.00, 0.34, 0.16, 0.00, 0.34],
  [0.19, 0.29, 0.23, 0.27, 0.27, 0.10, 0.14, 0.06, 0.12, 0.10, 0.25, 0.18, 0.34, 1.00, 0.13, 0.00, 0.26],
  [0.15, 0.21, 0.23, 0.18, 0.18, 0.09, 0.08, 0.01, 0.10, 0.07, 0.18, 0.08, 0.16, 0.13, 1.00, 0.00, 0.21],
  [0.00, 0.00, 0.00, 0.00, 0.00, 0.00, 0.00, 0.00, 0.00, 0.00, 0.00, 0.00, 0.00, 0.00, 0.00, 1.00, 0.00],
  [0.24, 0.60, 0.54, 0.59, 0.55, 0.24, 0.24, 0.16, 0.21, 0.14, 0.38, 0.21, 0.34, 0.26, 0.21, 0.00, 1.00]]

/-- Cross-risk-class correlation matrix psi for version 2.5 (`v2_5.rs` lines 674-681) -/
def CORR_PARAMS : List (List ℚ) := [
  [1.00, 0.29, 0.13, 0.28, 0.46, 0.32],
  [0.29, 1.00, 0.54, 0.71, 0.52, 0.38],
  [0.13, 0.54, 1.00, 0.46, 0.41, 0.12],
  [0.28, 0.71, 0.46, 1.00, 0.49, 0.35],
  [0.46, 0.52, 0.41, 0.49, 1.00, 0.41],
  [0.32, 0.38, 0.12, 0.35, 0.41, 1.00]]

/-- Cross-risk-class correlation matrix psi for version 2.6 (`v2_6.rs` lines 671-678) -/
def CORR_PARAMS_V2_6 : List (List ℚ) := [
  [1.00, 0.04, 0.04, 0.07, 0.37, 0.14],
  [0.04, 1.00, 0.54, 0.70, 0.27, 0.37],
  [0.04, 0.54, 1.00, 0.46, 0.24, 0.15],
  [0.07, 0.70, 0.46, 1.00, 0.35, 0.39],
  [0.37, 0.27, 0.24, 0.35, 1.00, 0.35],
  [0.14, 0.37, 0.15, 0.39, 0.35, 1.00]]

/-- Cross-risk-class correlation matrix psi for version 2.7 (`v2_7.rs` lines 671-678) -/
def CORR_PARAMS_V2_7 : List (List ℚ) := [
  [1.00, 0.15, 0.09, 0.08, 0.33, 0.09],
  [0.15, 1.00, 0.52, 0.67, 0.23, 0.20],
  [0.09, 0.52, 1.00, 0.36, 0.16, 0.12],
  [0.08, 0.67, 0.36, 1.00, 0.34, 0.24],
  [0.33, 0.23, 0.16, 0.34, 1.00, 0.28],
  [0.09, 0.20, 0.12, 0.24, 0.28, 1.00]]

/-- Scalar parameters of version 2.5 (`v2_5.rs` lines 152-155, 172-175,
192-193, 217-219, 237-239, 293-294, 354-355, 393). -/
def INFLATION_RW : ℚ := 63

/-- Cross-currency basis swap spread risk weight (`v2_5.rs` line 153). -/
def CCY_BASIS_SWAP_SPREAD_RW : ℚ := 21

/-- IR historical volatility ratio (`v2_5.rs` line 154). -/
def IR_HVR : ℚ := 0.44

/-- IR vega risk weight (`v2_5.rs` line 155). -/
def IR_VRW : ℚ := 0.18

/-- Sub-curves correlation (`v2_5.rs` line 172). -/
def SUB_CURVES_CORR : ℚ := 0.99

/-- Inflation correlation (`v2_5.rs` line 173). -/
def INFLATION_CORR : ℚ := 0.37

/-- Cross-currency basis spread correlation (`v2_5.rs` line 174). -/
def CCY_BASIS_SPREAD_CORR : ℚ := 0.01

/-- IR cross-currency gamma (`v2_5.rs` line 175). -/
def IR_GAMMA_DIFF_CCY : ℚ := 0.24

/-- CreditQ vega risk weight (`v2_5.rs` line 192). -/
def CREDIT_Q_V_RW : ℚ := 0.74

/-- CreditQ base-correlation weight (`v2_5.rs` line 193). -/
def CREDIT_Q_BASE_CORR_WEIGHT : ℚ := 10

/-- CreditNonQ vega risk weight (`v2_5.rs` line 217). -/
def CREDIT_NON_Q_VRW : ℚ := 0.74

/-- Credit cross-bucket gamma for CreditNonQ (`v2_5.rs` line 219). -/
def CR_GAMMA_DIFF_CCY : ℚ := 0.40

/-- Equity historical volatility ratio (`v2_5.rs` line 237). -/
def EQUITY_HVR : ℚ := 0.58

/-- Equity vega risk weight (`v2_5.rs` line 238). -/
def EQUITY_VRW : ℚ := 0.45

/-- Equity vega risk weight for bucket 12 (`v2_5.rs` line 239). -/
def EQUITY_VRW_BUCKET_12 : ℚ := 0.96

/-- Commodity historical volatility ratio (`v2_5.rs` line 293). -/
def COMMODITY_HVR : ℚ := 0.69

/-- Commodity vega risk weight (`v2_5.rs` line 294). -/
def COMMODITY_VRW : ℚ := 0.60

/-- FX historical volatility ratio (`v2_5.rs` line 354). -/
def FX_HVR : ℚ := 0.52

/-- FX vega risk weight (`v2_5.rs` line 355). -/
def FX_VRW : ℚ := 0.47

/-- FX vega correlation (`v2_5.rs` line 393). -/
def FX_VEGA_CORR : ℚ := 0.5

/-- High-volatility currency group (`v2_5.rs` line 337). -/
def HIGH_VOL_CURRENCY_GROUP : List String := ["BRL", "RUB", "TRY", "ZAR"]

/-- FX risk levels (`RiskLevel`, `v2_5.rs` lines 339-343). -/
inductive RiskLevel
  | regular
  | high
deriving DecidableEq

/-- FX delta risk weight by pair of risk levels (`fx_rw`, `v2_5.rs`
lines 345-352). -/
def fx_rw : RiskLevel → RiskLevel → ℚ
  | RiskLevel.regular, RiskLevel.regular => 7.4
  | RiskLevel.regular, RiskLevel.high => 13.6
  | RiskLevel.high, RiskLevel.regular => 13.6
  | RiskLevel.high, RiskLevel.high => 14.6

/-- FX volatility levels (`VolatilityLevel`, `v2_5.rs` lines 357-361). -/
inductive VolatilityLevel
  | regular
  | high
deriving DecidableEq

/-- FX correlations for a regular-volatility calculation currency
(`FX_REG_VOL_CORR` and `fx_reg_vol_corr`, `v2_5.rs` lines 373-376, 385-387). -/
def fxRegVolCorr : VolatilityLevel → VolatilityLevel → ℚ
  | VolatilityLevel.regular, VolatilityLevel.regular => 0.50
  | VolatilityLevel.regular, VolatilityLevel.high => 0.27
  | VolatilityLevel.high, VolatilityLevel.regular => 0.27
  | VolatilityLevel.high, VolatilityLevel.high => 0.42

/-- FX correlations for a high-volatility calculation currency
(`FX_HIGH_VOL_CORR` and `fx_high_vol_corr`, `v2_5.rs` lines 379-382,
389-391). -/
def fxHighVolCorr : VolatilityLevel → VolatilityLevel → ℚ
  | VolatilityLevel.regular, VolatilityLevel.regular => 0.85
  | VolatilityLevel.regular, VolatilityLevel.high => 0.54
  | VolatilityLevel.high, VolatilityLevel.regular => 0.54
  | VolatilityLevel.high, VolatilityLevel.high => 0.50

/-- IR delta concentration threshold in millions by currency
(`Currency::from_str` and `Currency::ir_delta_ct`, `v2_5.rs`
lines 419-436, 459-478). -/
def irDeltaCt (ccy : String) : ℚ :=
  if ["USD", "EUR", "GBP"].contains ccy then 230
  else if ["AUD", "CAD", "CHF", "DKK", "HKD", "KRW", "NOK", "NZD", "SEK",
           "SGD", "TWD"].contains ccy then 44
  else if ccy = "JPY" then 70
  else 33

/-- IR vega concentration threshold in millions by currency
(`Currency::ir_vega_ct`, `v2_5.rs` lines 438-455). -/
def irVegaCt (ccy : String) : ℚ :=
  if ["USD", "EUR", "GBP"].contains ccy then 3300
  else if ["AUD", "CAD", "CHF", "DKK", "HKD", "KRW", "NOK", "NZD", "SEK",
           "SGD", "TWD"].contains ccy then 470
  else if ccy = "JPY" then 570
  else 120

/-- Significantly material FX currencies (`FX_CATEGORY1`, `v2_5.rs`
lines 586-588). -/
def FX_CATEGORY1 : List String := ["USD", "EUR", "JPY", "GBP", "AUD", "CHF", "CAD"]

/-- Frequently traded FX currencies (`FX_CATEGORY2`, `v2_5.rs`
lines 591-594). -/
def FX_CATEGORY2 : List String :=
  ["BRL", "CNY", "HKD", "INR", "KRW", "MXN", "NOK", "NZD", "RUB", "SEK",
   "SGD", "TRY", "ZAR"]

/-- FX currency categories (`FxCategory`, `v2_5.rs` lines 596-601). -/
inductive FxCategory
  | category1
  | category2
  | others
deriving DecidableEq

/-- Category of a currency (`FxCategory::from_currency`, `v2_5.rs`
lines 626-634). -/
def fxCategoryOf (currency : String) : FxCategory :=
  if FX_CATEGORY1.contains currency then FxCategory.category1
  else if FX_CATEGORY2.contains currency then FxCategory.category2
  else FxCategory.others

/-- FX delta concentration threshold in millions (`FxCategory::delta_ct`,
`v2_5.rs` lines 604-610). -/
def fxDeltaCt : FxCategory → ℚ
  | FxCategory.category1 => 5100
  | FxCategory.category2 => 1200
  | FxCategory.others => 190

/-- FX vega concentration threshold in millions by category pair
(`FxCategory::vega_ct`, `v2_5.rs` lines 612-623). -/
def fxVegaCt : FxCategory → FxCategory → ℚ
  | FxCategory.category1, FxCategory.category1 => 2800
  | FxCategory.category1, FxCategory.category2 => 1300
  | FxCategory.category2, FxCategory.category1 => 1300
  | FxCategory.category1, FxCategory.others => 550
  | FxCategory.others, FxCategory.category1 => 550
  | FxCategory.category2, FxCategory.category2 => 490
  | FxCategory.category2, FxCategory.others => 310
  | FxCategory.others, FxCategory.category2 => 310
  | FxCategory.others, FxCategory.others => 200

/-- Credit vega concentration thresholds in millions
(`CreditQuality::vega_ct`, `v2_5.rs` lines 507-512): 260 for qualifying,
145 for non-qualifying. -/
def creditVegaCtQualifying : ℚ := 260

/-- Credit non-qualifying vega concentration threshold in millions. -/
def creditVegaCtNonQualifying : ℚ := 145

/-- Risk-class labels indexing the psi matrix (`RISK_CLASSES`, `v2_5.rs`
line 683). -/
def RISK_CLASSES : List String :=
  ["Rates", "CreditQ", "CreditNonQ", "Equity", "Commodity", "FX"]

/-- Bucket labels for 12-bucket gamma lookups (`BUCKET_LIST_12`, `v2_5.rs`
line 686). -/
def BUCKET_LIST_12 : List String :=
  ["1", "2", "3", "4", "5", "6", "7", "8", "9", "10", "11", "12"]

/-- Bucket labels for 17-bucket gamma lookups (`BUCKET_LIST_17`, `v2_5.rs`
line 687). -/
def BUCKET_LIST_17 : List String :=
  ["1", "2", "3", "4", "5", "6", "7", "8", "9", "10", "11", "12", "13",
   "14", "15", "16", "17"]

/-- Labelled matrix lookup (`matrix_lookup_12` / `_17` / `_6`, `v2_5.rs`
lines 10-65).  The source panics when a key is absent; absence is modelled
as `none` (every lookup the pipeline performs uses keys drawn from the
label lists). -/
def matrixLookup (data : List (List ℚ)) (rowLabels colLabels : List String)
    (rowKey colKey : String) : Option ℚ :=
  match positionOf rowLabels rowKey, positionOf colLabels colKey with
  | some i, some j => some ((data.getD i []).getD j 0)
  | _, _ => none

/-- Table lookup in a tenor-keyed risk-weight list (`reg_vol_rw_lookup` and
friends, `v2_5.rs` lines 97-102, 120-126, 144-150).  The source panics on
an unknown tenor; callers only pass tenors from the canonical twelve, for
which the lookup succeeds, so the default `0` is unreachable. -/
def tenorRwLookup (table : List (String × ℚ)) (tenor : String) : ℚ :=
  ((table.find? fun p => p.1 == tenor).map Prod.snd).getD 0

/-- Bucket string to table index: `"Residual"` is index 0, otherwise the
parsed number (the `bucket_idx` pattern used throughout the `v2_5.rs` trait
implementation). -/
def bucketIdx? (bucket : String) : Option ℕ :=
  if bucket = "Residual" then some 0 else parseNat? bucket

/-- Parameter-provider capability set (`WeightsAndCorr`, `src/wnc.rs`). -/
structure WNC where
  rw : String → String → Option ℚ
  rho : String → String → String → Option String → Option ℚ
  gamma : String → String → String → Option ℚ
  t : String → String → Option String → Option String → Option ℚ
  psi : String → String → Option ℚ

/-- Version 2.5 delta risk weights by risk class and bucket
(`impl WeightsAndCorr for V2_5`, `fn rw`, `v2_5.rs` lines 706-725). -/
def v2_5_rw (riskClass bucket : String) : Option ℚ :=
  match bucketIdx? bucket with
  | none => none
  | some idx =>
      if LIST_CREDIT_Q.contains riskClass then CREDIT_Q_RW.get? idx
      else if LIST_CREDIT_NON_Q.contains riskClass then CREDIT_NON_Q_RW.get? idx
      else if LIST_EQUITY.contains riskClass then EQUITY_RW.get? idx
      else if LIST_COMMODITY.contains riskClass then COMMODITY_RW.get? idx
      else none

/-- Version 2.5 intra-bucket correlations (`fn rho`, `v2_5.rs`
lines 727-772). -/
def v2_5_rho (riskClass index1 index2 : String) (bucket : Option String) :
    Option ℚ :=
  if LIST_RATES.contains riskClass then
    matrixLookup IR_CORR SIMM_TENOR_LIST SIMM_TENOR_LIST index1 index2
  else if LIST_CREDIT_Q.contains riskClass then
    if riskClass = "Risk_BaseCorr" then CREDIT_Q_CORR.get? 3
    else if index1 = "Res" || index2 = "Res" then CREDIT_Q_CORR.get? 2
    else if index1 = index2 then CREDIT_Q_CORR.get? 0
    else CREDIT_Q_CORR.get? 1
  else if LIST_CREDIT_NON_Q.contains riskClass then
    if index1 = "Res" || index2 = "Res" then CREDIT_NON_Q_CORR.get? 2
    else if index1 = index2 then CREDIT_NON_Q_CORR.get? 0
    else CREDIT_NON_Q_CORR.get? 1
  else if LIST_EQUITY.contains riskClass then
    match bucket with
    | none => none
    | some bucketStr =>
        match bucketIdx? bucketStr with
        | none => none
        | some idx => EQUITY_CORR.get? idx
  else if LIST_COMMODITY.contains riskClass then
    match bucket with
    | none => none
    | some bucketStr =>
        match bucketIdx? bucketStr with
        | none => none
        | some idx => COMMODITY_CORR.get? idx
  else none

/-- Version 2.5 cross-bucket correlations (`fn gamma`, `v2_5.rs`
lines 774-790). -/
def v2_5_gamma (riskClass bucket1 bucket2 : String) : Option ℚ :=
  if LIST_CREDIT_Q.contains riskClass then
    matrixLookup CREDIT_Q_CORR_NON_RES BUCKET_LIST_12 BUCKET_LIST_12 bucket1 bucket2
  else if LIST_CREDIT_NON_Q.contains riskClass then some CR_GAMMA_DIFF_CCY
  else if LIST_EQUITY.contains riskClass then
    matrixLookup EQUITY_CORR_NON_RES BUCKET_LIST_12 BUCKET_LIST_12 bucket1 bucket2
  else if LIST_COMMODITY.contains riskClass then
    matrixLookup COMMODITY_CORR_NON_RES BUCKET_LIST_17 BUCKET_LIST_17 bucket1 bucket2
  else none

/-- Version 2.5 concentration thresholds in USD (`fn t`, `v2_5.rs`
lines 792-900). -/
def v2_5_t (riskClass riskType : String) (currency bucket : Option String) :
    Option ℚ :=
  if riskType = "Delta" then
    if riskClass = "Rates" then
      some (irDeltaCt (currency.getD "Others") * 1000000)
    else if LIST_CREDIT_Q.contains riskClass then
      match bucket with
      | none => none
      | some bucketStr =>
          match bucketIdx? bucketStr with
          | none => none
          | some idx => (CREDIT_DELTA_CT_QUALIFYING.get? idx).map (· * 1000000)
    else if LIST_CREDIT_NON_Q.contains riskClass then
      match bucket with
      | none => none
      | some bucketStr =>
          match bucketIdx? bucketStr with
          | none => none
          | some idx => (CREDIT_DELTA_CT_NON_QUALIFYING.get? idx).map (· * 1000000)
    else if LIST_EQUITY.contains riskClass then
      match bucket with
      | none => none
      | some bucketStr =>
          match bucketIdx? bucketStr with
          | none => none
          | some idx => (EQUITY_DELTA_CT.get? idx).map (· * 1000000)
    else if LIST_COMMODITY.contains riskClass then
      match bucket with
      | none => none
      | some bucketStr =>
          match bucketIdx? bucketStr with
          | none => none
          | some idx => (COMMODITY_DELTA_CT.get? idx).map (· * 1000000)
    else if LIST_FX.contains riskClass then
      match currency with
      | none => none
      | some ccy => some (fxDeltaCt (fxCategoryOf ccy) * 1000000)
    else none
  else if riskType = "Vega" then
    if riskClass = "Rates" then
      some (irVegaCt (currency.getD "Others") * 1000000)
    else if LIST_CREDIT_Q.contains riskClass then
      some (creditVegaCtQualifying * 1000000)
    else if LIST_CREDIT_NON_Q.contains riskClass then
      some (creditVegaCtNonQualifying * 1000000)
    else if LIST_EQUITY.contains riskClass then
      match bucket with
      | none => none
      | some bucketStr =>
          match bucketIdx? bucketStr with
          | none => none
          | some idx => (EQUITY_VEGA_CT.get? idx).map (· * 1000000)
    else if LIST_COMMODITY.contains riskClass then
      match bucket with
      | none => none
      | some bucketStr =>
          match bucketIdx? bucketStr with
          | none => none
          | some idx => (COMMODITY_VEGA_CT.get? idx).map (· * 1000000)
    else if LIST_FX.contains riskClass then
      match currency with
      | none => none
      | some ccyPair =>
          if ccyPair.length ≠ 6 then none
          else
            some (fxVegaCt (fxCategoryOf (String.mk (ccyPair.data.take 3)))
              (fxCategoryOf (String.mk (ccyPair.data.drop 3))) * 1000000)
    else none
  else none

/-- Version 2.5 cross-risk-class correlation (`fn psi`, `v2_5.rs`
lines 902-904). -/
def v2_5_psi (rc1 rc2 : String) : Option ℚ :=
  matrixLookup CORR_PARAMS RISK_CLASSES RISK_CLASSES rc1 rc2

/-- Version 2.6 cross-risk-class correlation (`fn psi`, `v2_6.rs`
lines 864-866). -/
def v2_6_psi (rc1 rc2 : String) : Option ℚ :=
  matrixLookup CORR_PARAMS_V2_6 RISK_CLASSES RISK_CLASSES rc1 rc2

/-- Version 2.7 cross-risk-class correlation (`fn psi`, `v2_7.rs`
lines 864-866). -/
def v2_7_psi (rc1 rc2 : String) : Option ℚ :=
  matrixLookup CORR_PARAMS_V2_7 RISK_CLASSES RISK_CLASSES rc1 rc2

/-- The version 2.5 parameter provider as a capability record. -/
def v2_5 : WNC :=
  { rw := v2_5_rw
    rho := v2_5_rho
    gamma := v2_5_gamma
    t := v2_5_t
    psi := v2_5_psi }

/-! ## Bucket-level kernels (from `src/agg_sensitivities.rs`)

List positions model the Rust slice indices; the callers always pass
equally long slices, so the `getD` defaults are unreachable. -/

/-- Volatility level of a currency given its membership of the
high-volatility group. -/
def volLevelOf (isHigh : Bool) : VolatilityLevel :=
  if isHigh then VolatilityLevel.high else VolatilityLevel.regular

/-- Correlation, sub-curve factor and concentration factor for one ordered
pair inside the delta kernel (`k_delta` loop body, `agg_sensitivities.rs`
lines 38-129). -/
noncomputable def kDeltaPair (wnc : WNC) (riskClass : String)
    (listCR : Option (List ℝ)) (bucket tenor index : Option (List String))
    (calculationCurrency : String) (i j : ℕ) : ℝ :=
  let rhoPhi : ℚ × ℚ :=
    if riskClass = "Rates" then
      match index with
      | some idx =>
          let phi :=
            if idx.getD i "" = idx.getD j "" then 1
            else if idx.getD i "" = "XCcy" || idx.getD j "" = "XCcy" then
              CCY_BASIS_SPREAD_CORR
            else if idx.getD i "" = "Inf" || idx.getD j "" = "Inf" then
              INFLATION_CORR
            else SUB_CURVES_CORR
          let rho :=
            if idx.getD i "" ≠ "Inf" && idx.getD i "" ≠ "XCcy" &&
                idx.getD j "" ≠ "Inf" && idx.getD j "" ≠ "XCcy" then
              match tenor with
              | some ten =>
                  (wnc.rho "Risk_IRCurve" (ten.getD i "") (ten.getD j "") none).getD 1
              | none => 1
            else 1
          (rho, phi)
      | none => (1, 1)
    else if LIST_CREDIT_Q.contains riskClass || LIST_CREDIT_NON_Q.contains riskClass then
      let rho :=
        match index with
        | some idx => (wnc.rho riskClass (idx.getD i "") (idx.getD j "") none).getD 1
        | none => 1
      (rho, 1)
    else
      let rho :=
        if LIST_EQUITY.contains riskClass || LIST_COMMODITY.contains riskClass then
          match bucket with
          | some bkt => (wnc.rho riskClass "" "" (some (bkt.getD 0 ""))).getD 1
          | none => 1
        else if LIST_FX.contains riskClass then
          match bucket with
          | some bkt =>
              let isCcy1High := HIGH_VOL_CURRENCY_GROUP.contains (bkt.getD i "")
              let isCcy2High := HIGH_VOL_CURRENCY_GROUP.contains (bkt.getD j "")
              let isCalcCcyHigh := HIGH_VOL_CURRENCY_GROUP.contains calculationCurrency
              if !isCalcCcyHigh then
                fxRegVolCorr (volLevelOf isCcy1High) (volLevelOf isCcy2High)
              else fxHighVolCorr (volLevelOf isCcy1High) (volLevelOf isCcy2High)
          | none => 1
        else 1
      (rho, 1)
  let f : ℝ :=
    if riskClass = "Rates" then 1
    else
      match listCR with
      | some cr =>
          let maxCR := max (cr.getD i 0) (cr.getD j 0)
          if 0 < maxCR then min (cr.getD i 0) (cr.getD j 0) / maxCR else 1
      | none => 1
  (rhoPhi.1 : ℝ) * (rhoPhi.2 : ℝ) * f

/-- Delta capital charge for one bucket (`k_delta`,
`agg_sensitivities.rs` lines 16-136). -/
noncomputable def kDelta (wnc : WNC) (riskClass : String) (listWS : List ℝ)
    (listCR : Option (List ℝ)) (bucket tenor index : Option (List String))
    (calculationCurrency : String) : ℝ :=
  let n := listWS.length
  let base : ℝ := (listWS.map fun ws => ws ^ 2).sum
  Real.sqrt (base +
    ∑ i ∈ Finset.range n, ∑ j ∈ Finset.range n,
      if i = j then 0
      else kDeltaPair wnc riskClass listCR bucket tenor index calculationCurrency i j
        * listWS.getD i 0 * listWS.getD j 0)

/-- Correlation and concentration factor for one ordered pair inside the
vega kernel (`k_vega` loop body, `agg_sensitivities.rs` lines 165-221). -/
noncomputable def kVegaPair (wnc : WNC) (riskClass : String)
    (vcr : Option (List ℝ)) (bucket : Option String) (idx : List String)
    (i j : ℕ) : ℝ :=
  let fOf : Option (List ℝ) → ℝ := fun vcrVals =>
    match vcrVals with
    | some vs =>
        let maxVCR := max (vs.getD i 0) (vs.getD j 0)
        if 0 < maxVCR then min (vs.getD i 0) (vs.getD j 0) / maxVCR else 1
    | none => 1
  let rhoF : ℚ × ℝ :=
    if riskClass = "Rates" then
      let rho :=
        if idx.getD i "" = "Inf" && idx.getD j "" = "Inf" then 1
        else if idx.getD i "" = "Inf" || idx.getD j "" = "Inf" then INFLATION_CORR
        else (wnc.rho "Risk_IRVol" (idx.getD i "") (idx.getD j "") none).getD 1
      (rho, 1)
    else if LIST_EQUITY.contains riskClass || LIST_COMMODITY.contains riskClass then
      ((wnc.rho riskClass "" "" bucket).getD 1, fOf vcr)
    else if LIST_FX.contains riskClass then
      (FX_VEGA_CORR, fOf vcr)
    else if riskClass = "Risk_CreditVol" || riskClass = "Risk_CreditVolNonQ" then
      ((wnc.rho riskClass (idx.getD i "") (idx.getD j "") none).getD 1, fOf vcr)
    else (1, 1)
  rhoF.2 * (rhoF.1 : ℝ)

/-- Vega capital charge for one bucket (`k_vega`, `agg_sensitivities.rs`
lines 147-225). -/
noncomputable def kVega (wnc : WNC) (riskClass : String) (vr : List ℝ)
    (vcr : Option (List ℝ)) (bucket : Option String)
    (index : Option (List String)) : ℝ :=
  let n := vr.length
  let idx := index.getD (List.replicate n "")
  let base : ℝ := (vr.map fun v => v ^ 2).sum
  Real.sqrt (base +
    ∑ i ∈ Finset.range n, ∑ j ∈ Finset.range n,
      if i = j then 0
      else kVegaPair wnc riskClass vcr bucket idx i j * vr.getD i 0 * vr.getD j 0)

/-- Correlation for one ordered pair inside the curvature kernel
(`k_curvature` loop body, `agg_sensitivities.rs` lines 252-278). -/
def kCurvaturePair (wnc : WNC) (riskClass : String) (bucket : Option String)
    (idx : List String) (i j : ℕ) : ℚ :=
  if riskClass = "Rates" then
    if idx.getD i "" = "Inf" && idx.getD j "" = "Inf" then 1
    else if idx.getD i "" = "Inf" || idx.getD j "" = "Inf" then INFLATION_CORR
    else (wnc.rho "Risk_IRVol" (idx.getD i "") (idx.getD j "") none).getD 1
  else if LIST_EQUITY.contains riskClass || LIST_COMMODITY.contains riskClass then
    (wnc.rho riskClass "" "" bucket).getD 1
  else if LIST_FX.contains riskClass then FX_VEGA_CORR
  else if riskClass = "Risk_CreditVol" || riskClass = "Risk_CreditVolNonQ" then
    (wnc.rho riskClass (idx.getD i "") (idx.getD j "") none).getD 1
  else 1

/-- Curvature capital charge for one bucket: the cross terms use `ρ²`
(`k_curvature`, `agg_sensitivities.rs` lines 235-282). -/
noncomputable def kCurvature (wnc : WNC) (riskClass : String)
    (cvrList : List ℝ) (bucket : Option String)
    (index : Option (List String)) : ℝ :=
  let n := cvrList.length
  let idx := index.getD (List.replicate n "")
  let base : ℝ := (cvrList.map fun cvr => cvr ^ 2).sum
  Real.sqrt (base +
    ∑ i ∈ Finset.range n, ∑ j ∈ Finset.range n,
      if i = j then 0
      else ((kCurvaturePair wnc riskClass bucket idx i j : ℝ)) ^ 2
        * cvrList.getD i 0 * cvrList.getD j 0)

/-! ## Risk-class margins (from `src/margin_risk_class.rs`)

Each `*_margin` method of `MarginByRiskClass` starts from the all-zero
margin dictionary (`init_margin_dict`) and adds into at most one cell per
risk class; the result is modelled as a total function
`riskClass → measure → ℝ` that is zero outside the written cells.  The
dictionary keys of `init_margin_dict` are handled at the aggregation level
(`marginMeasures` below). -/

/-- The three rates delta risk types (`ir_delta_margin`,
`margin_risk_class.rs` line 239). -/
def RATES_DELTA_TYPES : List String :=
  ["Risk_IRCurve", "Risk_Inflation", "Risk_XCcyBasis"]

/-- Per-currency concentration multiplier of the IR delta path
(`margin_risk_class.rs` lines 249-262): drop `Risk_XCcyBasis` rows, then
`CR = max(1, sqrt(|Σ s| / T))`. -/
noncomputable def irDeltaCr (wnc : WNC) (crif : Crif) (currency : String) : ℝ :=
  let crifCurrency := filterRows crif [("Qualifier", [currency])]
  let crifWoXccyBasis := dropRows crifCurrency [("RiskType", "Risk_XCcyBasis")]
  let t := (wnc.t "Rates" "Delta" (some currency) none).getD 1
  concentrationThreshold ((sumSensitivities crifWoXccyBasis : ℚ) : ℝ) ((t : ℚ) : ℝ)

/-- Weighted-sensitivity entries `(WS, tenor label, sub-curve index)` built
for one currency of the IR delta path (`margin_risk_class.rs`
lines 264-321).  Sub-curves are enumerated by `unique_values(_, "Label2")`,
which drops empty strings. -/
noncomputable def irDeltaWsEntries (currency : String) (cr : ℝ)
    (crifCurrency : Crif) : List (ℝ × String × String) :=
  (uniqueValues crifCurrency "RiskType").foldl
    (fun acc riskClass =>
      if !RATES_DELTA_TYPES.contains riskClass then acc
      else
        let crifRiskClass := filterRows crifCurrency [("RiskType", [riskClass])]
        let sensitivities := sumSensitivities crifRiskClass
        if riskClass = "Risk_Inflation" then
          acc ++ [(((INFLATION_RW * sensitivities : ℚ) : ℝ) * cr, "Inf", "Inf")]
        else if riskClass = "Risk_XCcyBasis" then
          acc ++ [(((CCY_BASIS_SWAP_SPREAD_RW * sensitivities : ℚ) : ℝ), "XCcy", "XCcy")]
        else
          acc ++ (uniqueValues crifRiskClass "Label2").foldl
            (fun acc2 subcurve =>
              let crifSubcurve := filterRows crifRiskClass [("Label2", [subcurve])]
              acc2 ++ (tenorList crifSubcurve).map fun tenor =>
                let crifTenor := filterRows crifSubcurve [("Label1", [tenor])]
                let s := sumSensitivities crifTenor
                let rw : ℚ :=
                  if REG_VOL_CCY_BUCKET.contains currency then
                    tenorRwLookup REG_VOL_RW tenor
                  else if LOW_VOL_CCY_BUCKET.contains currency then
                    tenorRwLookup LOW_VOL_RW tenor
                  else tenorRwLookup HIGH_VOL_RW tenor
                (((rw * s : ℚ) : ℝ) * cr, tenor, subcurve))
            [])
    []

/-- Per-currency bucket charge and clamped net sensitivity of the IR delta
path (`margin_risk_class.rs` lines 244-340): `K` from the delta kernel and
`S_b = max(min(Σ WS, K), -K)`. -/
noncomputable def irDeltaKS (wnc : WNC) (calcCcy : String) (crif : Crif)
    (currency : String) : ℝ × ℝ :=
  let crifCurrency := filterRows crif [("Qualifier", [currency])]
  let cr := irDeltaCr wnc crif currency
  let entries := irDeltaWsEntries currency cr crifCurrency
  let listWS := entries.map (·.1)
  let tenorK := entries.map (·.2.1)
  let index := entries.map (·.2.2)
  let k := kDelta wnc "Rates" listWS none none (some tenorK) (some index) calcCcy
  (k, max (min listWS.sum k) (-k))

/-- Charge written into the `Rates`/`Delta` cell: cross-currency
aggregation of the per-currency charges (`margin_risk_class.rs`
lines 342-369), with `g = min(CR_b, CR_c)/max(CR_b, CR_c)` and
`γ = IR_GAMMA_DIFF_CCY` only when more than one currency is present. -/
noncomputable def irDeltaMarginK (wnc : WNC) (calcCcy : String)
    (crifFull : Crif) : ℝ :=
  let crif := filterRows crifFull [("RiskType", RATES_DELTA_TYPES)]
  let currencyList := uniqueValues crif "Qualifier"
  let listK := currencyList.map fun c => (irDeltaKS wnc calcCcy crif c).1
  let listS := currencyList.map fun c => (irDeltaKS wnc calcCcy crif c).2
  let kSquaredSum : ℝ :=
    (listK.map fun x => x ^ 2).sum +
      ∑ i ∈ Finset.range currencyList.length,
        ∑ j ∈ Finset.range currencyList.length,
          if i = j then 0
          else
            let crB := irDeltaCr wnc crif (currencyList.getD i "")
            let crC := irDeltaCr wnc crif (currencyList.getD j "")
            let g := min crB crC / max crB crC
            let gamma : ℚ := if 1 < currencyList.length then IR_GAMMA_DIFF_CCY else 1
            (gamma : ℝ) * listS.getD i 0 * listS.getD j 0 * g
  Real.sqrt kSquaredSum

/-- Delta margin for the rates risk class (`ir_delta_margin`,
`margin_risk_class.rs` lines 221-372), as a total cell function. -/
noncomputable def irDeltaMargin (wnc : WNC) (calcCcy : String) (crif : Crif)
    (riskClass measure : String) : ℝ :=
  let listRiskTypes := uniqueValues crif "RiskType"
  if !listRiskTypes.contains "Risk_IRCurve" &&
      !listRiskTypes.contains "Risk_Inflation" &&
      !listRiskTypes.contains "Risk_XCcyBasis" then 0
  else if riskClass = "Rates" && measure = "Delta" then
    irDeltaMarginK wnc calcCcy crif
  else 0

/-- Per-currency data of the FX delta branch (`margin_risk_class.rs`
lines 405-428): weighted sensitivity `s · CR · rw` and the concentration
factor, with `rw = 0` when the qualifier equals the calculation currency. -/
noncomputable def fxDeltaEntry (wnc : WNC) (calcCcy : String) (crifFx : Crif)
    (currency : String) : ℝ × ℝ :=
  let crifCurrency := filterRows crifFx [("Qualifier", [currency])]
  let t := (wnc.t "Risk_FX" "Delta" (some currency) none).getD 1
  let sensitivities := sumSensitivities crifCurrency
  let cr := concentrationThreshold ((sensitivities : ℚ) : ℝ) ((t : ℚ) : ℝ)
  let isGivenHigh := HIGH_VOL_CURRENCY_GROUP.contains currency
  let isCalcHigh := HIGH_VOL_CURRENCY_GROUP.contains calcCcy
  let rw : ℚ :=
    if currency = calcCcy then 0
    else
      fx_rw (if isCalcHigh then RiskLevel.high else RiskLevel.regular)
        (if isGivenHigh then RiskLevel.high else RiskLevel.regular)
  (((sensitivities : ℚ) : ℝ) * cr * (rw : ℝ), cr)

/-- Charge of the FX delta branch (`margin_risk_class.rs` lines 395-444):
delta kernel over all qualifier currencies, with the currency list passed
as the kernel's bucket labels. -/
noncomputable def fxDeltaK (wnc : WNC) (calcCcy : String) (crif : Crif) : ℝ :=
  let crifFx := filterRows crif [("RiskType", ["Risk_FX"])]
  let currencyList := uniqueValues crifFx "Qualifier"
  let listWS := currencyList.map fun c => (fxDeltaEntry wnc calcCcy crifFx c).1
  let listCR := currencyList.map fun c => (fxDeltaEntry wnc calcCcy crifFx c).2
  kDelta wnc "Risk_FX" listWS (some listCR) (some currencyList) none none calcCcy

/-- Weighted sensitivities and (for credit) index labels of one
(risk class, bucket) group of the non-rates delta path
(`margin_risk_class.rs` lines 465-508).  Entries are `(WS, CR)` pairs; the
index list is non-empty only on the credit paths. -/
noncomputable def deltaBucketData (riskClass : String) (bucket : ℕ)
    (crifBucket : Crif) (rw t : ℚ) : List (ℝ × ℝ) × List String :=
  (uniqueValues crifBucket "Qualifier").foldl
    (fun acc qualifier =>
      let crifQualifier := filterRows crifBucket [("Qualifier", [qualifier])]
      if riskClass = "Risk_CreditQ" || riskClass = "Risk_CreditNonQ" then
        let sensitivitiesCr := sumSensitivities crifQualifier
        let cr : ℝ := max 1 (Real.sqrt (|((sensitivitiesCr : ℚ) : ℝ)| / ((t : ℚ) : ℝ)))
        (uniqueValues crifQualifier "Label2").foldl
          (fun acc2 label2 =>
            (tenorList crifQualifier).foldl
              (fun acc3 tenor =>
                let crifTenor :=
                  filterRows crifQualifier [("Label1", [tenor]), ("Label2", [label2])]
                let sensitivities := sumSensitivities crifTenor
                let idx :=
                  if bucket = 0 then "Res"
                  else if riskClass = "Risk_CreditQ" then qualifier
                  else label2
                (acc3.1 ++ [((rw : ℝ) * ((sensitivities : ℚ) : ℝ) * cr, cr)],
                 acc3.2 ++ [idx]))
              acc2)
          acc
      else
        let sensitivities := sumSensitivities crifQualifier
        let cr : ℝ := max 1 (Real.sqrt (|((sensitivities : ℚ) : ℝ)| / ((t : ℚ) : ℝ)))
        (acc.1 ++ [((rw : ℝ) * ((sensitivities : ℚ) : ℝ) * cr, cr)], acc.2))
    ([], [])

/-- Per-bucket charge and clamped net sensitivity of the non-rates delta
path (`margin_risk_class.rs` lines 451-529); bucket `0` selects the rows
whose `Bucket` cell is the literal `"Residual"`. -/
noncomputable def deltaBucketKS (wnc : WNC) (calcCcy riskClass : String)
    (crifOthers : Crif) (bucket : ℕ) : ℝ × ℝ :=
  let crifBucket :=
    if bucket = 0 then filterRows crifOthers [("Bucket", ["Residual"])]
    else filterRows crifOthers [("Bucket", [toString bucket])]
  let rw := (wnc.rw riskClass (toString bucket)).getD 1
  let t := (wnc.t riskClass "Delta" none (some (toString bucket))).getD 1
  let data := deltaBucketData riskClass bucket crifBucket rw t
  let listWS := data.1.map (·.1)
  let listCR := data.1.map (·.2)
  let k := kDelta wnc riskClass listWS (some listCR) (some [toString bucket]) none
    (if data.2.isEmpty then none else some data.2) calcCcy
  (k, max (min listWS.sum k) (-k))

/-- Cross-bucket combine of the non-rates delta path
(`margin_risk_class.rs` lines 522-553): returns the √-term and the
additively aggregated residual charge `K_res`.  As in the source, the
`S` values of the gamma sum are indexed by position in the residual-free
bucket list while `list_s` holds one entry per bucket of the full list. -/
noncomputable def deltaCrossBucketParts (wnc : WNC) (calcCcy riskClass : String)
    (crifOthers : Crif) : ℝ × ℝ :=
  let buckets := bucketList crifOthers
  let kRes := ((buckets.filter (· = 0)).map fun b =>
    (deltaBucketKS wnc calcCcy riskClass crifOthers b).1).sum
  let listK := (buckets.filter (· ≠ 0)).map fun b =>
    (deltaBucketKS wnc calcCcy riskClass crifOthers b).1
  let listS := buckets.map fun b => (deltaBucketKS wnc calcCcy riskClass crifOthers b).2
  let bucketListNonRes := buckets.filter (· ≠ 0)
  let kSquaredSum : ℝ :=
    (listK.map fun x => x ^ 2).sum +
      ∑ i ∈ Finset.range bucketListNonRes.length,
        ∑ j ∈ Finset.range bucketListNonRes.length,
          if i = j then 0
          else
            let gamma := (wnc.gamma riskClass (toString (bucketListNonRes.getD i 0))
              (toString (bucketListNonRes.getD j 0))).getD 0
            (gamma : ℝ) * listS.getD i 0 * listS.getD j 0
  (Real.sqrt kSquaredSum, kRes)

/-- Delta margin for the non-rates risk classes (`delta_margin`,
`margin_risk_class.rs` lines 375-577), as a total cell function.  Each
allowed risk type present in the CRIF writes one `Delta` cell; for
commodities the residual charge is NOT added (line 569). -/
noncomputable def deltaMargin (wnc : WNC) (calcCcy : String) (crif : Crif)
    (riskClass measure : String) : ℝ :=
  let listRiskTypes := uniqueValues crif "RiskType"
  let bucketTotal : String → ℝ := fun rt =>
    let crifOthers := filterRows crif [("RiskType", [rt])]
    let parts := deltaCrossBucketParts wnc calcCcy rt crifOthers
    parts.1 + parts.2
  let commodityTotal : String → ℝ := fun rt =>
    let crifOthers := filterRows crif [("RiskType", [rt])]
    (deltaCrossBucketParts wnc calcCcy rt crifOthers).1
  if measure ≠ "Delta" then 0
  else if riskClass = "FX" then
    if listRiskTypes.contains "Risk_FX" then fxDeltaK wnc calcCcy crif else 0
  else if riskClass = "CreditQ" then
    if listRiskTypes.contains "Risk_CreditQ" then bucketTotal "Risk_CreditQ" else 0
  else if riskClass = "CreditNonQ" then
    if listRiskTypes.contains "Risk_CreditNonQ" then bucketTotal "Risk_CreditNonQ" else 0
  else if riskClass = "Equity" then
    if listRiskTypes.contains "Risk_Equity" then bucketTotal "Risk_Equity" else 0
  else if riskClass = "Commodity" then
    if listRiskTypes.contains "Risk_Commodity" then commodityTotal "Risk_Commodity" else 0
  else 0

/-- Runtime constants obtained from the `statrs` normal distribution:
`Φ⁻¹(0.99)` and `Φ⁻¹(0.995)` (`margin_risk_class.rs` lines 703-704,
956-957, 1012-1013, 1084-1085, 1160-1161).  They are abstracted as
parameters; no claim depends on their numeric values. -/
structure RtEnv where
  phi099 : ℝ
  phi0995 : ℝ

/-- Curvature lambda `(Φ⁻¹(0.995)² − 1)·(1 + θ) − θ`
(`margin_risk_class.rs` line 957 and analogues). -/
def curvLambda (env : RtEnv) (theta : ℝ) : ℝ :=
  (env.phi0995 ^ 2 - 1) * (1 + theta) - theta

/-- Implied volatility factor `σ = rw · √(365/14) / Φ⁻¹(0.99)`
(`margin_risk_class.rs` line 704 and analogues). -/
noncomputable def sigmaOf (env : RtEnv) (rw : ℚ) : ℝ :=
  (rw : ℝ) * Real.sqrt (365 / 14) / env.phi099

/-- The two rates vega risk types (`ir_vega_margin`, `margin_risk_class.rs`
line 597). -/
def RATES_VEGA_TYPES : List String := ["Risk_IRVol", "Risk_InflationVol"]

/-- Per-currency vega concentration factor of the IR vega path
(`margin_risk_class.rs` lines 604-607). -/
noncomputable def irVegaVcr (wnc : WNC) (crif : Crif) (currency : String) : ℝ :=
  let crifCurrency :=
    filterRows crif [("RiskType", RATES_VEGA_TYPES), ("Qualifier", [currency])]
  let sensitivitiesCr := sumSensitivities crifCurrency
  let vt := (wnc.t "Rates" "Vega" (some currency) none).getD 1
  max 1 (Real.sqrt (|((sensitivitiesCr : ℚ) : ℝ)| / ((vt : ℚ) : ℝ)))

/-- Per-currency vega entries `(VR, index label)` of the IR vega path
(`margin_risk_class.rs` lines 609-634). -/
noncomputable def irVegaEntries (crifCurrency : Crif) (vcr : ℝ) :
    List (ℝ × String) :=
  (uniqueValues crifCurrency "RiskType").foldl
    (fun acc riskClass =>
      if !RATES_VEGA_TYPES.contains riskClass then acc
      else
        let crifRiskClass := filterRows crifCurrency [("RiskType", [riskClass])]
        acc ++ (tenorList crifRiskClass).map fun tenor =>
          let crifTenor := filterRows crifRiskClass [("Label1", [tenor])]
          let sensitivities := sumSensitivities crifTenor
          (((IR_VRW * sensitivities : ℚ) : ℝ) * vcr,
           if riskClass = "Risk_IRVol" then tenor else "Inf"))
    []

/-- Per-currency charge and clamped net vega of the IR vega path
(`margin_risk_class.rs` lines 595-641). -/
noncomputable def irVegaKS (wnc : WNC) (crif : Crif) (currency : String) :
    ℝ × ℝ :=
  let crifCurrency :=
    filterRows crif [("RiskType", RATES_VEGA_TYPES), ("Qualifier", [currency])]
  let vcr := irVegaVcr wnc crif currency
  let entries := irVegaEntries crifCurrency vcr
  let vr := entries.map (·.1)
  let index := entries.map (·.2)
  let k := kVega wnc "Rates" vr none none (some index)
  (k, max (min vr.sum k) (-k))

/-- Charge written into the `Rates`/`Vega` cell (`margin_risk_class.rs`
lines 644-666): cross-currency combine with `γ = IR_GAMMA_DIFF_CCY` and
`g = min(VCR_b, VCR_c)/max(VCR_b, VCR_c)`. -/
noncomputable def irVegaMarginK (wnc : WNC) (crif : Crif) : ℝ :=
  let currencyList := uniqueValues crif "Qualifier"
  let listK := currencyList.map fun c => (irVegaKS wnc crif c).1
  let listS := currencyList.map fun c => (irVegaKS wnc crif c).2
  let kSquaredSum : ℝ :=
    (listK.map fun x => x ^ 2).sum +
      ∑ i ∈ Finset.range currencyList.length,
        ∑ j ∈ Finset.range currencyList.length,
          if i = j then 0
          else
            let vcrB := irVegaVcr wnc crif (currencyList.getD i "")
            let vcrC := irVegaVcr wnc crif (currencyList.getD j "")
            let g := min vcrB vcrC / max vcrB vcrC
            (IR_GAMMA_DIFF_CCY : ℝ) * listS.getD i 0 * listS.getD j 0 * g
  Real.sqrt kSquaredSum

/-- Vega margin for the rates risk class (`ir_vega_margin`,
`margin_risk_class.rs` lines 580-669), as a total cell function. -/
noncomputable def irVegaMargin (wnc : WNC) (crif : Crif)
    (riskClass measure : String) : ℝ :=
  let listRiskTypes := uniqueValues crif "RiskType"
  if !listRiskTypes.contains "Risk_IRVol" &&
      !listRiskTypes.contains "Risk_InflationVol" then 0
  else if riskClass = "Rates" && measure = "Vega" then irVegaMarginK wnc crif
  else 0

/-- Per-currency-pair vega entry `(VR, VCR)` of the FX vega branch
(`margin_risk_class.rs` lines 688-712): `VR = FX_VRW · (FX_HVR · σ · Σs) · VCR`
with `σ` built from the risk weight of the pair's volatility categories
(outer argument from the second currency). -/
noncomputable def fxVolVegaEntry (env : RtEnv) (wnc : WNC) (crif : Crif)
    (currencyPair : String) : ℝ × ℝ :=
  let crifFx := filterRows crif
    [("RiskType", ["Risk_FXVol"]), ("Qualifier", [currencyPair, swapPair currencyPair])]
  let isCcy1High := HIGH_VOL_CURRENCY_GROUP.contains (String.mk (currencyPair.data.take 3))
  let isCcy2High := HIGH_VOL_CURRENCY_GROUP.contains (String.mk (currencyPair.data.drop 3))
  let rw := fx_rw (if isCcy2High then RiskLevel.high else RiskLevel.regular)
    (if isCcy1High then RiskLevel.high else RiskLevel.regular)
  let sigma := sigmaOf env rw
  let sensitivities := sumSensitivities crifFx
  let vrIk := (FX_HVR : ℝ) * sigma * ((sensitivities : ℚ) : ℝ)
  let vt := (wnc.t "Risk_FXVol" "Vega" (some currencyPair) none).getD 1
  let vcr := max 1 (Real.sqrt (|vrIk| / ((vt : ℚ) : ℝ)))
  ((FX_VRW : ℝ) * vrIk * vcr, vcr)

/-- Charge of the FX vega branch (`margin_risk_class.rs` lines 684-718):
vega kernel over the deduplicated currency pairs. -/
noncomputable def fxVolVegaK (env : RtEnv) (wnc : WNC) (crif : Crif) : ℝ :=
  let pairs := currencyPairList crif
  let listVr := pairs.map fun p => (fxVolVegaEntry env wnc crif p).1
  let listVcr := pairs.map fun p => (fxVolVegaEntry env wnc crif p).2
  kVega wnc "Risk_FXVol" listVr (some listVcr) none none

/-- Vega entries `(VR, VCR)` and (for credit) index labels of one
(risk class, bucket) group of the non-rates vega path
(`margin_risk_class.rs` lines 741-809). -/
noncomputable def vegaBucketData (env : RtEnv) (wnc : WNC)
    (riskClass : String) (bucket : ℕ) (crifBucket : Crif) :
    List (ℝ × ℝ) × List String :=
  (uniqueValues crifBucket "Qualifier").foldl
    (fun acc qualifier =>
      let crifQualifier := filterRows crifBucket [("Qualifier", [qualifier])]
      let rw := (wnc.rw riskClass (toString bucket)).getD 1
      let sigma := sigmaOf env rw
      if riskClass = "Risk_EquityVol" || riskClass = "Risk_CommodityVol" then
        let hvr : ℚ := if riskClass = "Risk_EquityVol" then EQUITY_HVR else COMMODITY_HVR
        let vrw : ℚ :=
          if riskClass = "Risk_EquityVol" then
            if bucket = 12 then EQUITY_VRW_BUCKET_12 else EQUITY_VRW
          else COMMODITY_VRW
        let sensitivities := sumSensitivities crifQualifier
        let vrI : ℝ := (hvr : ℝ) * sigma * ((sensitivities : ℚ) : ℝ)
        let vt := (wnc.t riskClass "Vega" none (some (toString bucket))).getD 1
        let vcr := max 1 (Real.sqrt (|vrI| / ((vt : ℚ) : ℝ)))
        (acc.1 ++ [(vrI * (vrw : ℝ) * vcr, vcr)], acc.2)
      else
        let vt := (wnc.t riskClass "Vega" none (some (toString bucket))).getD 1
        let sensitivitiesVt := sumSensitivities crifQualifier
        let vcr := max 1 (Real.sqrt (|((sensitivitiesVt : ℚ) : ℝ)| / ((vt : ℚ) : ℝ)))
        (uniqueValues crifQualifier "Label2").foldl
          (fun acc2 label2 =>
            (tenorList crifQualifier).foldl
              (fun acc3 tenor =>
                let crifTenor :=
                  filterRows crifQualifier [("Label1", [tenor]), ("Label2", [label2])]
                let sensitivities := sumSensitivities crifTenor
                let vrw : ℚ :=
                  if riskClass = "Risk_CreditVol" then CREDIT_Q_V_RW
                  else CREDIT_NON_Q_VRW
                let idx :=
                  if bucket = 0 then "Res"
                  else if riskClass = "Risk_CreditVol" then qualifier
                  else label2
                (acc3.1 ++ [((vrw : ℝ) * ((sensitivities : ℚ) : ℝ) * vcr, vcr)],
                 acc3.2 ++ [idx]))
              acc2)
          acc)
    ([], [])

/-- Per-bucket charge and clamped net vega of the non-rates vega path
(`margin_risk_class.rs` lines 730-828). -/
noncomputable def vegaBucketKS (env : RtEnv) (wnc : WNC) (riskClass : String)
    (crifRiskType : Crif) (bucket : ℕ) : ℝ × ℝ :=
  let crifBucket :=
    if bucket = 0 then filterRows crifRiskType [("Bucket", ["Residual"])]
    else filterRows crifRiskType [("Bucket", [toString bucket])]
  let data := vegaBucketData env wnc riskClass bucket crifBucket
  let vr := data.1.map (·.1)
  let listVcr := data.1.map (·.2)
  let k := kVega wnc riskClass vr (some listVcr) (some (toString bucket))
    (if data.2.isEmpty then none else some data.2)
  (k, max (min vr.sum k) (-k))

/-- Cross-bucket combine of the non-rates vega path (`margin_risk_class.rs`
lines 820-854): √-term and additively aggregated residual charge, with the
same positional indexing of `list_s` as the delta path. -/
noncomputable def vegaCrossBucketParts (env : RtEnv) (wnc : WNC)
    (riskClass : String) (crifRiskType : Crif) : ℝ × ℝ :=
  let buckets := bucketList crifRiskType
  let kRes := ((buckets.filter (· = 0)).map fun b =>
    (vegaBucketKS env wnc riskClass crifRiskType b).1).sum
  let listK := (buckets.filter (· ≠ 0)).map fun b =>
    (vegaBucketKS env wnc riskClass crifRiskType b).1
  let listS := buckets.map fun b => (vegaBucketKS env wnc riskClass crifRiskType b).2
  let bucketListNonRes := buckets.filter (· ≠ 0)
  let kSquaredSum : ℝ :=
    (listK.map fun x => x ^ 2).sum +
      ∑ i ∈ Finset.range bucketListNonRes.length,
        ∑ j ∈ Finset.range bucketListNonRes.length,
          if i = j then 0
          else
            let gamma := (wnc.gamma riskClass (toString (bucketListNonRes.getD i 0))
              (toString (bucketListNonRes.getD j 0))).getD 0
            (gamma : ℝ) * listS.getD i 0 * listS.getD j 0
  (Real.sqrt kSquaredSum, kRes)

/-- Vega margin for the non-rates risk classes (`vega_margin`,
`margin_risk_class.rs` lines 672-877), as a total cell function. -/
noncomputable def vegaMargin (env : RtEnv) (wnc : WNC)
    (crif : Crif) (riskClass measure : String) : ℝ :=
  let listRiskTypes := uniqueValues crif "RiskType"
  let bucketTotal : String → ℝ := fun rt =>
    let crifRiskType := filterRows crif [("RiskType", [rt])]
    let parts := vegaCrossBucketParts env wnc rt crifRiskType
    parts.1 + parts.2
  if measure ≠ "Vega" then 0
  else if riskClass = "FX" then
    if listRiskTypes.contains "Risk_FXVol" then fxVolVegaK env wnc crif else 0
  else if riskClass = "CreditQ" then
    if listRiskTypes.contains "Risk_CreditVol" then bucketTotal "Risk_CreditVol" else 0
  else if riskClass = "CreditNonQ" then
    if listRiskTypes.contains "Risk_CreditVolNonQ" then bucketTotal "Risk_CreditVolNonQ"
    else 0
  else if riskClass = "Equity" then
    if listRiskTypes.contains "Risk_EquityVol" then bucketTotal "Risk_EquityVol" else 0
  else if riskClass = "Commodity" then
    if listRiskTypes.contains "Risk_CommodityVol" then bucketTotal "Risk_CommodityVol"
    else 0
  else 0

/-- The per-currency inflation-vol exception of the IR curvature path
(`margin_risk_class.rs` lines 902-909): the only vol risk type is
`Risk_InflationVol`, its amounts sum to zero and the currency is the
calculation currency.  Reaching such a currency makes the whole
`ir_curvature_margin` return the all-zero dictionary. -/
def irCurvExceptional (calcCcy : String) (crif : Crif) (currency : String) : Bool :=
  let crifCurrency :=
    filterRows crif [("RiskType", RATES_VEGA_TYPES), ("Qualifier", [currency])]
  uniqueValues crifCurrency "RiskType" == ["Risk_InflationVol"] &&
    sumSensitivities crifCurrency == 0 && currency == calcCcy

/-- Per-currency curvature entries `(CVR, index label)` of the IR curvature
path (`margin_risk_class.rs` lines 911-940).  The tenor loop runs over
`unique_values(_, "Label1")` — every distinct label, not only the canonical
twelve — so `scaling_func` is applied to arbitrary labels. -/
def irCurvEntries (crifCurrency : Crif) : List (ℚ × String) :=
  (uniqueValues crifCurrency "RiskType").foldl
    (fun acc riskClass =>
      if !RATES_VEGA_TYPES.contains riskClass then acc
      else
        let crifRiskClass := filterRows crifCurrency [("RiskType", [riskClass])]
        acc ++ (uniqueValues crifRiskClass "Label1").map fun tenor =>
          let crifTenor := filterRows crifRiskClass [("Label1", [tenor])]
          let sensitivities := sumSensitivities crifTenor
          (scalingFunc tenor * sensitivities,
           if riskClass = "Risk_IRVol" then tenor else "Inf"))
    []

/-- Per-currency kernel charge and clamped net CVR of the IR curvature path
(`margin_risk_class.rs` lines 941-947). -/
noncomputable def irCurvKS (wnc : WNC) (crif : Crif) (currency : String) :
    ℝ × ℝ :=
  let crifCurrency :=
    filterRows crif [("RiskType", RATES_VEGA_TYPES), ("Qualifier", [currency])]
  let entries := irCurvEntries crifCurrency
  let cvrIk : List ℝ := entries.map fun e => ((e.1 : ℚ) : ℝ)
  let index := entries.map (·.2)
  let k := kCurvature wnc "Rates" cvrIk none (some index)
  (k, max (min cvrIk.sum k) (-k))

/-- Charge written into the `Rates`/`Curvature` cell
(`margin_risk_class.rs` lines 950-974): `max(0, ΣCVR + λ·√K)/IR_HVR²` with
`θ = min(0, ΣCVR/Σ|CVR|)` and cross-currency γ² terms. -/
noncomputable def irCurvatureMarginK (env : RtEnv) (wnc : WNC) (crif : Crif) : ℝ :=
  let currencyList := uniqueValues crif "Qualifier"
  let cvrSum : ℚ := (currencyList.map fun c =>
    ((irCurvEntries
        (filterRows crif [("RiskType", RATES_VEGA_TYPES), ("Qualifier", [c])])).map
      (·.1)).sum).sum
  let cvrAbsSum : ℚ := (currencyList.map fun c =>
    ((irCurvEntries
        (filterRows crif [("RiskType", RATES_VEGA_TYPES), ("Qualifier", [c])])).map
      fun e => |e.1|).sum).sum
  let theta : ℚ := if cvrAbsSum ≠ 0 then min (cvrSum / cvrAbsSum) 0 else 0
  let lambda := curvLambda env (theta : ℝ)
  let listK := currencyList.map fun c => (irCurvKS wnc crif c).1
  let listS := currencyList.map fun c => (irCurvKS wnc crif c).2
  let k : ℝ :=
    (listK.map fun x => x ^ 2).sum +
      ∑ i ∈ Finset.range listS.length, ∑ j ∈ Finset.range listS.length,
        if i = j then 0
        else listS.getD i 0 * listS.getD j 0 * (IR_GAMMA_DIFF_CCY : ℝ) ^ 2
  max ((cvrSum : ℝ) + lambda * Real.sqrt k) 0 / (IR_HVR : ℝ) ^ 2

/-- Curvature margin for the rates risk class (`ir_curvature_margin`,
`margin_risk_class.rs` lines 880-977), as a total cell function. -/
noncomputable def irCurvatureMargin (env : RtEnv) (wnc : WNC) (calcCcy : String)
    (crif : Crif) (riskClass measure : String) : ℝ :=
  let listRiskTypes := uniqueValues crif "RiskType"
  if !listRiskTypes.contains "Risk_IRVol" &&
      !listRiskTypes.contains "Risk_InflationVol" then 0
  else if (uniqueValues crif "Qualifier").any (irCurvExceptional calcCcy crif) then 0
  else if riskClass = "Rates" && measure = "Curvature" then
    irCurvatureMarginK env wnc crif
  else 0

/-- Per-currency-pair CVR of the FX curvature branch
(`margin_risk_class.rs` lines 997-1028): `Σ scaling_func(tenor) · σ · v`
over the pair's rows, unparseable and blank amounts skipped. -/
noncomputable def fxVolCurvCvr (env : RtEnv) (crif : Crif)
    (currencyPair : String) : ℝ :=
  let df := filterRows crif
    [("RiskType", ["Risk_FXVol"]), ("Qualifier", [currencyPair, swapPair currencyPair])]
  let isCcy1High := HIGH_VOL_CURRENCY_GROUP.contains (String.mk (currencyPair.data.take 3))
  let isCcy2High := HIGH_VOL_CURRENCY_GROUP.contains (String.mk (currencyPair.data.drop 3))
  let rw := fx_rw (if isCcy2High then RiskLevel.high else RiskLevel.regular)
    (if isCcy1High then RiskLevel.high else RiskLevel.regular)
  let sigma := sigmaOf env rw
  let vegaList := toListColumn df "AmountUSD"
  let tenors := toListColumn df "Label1"
  ((tenors.zip vegaList).map fun p =>
    if p.2 ≠ "" then
      match parseF64? p.2 with
      | some v => ((scalingFunc p.1 : ℚ) : ℝ) * sigma * ((v : ℚ) : ℝ)
      | none => 0
    else 0).sum

/-- Charge of the FX curvature branch (`margin_risk_class.rs`
lines 992-1044): `max(0, ΣCVR + λ·K)` where `K` is the curvature kernel
value (note: `K`, not `√K`). -/
noncomputable def fxVolCurvMarginVal (env : RtEnv) (wnc : WNC) (crif : Crif) : ℝ :=
  let pairs := currencyPairList crif
  let listCvr := pairs.map fun p => fxVolCurvCvr env crif p
  let cvrSum := listCvr.sum
  let cvrAbsSum := (listCvr.map fun x => |x|).sum
  let k := kCurvature wnc "Risk_FXVol" listCvr none none
  let theta : ℝ := if cvrAbsSum ≠ 0 then min (cvrSum / cvrAbsSum) 0 else 0
  let lambda := curvLambda env theta
  max (cvrSum + lambda * k) 0

/-- Curvature entries and (for credit) index labels of one
(risk class, bucket) group of the non-rates curvature path
(`margin_risk_class.rs` lines 1072-1128).  For `Risk_EquityVol` bucket 12
the volatility factor σ is forced to zero. -/
noncomputable def curvBucketData (env : RtEnv) (wnc : WNC)
    (riskClass : String) (bucket : ℕ) (crifBucket : Crif) :
    List ℝ × List String :=
  (uniqueValues crifBucket "Qualifier").foldl
    (fun acc qualifier =>
      let crifQualifier := filterRows crifBucket [("Qualifier", [qualifier])]
      let tenors := toListColumn crifQualifier "Label1"
      let vegaList := toListColumn crifQualifier "AmountUSD"
      let rw := (wnc.rw riskClass (toString bucket)).getD 1
      let sigma0 := sigmaOf env rw
      if riskClass = "Risk_EquityVol" || riskClass = "Risk_CommodityVol" then
        let sigma := if riskClass = "Risk_EquityVol" && bucket = 12 then 0 else sigma0
        let cvrIk := (tenors.zip vegaList).filterMap fun p =>
          if p.2 ≠ "" then
            (parseF64? p.2).map fun v =>
              ((scalingFunc p.1 : ℚ) : ℝ) * sigma * ((v : ℚ) : ℝ)
          else none
        (acc.1 ++ [cvrIk.sum], acc.2)
      else
        (uniqueValues crifQualifier "Label2").foldl
          (fun acc2 label2 =>
            (tenorList crifQualifier).foldl
              (fun acc3 tenor =>
                let crifTenor :=
                  filterRows crifQualifier [("Label1", [tenor]), ("Label2", [label2])]
                let sensitivities := sumSensitivities crifTenor
                let idx :=
                  if bucket = 0 then "Res"
                  else if riskClass = "Risk_CreditVol" then qualifier
                  else label2
                (acc3.1 ++ [((scalingFunc tenor * sensitivities : ℚ) : ℝ)],
                 acc3.2 ++ [idx]))
              acc2)
          acc)
    ([], [])

/-- Per-bucket curvature kernel charge of the non-rates curvature path
(`margin_risk_class.rs` lines 1061-1137). -/
noncomputable def curvBucketK (env : RtEnv) (wnc : WNC) (riskClass : String)
    (crifFiltered : Crif) (bucket : ℕ) : ℝ :=
  let crifBucket :=
    if bucket = 0 then filterRows crifFiltered [("Bucket", ["Residual"])]
    else filterRows crifFiltered [("Bucket", [toString bucket])]
  let data := curvBucketData env wnc riskClass bucket crifBucket
  kCurvature wnc riskClass data.1 (some (toString bucket))
    (if data.2.isEmpty then none else some data.2)

/-- Sum of the CVR entries of one bucket of the non-rates curvature path. -/
noncomputable def curvBucketCvrSum (env : RtEnv) (wnc : WNC)
    (riskClass : String) (crifFiltered : Crif) (bucket : ℕ) : ℝ :=
  let crifBucket :=
    if bucket = 0 then filterRows crifFiltered [("Bucket", ["Residual"])]
    else filterRows crifFiltered [("Bucket", [toString bucket])]
  ((curvBucketData env wnc riskClass bucket crifBucket).1).sum

/-- Sum of the absolute CVR entries of one bucket of the non-rates
curvature path. -/
noncomputable def curvBucketCvrAbsSum (env : RtEnv) (wnc : WNC)
    (riskClass : String) (crifFiltered : Crif) (bucket : ℕ) : ℝ :=
  let crifBucket :=
    if bucket = 0 then filterRows crifFiltered [("Bucket", ["Residual"])]
    else filterRows crifFiltered [("Bucket", [toString bucket])]
  ((curvBucketData env wnc riskClass bucket crifBucket).1.map fun x => |x|).sum

/-- Clamped net CVR of one bucket of the non-rates curvature path
(`margin_risk_class.rs` line 1146). -/
noncomputable def curvBucketS (env : RtEnv) (wnc : WNC) (riskClass : String)
    (crifFiltered : Crif) (bucket : ℕ) : ℝ :=
  let k := curvBucketK env wnc riskClass crifFiltered bucket
  max (min (curvBucketCvrSum env wnc riskClass crifFiltered bucket) k) (-k)

/-- Total charge of one risk class of the non-rates curvature path
(`margin_risk_class.rs` lines 1046-1209): separate θ/λ for the residual and
non-residual subsets, cross-bucket γ² terms over the tracked buckets
(equity bucket 12 excluded), and `max(0, ·)` applied to each subset. -/
noncomputable def curvRiskClassTotal (env : RtEnv) (wnc : WNC)
    (riskClass : String) (crif : Crif) : ℝ :=
  let crifFiltered := filterRows crif [("RiskType", [riskClass])]
  let buckets := bucketList crifFiltered
  let kRes := ((buckets.filter (· = 0)).map fun b =>
    curvBucketK env wnc riskClass crifFiltered b).sum
  let cvrSumRes := ((buckets.filter (· = 0)).map fun b =>
    curvBucketCvrSum env wnc riskClass crifFiltered b).sum
  let cvrAbsSumRes := ((buckets.filter (· = 0)).map fun b =>
    curvBucketCvrAbsSum env wnc riskClass crifFiltered b).sum
  let bucketsInListS := buckets.filter fun b =>
    b ≠ 0 && !(riskClass == "Risk_EquityVol" && b == 12)
  let listK := bucketsInListS.map fun b => curvBucketK env wnc riskClass crifFiltered b
  let listS := bucketsInListS.map fun b => curvBucketS env wnc riskClass crifFiltered b
  let cvrSum := ((buckets.filter (· ≠ 0)).map fun b =>
    curvBucketCvrSum env wnc riskClass crifFiltered b).sum
  let cvrAbsSum := ((buckets.filter (· ≠ 0)).map fun b =>
    curvBucketCvrAbsSum env wnc riskClass crifFiltered b).sum
  let hasResidual := buckets.contains 0
  let hasNonResidual := buckets.any fun b => b ≠ 0
  let thetaNonRes : ℝ := if cvrAbsSum ≠ 0 then min (cvrSum / cvrAbsSum) 0 else 0
  let thetaRes : ℝ := if cvrAbsSumRes ≠ 0 then min (cvrSumRes / cvrAbsSumRes) 0 else 0
  let lambda : ℝ :=
    if hasResidual && hasNonResidual then curvLambda env thetaNonRes
    else if !hasResidual then curvLambda env thetaNonRes
    else 0
  let lambdaRes : ℝ :=
    if hasResidual && hasNonResidual then curvLambda env thetaRes
    else if !hasResidual then 0
    else curvLambda env thetaRes
  let kSquared : ℝ :=
    (listK.map fun x => x ^ 2).sum +
      ∑ i ∈ Finset.range bucketsInListS.length,
        ∑ j ∈ Finset.range bucketsInListS.length,
          if i = j then 0
          else
            let gamma := (wnc.gamma riskClass (toString (bucketsInListS.getD i 0))
              (toString (bucketsInListS.getD j 0))).getD 0
            listS.getD i 0 * listS.getD j 0 * (gamma : ℝ) ^ 2
  let curvatureMarginNonRes : ℝ :=
    if 0 ≤ kSquared then max (cvrSum + lambda * Real.sqrt kSquared) 0 else 0
  let curvatureMarginRes := max (cvrSumRes + lambdaRes * kRes) 0
  curvatureMarginNonRes + curvatureMarginRes

/-- Curvature margin for the non-rates risk classes (`curvature_margin`,
`margin_risk_class.rs` lines 980-1232), as a total cell function. -/
noncomputable def curvatureMargin (env : RtEnv) (wnc : WNC) (crif : Crif)
    (riskClass measure : String) : ℝ :=
  let listRiskTypes := uniqueValues crif "RiskType"
  if measure ≠ "Curvature" then 0
  else if riskClass = "FX" then
    if listRiskTypes.contains "Risk_FXVol" then fxVolCurvMarginVal env wnc crif else 0
  else if riskClass = "CreditQ" then
    if listRiskTypes.contains "Risk_CreditVol" then
      curvRiskClassTotal env wnc "Risk_CreditVol" crif
    else 0
  else if riskClass = "CreditNonQ" then
    if listRiskTypes.contains "Risk_CreditVolNonQ" then
      curvRiskClassTotal env wnc "Risk_CreditVolNonQ" crif
    else 0
  else if riskClass = "Equity" then
    if listRiskTypes.contains "Risk_EquityVol" then
      curvRiskClassTotal env wnc "Risk_EquityVol" crif
    else 0
  else if riskClass = "Commodity" then
    if listRiskTypes.contains "Risk_CommodityVol" then
      curvRiskClassTotal env wnc "Risk_CommodityVol" crif
    else 0
  else 0

/-- Weighted base-correlation sensitivities per qualifier
(`base_corr_margin`, `margin_risk_class.rs` lines 1242-1254):
`WS = CREDIT_Q_BASE_CORR_WEIGHT · Σs`. -/
def baseCorrWs (crif : Crif) : List ℚ :=
  let crifBaseCorr := filterRows crif [("RiskType", ["Risk_BaseCorr"])]
  (uniqueValues crifBaseCorr "Qualifier").map fun qualifier =>
    CREDIT_Q_BASE_CORR_WEIGHT *
      sumSensitivities (filterRows crifBaseCorr [("Qualifier", [qualifier])])

/-- Base-correlation margin (`base_corr_margin`, `margin_risk_class.rs`
lines 1235-1274), as a total cell function: the full double sum with `ρ = 1`
on the diagonal or equal qualifiers, written into `CreditQ`/`BaseCorr`. -/
noncomputable def baseCorrMargin (wnc : WNC) (crif : Crif)
    (riskClass measure : String) : ℝ :=
  let crifBaseCorr := filterRows crif [("RiskType", ["Risk_BaseCorr"])]
  let qualifierList := uniqueValues crifBaseCorr "Qualifier"
  let listWS := baseCorrWs crif
  let baseCorr : ℚ :=
    ∑ i ∈ Finset.range listWS.length, ∑ j ∈ Finset.range listWS.length,
      let rho : ℚ :=
        if i = j || qualifierList.getD i "" = qualifierList.getD j "" then 1
        else (wnc.rho "Risk_BaseCorr" "" "" none).getD 1
      listWS.getD i 0 * listWS.getD j 0 * rho
  if riskClass = "CreditQ" && measure = "BaseCorr" then Real.sqrt (baseCorr : ℝ)
  else 0

/-! ## Portfolio aggregation (from `src/agg_margins.rs`) -/

/-- Engine configuration (`src/engine_config.rs` lines 6-11). -/
structure EngineConfig where
  weightsAndCorrVersion : String
  calculationCurrency : String
  exchangeRate : ℝ

/-- Sum of the seven margin components at one (risk class, measure) cell
(`simm_risk_class`, `agg_margins.rs` lines 97-155), before the exchange
rate is applied. -/
noncomputable def aggMarginCell (env : RtEnv) (wnc : WNC) (calcCcy : String)
    (crif : Crif) (riskClass measure : String) : ℝ :=
  irDeltaMargin wnc calcCcy crif riskClass measure +
    deltaMargin wnc calcCcy crif riskClass measure +
    irVegaMargin wnc crif riskClass measure +
    vegaMargin env wnc crif riskClass measure +
    irCurvatureMargin env wnc calcCcy crif riskClass measure +
    curvatureMargin env wnc crif riskClass measure +
    baseCorrMargin wnc crif riskClass measure

/-- Measures present for a risk class after the `BaseCorr` removal
(`margin_by_risk_class`, `constants.rs` lines 195-204, and `agg_margins.rs`
lines 157-162): `BaseCorr` survives only for `CreditQ`. -/
def marginMeasures (riskClass : String) : List String :=
  if riskClass = "CreditQ" then ["Delta", "Vega", "Curvature", "BaseCorr"]
  else ["Delta", "Vega", "Curvature"]

/-- The six risk classes in the order of `simm_product`'s local array
(`agg_margins.rs` line 185). -/
def riskClassList : List String :=
  ["Rates", "FX", "CreditQ", "CreditNonQ", "Equity", "Commodity"]

/-- One cell of `simm_risk_class`'s result (`agg_margins.rs`
lines 164-169): the aggregated margin times the exchange rate. -/
noncomputable def simmRiskClassCell (env : RtEnv) (wnc : WNC) (calcCcy : String)
    (xr : ℝ) (crif : Crif) (riskClass measure : String) : ℝ :=
  aggMarginCell env wnc calcCcy crif riskClass measure * xr

/-- A canonical enumeration of `simm_risk_class`'s result as an entry list:
risk classes in the `margin_by_risk_class` insertion order and measures in
the `marginMeasures` order.  The source exposes this data as nested
`HashMap`s, whose run-time iteration order is an unspecified permutation of
these entries. -/
noncomputable def canonicalEntries (env : RtEnv) (wnc : WNC) (calcCcy : String)
    (xr : ℝ) (crif : Crif) : List (String × List (String × ℝ)) :=
  riskClassList.map fun rc =>
    (rc, (marginMeasures rc).map fun m =>
      (m, simmRiskClassCell env wnc calcCcy xr crif rc m))

/-- A nested entry list is a valid iteration order of the canonical one:
its outer entries are a permutation of entries carrying the same risk-class
keys with inner lists permuted. -/
def EntriesMatch (entries canonical : List (String × List (String × ℝ))) : Prop :=
  ∃ mid, entries.Perm mid ∧
    List.Forall₂ (fun p q => p.1 = q.1 ∧ p.2.Perm q.2) mid canonical

/-- Total charge of one risk class from an entry list: the keyed lookup
`simm_by_risk_class.get(rc)` followed by `m.values().sum()` (`agg_margins.rs`
lines 188-194). -/
noncomputable def simmRcSum (entries : List (String × List (String × ℝ)))
    (riskClass : String) : ℝ :=
  ((entries.find? fun p => p.1 == riskClass).map fun p =>
    (p.2.map Prod.snd).sum).getD 0

/-- Product-class SIMM from an entry list (`simm_product`, `agg_margins.rs`
lines 181-220): `√(Σᵢⱼ ψᵢⱼ · IMᵢ · IMⱼ)` over the six risk classes, with
`ψ = 1` on the diagonal and the provider's psi (absent treated as zero)
off it. -/
noncomputable def simmProductWith (wnc : WNC)
    (entries : List (String × List (String × ℝ))) : ℝ :=
  Real.sqrt
    (∑ i ∈ Finset.range 6, ∑ j ∈ Finset.range 6,
      (((if i = j then 1
         else (wnc.psi (riskClassList.getD i "") (riskClassList.getD j "")).getD 0 : ℚ)) : ℝ) *
        simmRcSum entries (riskClassList.getD i "") *
        simmRcSum entries (riskClassList.getD j ""))

/-- Product-class SIMM at the canonical enumeration, on the CRIF filtered
to one product class (`agg_margins.rs` lines 181-183). -/
noncomputable def simmProductOf (env : RtEnv) (wnc : WNC) (calcCcy : String)
    (xr : ℝ) (crif : Crif) (productClass : String) : ℝ :=
  simmProductWith wnc (canonicalEntries env wnc calcCcy xr
    (filterRows crif [("ProductClass", [productClass])]))

/-- One row of `results_product_class`'s output (`agg_margins.rs`
lines 240-255): either a measure row or a risk-class total row, with the
product-class SIMM attached later (line 338-344).  Numeric cells are kept
as reals; formatting is applied at assembly. -/
structure ResultRow where
  productClass : String
  riskClassName : String
  riskMeasure : Option String
  simmRiskMeasure : Option ℝ
  simmRiskClass : Option ℝ
  simmProductClass : Option ℝ

/-- Rows generated for one risk-class entry (`results_product_class`,
`agg_margins.rs` lines 235-257): skipped when all measure values are zero,
otherwise one row per measure in enumeration order followed by the
risk-class total row. -/
noncomputable def resultsRowsOf (productClass : String)
    (entry : String × List (String × ℝ)) : List ResultRow :=
  let values := entry.2.map Prod.snd
  if values.all fun v => decide (v = 0) then []
  else
    (entry.2.map fun mv =>
      { productClass := productClass
        riskClassName := entry.1
        riskMeasure := some mv.1
        simmRiskMeasure := some mv.2
        simmRiskClass := none
        simmProductClass := none }) ++
    [{ productClass := productClass
       riskClassName := entry.1
       riskMeasure := none
       simmRiskMeasure := none
       simmRiskClass := some values.sum
       simmProductClass := none }]

/-- Result rows of one product class from an enumeration of the risk-class
entries (`results_product_class`, `agg_margins.rs` lines 229-260). -/
noncomputable def resultsProductClassWith (productClass : String)
    (entries : List (String × List (String × ℝ))) : List ResultRow :=
  entries.bind (resultsRowsOf productClass)

/-- Sum of the `Param_ProductClassMultiplier` amounts whose qualifier is
the product class (`calculate_simm`, `agg_margins.rs` lines 348-369).
The source `unwrap`s the three column indices (panicking when absent);
absence yields `0` here and is rejected earlier by `addonMargin`. -/
def productMultiplierSum (crif : Crif) (productClass : String) : ℚ :=
  match getColumnIndex crif "AmountUSD", getColumnIndex crif "RiskType",
      getColumnIndex crif "Qualifier" with
  | some amountIdx, some riskTypeIdx, some qualifierIdx =>
      ((List.drop 1 crif).filter fun row =>
          row.get? riskTypeIdx == some "Param_ProductClassMultiplier" &&
          row.get? qualifierIdx == some productClass).foldl
        (fun acc row =>
          match row.get? amountIdx with
          | some v =>
              match parseF64? v with
              | some q => acc + q
              | none => acc
          | none => acc)
        0
  | _, _, _ => 0

/-- Fixed plus notional-factor add-on (`addon_margin`, `agg_margins.rs`
lines 266-322): the sum of `Param_AddOnFixedAmount` amounts plus, per
distinct qualifier, the accumulated factor (`amount/100`) times the
accumulated notional; a missing required column is an error. -/
def addonMargin (crif : Crif) : Except String ℚ :=
  match getColumnIndex crif "AmountUSD" with
  | none => Except.error "AmountUSD column not found"
  | some amountIdx =>
  match getColumnIndex crif "RiskType" with
  | none => Except.error "RiskType column not found"
  | some riskTypeIdx =>
  match getColumnIndex crif "Qualifier" with
  | none => Except.error "Qualifier column not found"
  | some qualifierIdx =>
  let fixed : ℚ :=
    ((List.drop 1 crif).filter fun row =>
        row.get? riskTypeIdx == some "Param_AddOnFixedAmount").foldl
      (fun acc row =>
        match row.get? amountIdx with
        | some v =>
            match parseF64? v with
            | some q => acc + q
            | none => acc
        | none => acc)
      0
  let rows := (List.drop 1 crif).filter fun row =>
    (row.get? riskTypeIdx).isSome && (row.get? qualifierIdx).isSome &&
      (row.get? amountIdx).isSome &&
      (row.get? riskTypeIdx == some "Param_AddOnNotionalFactor" ||
        row.get? riskTypeIdx == some "Notional")
  let quals := dedupFirst (rows.map fun row => (row.get? qualifierIdx).getD "")
  let factorOf : String → ℚ := fun q =>
    ((rows.filter fun row =>
        row.get? riskTypeIdx == some "Param_AddOnNotionalFactor" &&
          row.get? qualifierIdx == some q).map fun row =>
      (parseF64? ((row.get? amountIdx).getD "")).getD 0 / 100).sum
  let notionalOf : String → ℚ := fun q =>
    ((rows.filter fun row =>
        row.get? riskTypeIdx == some "Notional" &&
          row.get? qualifierIdx == some q).map fun row =>
      (parseF64? ((row.get? amountIdx).getD "")).getD 0).sum
  Except.ok (fixed + (quals.map fun q => factorOf q * notionalOf q).sum)

/-- Breakdown header with the `Add-On` column (`agg_margins.rs`
lines 386-395 and 431-440). -/
def breakdownHeaderWithAddOn : List String :=
  ["SIMM Total", "Add-On", "Product Class", "SIMM_ProductClass", "Risk Class",
   "SIMM_RiskClass", "Risk Measure", "SIMM_RiskMeasure"]

/-- Breakdown header without the `Add-On` column (`agg_margins.rs`
lines 408-416 and 467-475). -/
def breakdownHeaderNoAddOn : List String :=
  ["SIMM Total", "Product Class", "SIMM_ProductClass", "Risk Class",
   "SIMM_RiskClass", "Risk Measure", "SIMM_RiskMeasure"]

/-- Render one result row with the add-on column (`agg_margins.rs`
lines 442-462); `fmt` models the `format!("{:.2}", _)` of the source. -/
def renderRowWithAddOn (fmt : ℝ → String) (simm addon : ℝ) (r : ResultRow) :
    List String :=
  [fmt simm, fmt addon, r.productClass, (r.simmProductClass.map fmt).getD "",
   r.riskClassName, (r.simmRiskClass.map fmt).getD "", r.riskMeasure.getD "",
   (r.simmRiskMeasure.map fmt).getD ""]

/-- Render one result row without the add-on column (`agg_margins.rs`
lines 477-496). -/
def renderRowNoAddOn (fmt : ℝ → String) (simm : ℝ) (r : ResultRow) :
    List String :=
  [fmt simm, r.productClass, (r.simmProductClass.map fmt).getD "",
   r.riskClassName, (r.simmRiskClass.map fmt).getD "", r.riskMeasure.getD "",
   (r.simmRiskMeasure.map fmt).getD ""]

/-- The main calculation (`calculate_simm`, `agg_margins.rs`
lines 325-504): per-product SIMM and result rows, the product-class
multiplier uplift, the rounded combined add-on, the total, and the
breakdown table.  `enumsR` and `enumsP` are the `HashMap` iteration orders
used by the two independent `simm_risk_class` traversals
(`results_product_class` and `simm_product`); the source draws them from
the hasher's run-time state.  With required columns absent the source
panics on an `unwrap` (products present) or returns the `addon_margin`
error; both are modelled as the error case. -/
noncomputable def calculateSimm (env : RtEnv) (wnc : WNC) (calcCcy : String)
    (xr : ℝ) (crif : Crif)
    (enumsR enumsP : String → List (String × List (String × ℝ)))
    (fmt : ℝ → String) : Except String (ℝ × Crif) :=
  let productClasses := productList crif
  match addonMargin crif with
  | Except.error e => Except.error e
  | Except.ok addonBase =>
      let simmProd : String → ℝ := fun pc => simmProductWith wnc (enumsP pc)
      let allResults : List ResultRow := productClasses.bind fun pc =>
        (resultsProductClassWith pc (enumsR pc)).map fun r =>
          { r with simmProductClass := some (simmProd pc) }
      let simmSum : ℝ := (productClasses.map simmProd).sum
      let addonMs : ℝ :=
        (productClasses.map fun pc =>
          let msResult := productMultiplierSum crif pc
          if msResult ≠ 0 then simmProd pc * ((msResult - 1 : ℚ) : ℝ) else 0).sum
      let addonRounded : ℝ := rustRound (addonMs + (addonBase : ℝ)) * 100 / 100
      let simm : ℝ := simmSum + addonRounded
      let breakdown : Crif :=
        if productClasses.isEmpty then
          if 0 < |addonRounded| then
            [breakdownHeaderWithAddOn,
             [fmt simm, fmt addonRounded, "", "0", "", "0", "", "0"]]
          else [breakdownHeaderNoAddOn, [fmt simm, "", "0", "", "0", "", "0"]]
        else
          if 0 < |addonRounded| then
            breakdownHeaderWithAddOn ::
              allResults.map (renderRowWithAddOn fmt simm addonRounded)
          else breakdownHeaderNoAddOn :: allResults.map (renderRowNoAddOn fmt simm)
      Except.ok (simm, breakdown)

/-- Result of a SIMM run (`SIMM` struct fields `simm` and
`simm_break_down`, `agg_margins.rs` lines 12-19). -/
structure SIMMResult where
  simm : ℝ
  simmBreakDown : Crif

/-- Entry point (`SIMM::from_crif`, `agg_margins.rs` lines 28-44): rejects
an empty CRIF, then runs `calculate_simm`. -/
noncomputable def fromCrif (env : RtEnv) (wnc : WNC) (crif : Crif)
    (cfg : EngineConfig)
    (enumsR enumsP : String → List (String × List (String × ℝ)))
    (fmt : ℝ → String) : Except String SIMMResult :=
  if crif.isEmpty then Except.error "crif list must have at least a header row"
  else
    match calculateSimm env wnc cfg.calculationCurrency cfg.exchangeRate crif
        enumsR enumsP fmt with
    | Except.error e => Except.error e
    | Except.ok res => Except.ok ⟨res.1, res.2⟩

/-- The canonical enumeration family: one canonical entry list per product
class, on the product-filtered CRIF. -/
noncomputable def canonicalEnums (env : RtEnv) (wnc : WNC) (calcCcy : String)
    (xr : ℝ) (crif : Crif) : String → List (String × List (String × ℝ)) :=
  fun pc =>
    canonicalEntries env wnc calcCcy xr (filterRows crif [("ProductClass", [pc])])

/-- An enumeration family is valid for a CRIF when, for every product class
of the CRIF, it is a permutation (in the `EntriesMatch` sense) of the
canonical entries of that product class. -/
def ValidEnums (env : RtEnv) (wnc : WNC) (calcCcy : String) (xr : ℝ)
    (crif : Crif) (enums : String → List (String × List (String × ℝ))) : Prop :=
  ∀ pc ∈ productList crif,
    EntriesMatch (enums pc) (canonicalEnums env wnc calcCcy xr crif pc)

/-! ## Concrete reference inputs -/

/-- The seven-column CRIF header used by the reference scenarios. -/
def s1HeaderRow : List String :=
  ["ProductClass", "RiskType", "Qualifier", "Bucket", "Label1", "Label2", "AmountUSD"]

/-- Scenario S1 exactly as the specification states it: a single
`Risk_IRCurve` row with EMPTY `Label2`. -/
def s1CrifEmptyLabel2 : Crif :=
  [s1HeaderRow, ["Rates", "Risk_IRCurve", "USD", "1", "2w", "", "1000"]]

/-- Scenario S1 with a named sub-curve (`Label2 = "OIS"`). -/
def s1CrifOis : Crif :=
  [s1HeaderRow, ["Rates", "Risk_IRCurve", "USD", "1", "2w", "OIS", "1000"]]

/-- A single base-correlation row (scenario S4's shape), used to exhibit
the breakdown row order. -/
def baseCorrCrif : Crif :=
  [s1HeaderRow, ["Credit", "Risk_BaseCorr", "X", "", "", "", "100"]]

/-- Canonical-order entry list of `baseCorrCrif` (risk classes in
`riskClassList` order, measures in `marginMeasures` order). -/
noncomputable def bcE1 : List (String × List (String × ℝ)) :=
  [("Rates", [("Delta", 0), ("Vega", 0), ("Curvature", 0)]),
   ("FX", [("Delta", 0), ("Vega", 0), ("Curvature", 0)]),
   ("CreditQ", [("Delta", 0), ("Vega", 0), ("Curvature", 0), ("BaseCorr", 1000)]),
   ("CreditNonQ", [("Delta", 0), ("Vega", 0), ("Curvature", 0)]),
   ("Equity", [("Delta", 0), ("Vega", 0), ("Curvature", 0)]),
   ("Commodity", [("Delta", 0), ("Vega", 0), ("Curvature", 0)])]

/-- The same entries with `CreditQ`'s inner map enumerated `BaseCorr`
first: another iteration order the source's `HashMap`s can produce. -/
noncomputable def bcE2 : List (String × List (String × ℝ)) :=
  [("Rates", [("Delta", 0), ("Vega", 0), ("Curvature", 0)]),
   ("FX", [("Delta", 0), ("Vega", 0), ("Curvature", 0)]),
   ("CreditQ", [("BaseCorr", 1000), ("Delta", 0), ("Vega", 0), ("Curvature", 0)]),
   ("CreditNonQ", [("Delta", 0), ("Vega", 0), ("Curvature", 0)]),
   ("Equity", [("Delta", 0), ("Vega", 0), ("Curvature", 0)]),
   ("Commodity", [("Delta", 0), ("Vega", 0), ("Curvature", 0)])]

/-! ## Theorems -/

/-- Shared: a double sum over `Finset.range 1` with zero diagonal vanishes. -/
theorem diagSumOne (f : ℕ → ℕ → ℝ) :
    (∑ i ∈ Finset.range 1, ∑ j ∈ Finset.range 1,
      if i = j then (0 : ℝ) else f i j) = 0 := by
  simp

/-- Shared: the delta kernel on the empty list is zero. -/
theorem kDeltaNil (wnc : WNC) (rc : String) (cr : Option (List ℝ))
    (bucket tenor index : Option (List String)) (ccy : String) :
    kDelta wnc rc [] cr bucket tenor index ccy = 0 := by
  simp [kDelta]

/-- Shared: the delta kernel on a singleton is the absolute value. -/
theorem kDeltaSingleton (wnc : WNC) (rc : String) (ws : ℝ)
    (cr : Option (List ℝ)) (bucket tenor index : Option (List String))
    (ccy : String) :
    kDelta wnc rc [ws] cr bucket tenor index ccy = |ws| := by
  simp [kDelta, Real.sqrt_sq_eq_abs]

/-- Shared: the vega kernel on the empty list is zero. -/
theorem kVegaNil (wnc : WNC) (rc : String) (vcr : Option (List ℝ))
    (bucket : Option String) (index : Option (List String)) :
    kVega wnc rc [] vcr bucket index = 0 := by
  simp [kVega]

/-- Shared: the vega kernel on a singleton is the absolute value. -/
theorem kVegaSingleton (wnc : WNC) (rc : String) (vr : ℝ)
    (vcr : Option (List ℝ)) (bucket : Option String)
    (index : Option (List String)) :
    kVega wnc rc [vr] vcr bucket index = |vr| := by
  simp [kVega, Real.sqrt_sq_eq_abs]

/-- Shared: the curvature kernel on the empty list is zero. -/
theorem kCurvatureNil (wnc : WNC) (rc : String) (bucket : Option String)
    (index : Option (List String)) :
    kCurvature wnc rc [] bucket index = 0 := by
  simp [kCurvature]

/-- Shared: the curvature kernel on a singleton is the absolute value. -/
theorem kCurvatureSingleton (wnc : WNC) (rc : String) (cvr : ℝ)
    (bucket : Option String) (index : Option (List String)) :
    kCurvature wnc rc [cvr] bucket index = |cvr| := by
  simp [kCurvature, Real.sqrt_sq_eq_abs]

/-- C3: each bucket kernel returns `0` on the empty list of weighted
sensitivities and `|WS|` on a singleton, for every choice of the other
arguments. -/
theorem kernel_edge_cases :
    (∀ (wnc : WNC) (rc : String) (cr : Option (List ℝ))
        (bucket tenor index : Option (List String)) (ccy : String),
      kDelta wnc rc [] cr bucket tenor index ccy = 0 ∧
      ∀ ws : ℝ, kDelta wnc rc [ws] cr bucket tenor index ccy = |ws|) ∧
    (∀ (wnc : WNC) (rc : String) (vcr : Option (List ℝ))
        (bucket : Option String) (index : Option (List String)),
      kVega wnc rc [] vcr bucket index = 0 ∧
      ∀ vr : ℝ, kVega wnc rc [vr] vcr bucket index = |vr|) ∧
    (∀ (wnc : WNC) (rc : String) (bucket : Option String)
        (index : Option (List String)),
      kCurvature wnc rc [] bucket index = 0 ∧
      ∀ cvr : ℝ, kCurvature wnc rc [cvr] bucket index = |cvr|) := by
  exact ⟨fun wnc rc cr bucket tenor index ccy =>
      ⟨kDeltaNil wnc rc cr bucket tenor index ccy,
        fun ws => kDeltaSingleton wnc rc ws cr bucket tenor index ccy⟩,
    fun wnc rc vcr bucket index =>
      ⟨kVegaNil wnc rc vcr bucket index,
        fun vr => kVegaSingleton wnc rc vr vcr bucket index⟩,
    fun wnc rc bucket index =>
      ⟨kCurvatureNil wnc rc bucket index,
        fun cvr => kCurvatureSingleton wnc rc cvr bucket index⟩⟩

/-- C6: for every parameter-set version (2.5, 2.6, 2.7) and all pairs among
the six risk classes, the cross-class correlation has unit diagonal and is
symmetric. -/
theorem psi_unit_diagonal_symmetric :
    ∀ rc1 ∈ riskClassList, ∀ rc2 ∈ riskClassList,
      (v2_5_psi rc1 rc1 = some 1 ∧ v2_6_psi rc1 rc1 = some 1 ∧
        v2_7_psi rc1 rc1 = some 1) ∧
      (v2_5_psi rc1 rc2 = v2_5_psi rc2 rc1 ∧
        v2_6_psi rc1 rc2 = v2_6_psi rc2 rc1 ∧
        v2_7_psi rc1 rc2 = v2_7_psi rc2 rc1) := by
  intro rc1 h1 rc2 h2
  fin_cases h1 <;> fin_cases h2 <;>
    simp [v2_5_psi, v2_6_psi, v2_7_psi, matrixLookup, positionOf, RISK_CLASSES,
      CORR_PARAMS, CORR_PARAMS_V2_6, CORR_PARAMS_V2_7] <;> norm_num

/-- Witness for C6 at the concrete pair (`Rates`, `FX`). -/
theorem psi_unit_diagonal_symmetric_witness :
    ("Rates" ∈ riskClassList ∧ "FX" ∈ riskClassList) ∧
      (v2_5_psi "Rates" "Rates" = some 1 ∧ v2_6_psi "Rates" "Rates" = some 1 ∧
        v2_7_psi "Rates" "Rates" = some 1) ∧
      (v2_5_psi "Rates" "FX" = v2_5_psi "FX" "Rates" ∧
        v2_6_psi "Rates" "FX" = v2_6_psi "FX" "Rates" ∧
        v2_7_psi "Rates" "FX" = v2_7_psi "FX" "Rates") :=
  ⟨⟨by decide, by decide⟩,
    psi_unit_diagonal_symmetric "Rates" (by decide) "FX" (by decide)⟩

/-- Shared: scaling a quadratic form by `α` in both arguments scales its
square root by `α ≥ 0`. -/
theorem sqrtQuadformScale (n : ℕ) (c : ℕ → ℕ → ℝ) (a : ℕ → ℝ) (alpha : ℝ)
    (h : 0 ≤ alpha) :
    Real.sqrt (∑ i ∈ Finset.range n, ∑ j ∈ Finset.range n,
        c i j * (alpha * a i) * (alpha * a j)) =
      alpha * Real.sqrt (∑ i ∈ Finset.range n, ∑ j ∈ Finset.range n,
        c i j * a i * a j) := by
  have hco : ∀ i j, c i j * (alpha * a i) * (alpha * a j) =
      alpha ^ 2 * (c i j * a i * a j) := by intro i j; ring
  simp_rw [hco, ← Finset.mul_sum]
  rw [Real.sqrt_mul (sq_nonneg alpha), Real.sqrt_sq h]

/-- Shared: the risk-class sum of the canonical entries scales linearly in
the exchange rate. -/
theorem simmRcSumScale (env : RtEnv) (wnc : WNC) (calcCcy : String)
    (xr alpha : ℝ) (crif : Crif) (rc : String) :
    simmRcSum (canonicalEntries env wnc calcCcy (alpha * xr) crif) rc =
      alpha * simmRcSum (canonicalEntries env wnc calcCcy xr crif) rc := by
  simp only [simmRcSum, canonicalEntries, List.find?_map, Function.comp_def]
  cases riskClassList.find? fun rc' => rc' == rc with
  | none => simp
  | some rc' =>
      simp only [Option.map_some', Option.getD_some, List.map_map, Function.comp_def]
      have hmm : ∀ m, simmRiskClassCell env wnc calcCcy (alpha * xr) crif rc' m =
          alpha * simmRiskClassCell env wnc calcCcy xr crif rc' m := by
        intro m; simp only [simmRiskClassCell]; ring
      simp only [hmm]
      rw [List.sum_map_mul_left]

/-- C7: scaling the exchange rate by `α ≥ 0` scales every
(risk class, measure) charge of `simm_risk_class` by `α` and every
product-class SIMM by `α`. -/
theorem exchange_rate_scaling (env : RtEnv) (wnc : WNC) (calcCcy : String)
    (xr alpha : ℝ) (crif : Crif) (h : 0 ≤ alpha) :
    (∀ rc m, simmRiskClassCell env wnc calcCcy (alpha * xr) crif rc m =
        alpha * simmRiskClassCell env wnc calcCcy xr crif rc m) ∧
    ∀ pc, simmProductOf env wnc calcCcy (alpha * xr) crif pc =
        alpha * simmProductOf env wnc calcCcy xr crif pc := by
  constructor
  · intro rc m; simp only [simmRiskClassCell]; ring
  · intro pc
    simp only [simmProductOf, simmProductWith, simmRcSumScale]
    exact sqrtQuadformScale 6
      (fun i j => (((if i = j then 1
        else (wnc.psi (riskClassList.getD i "") (riskClassList.getD j "")).getD 0 : ℚ)) : ℝ))
      (fun i => simmRcSum (canonicalEntries env wnc calcCcy xr
        (filterRows crif [("ProductClass", [pc])])) (riskClassList.getD i ""))
      alpha h

/-- Witness for C7 at `α = 2`, `xr = 1`, version 2.5, a header-only CRIF. -/
theorem exchange_rate_scaling_witness :
    (0 : ℝ) ≤ 2 ∧
      ((∀ rc m, simmRiskClassCell ⟨1, 1⟩ v2_5 "USD" ((2 : ℝ) * 1) [["AmountUSD"]] rc m =
          2 * simmRiskClassCell ⟨1, 1⟩ v2_5 "USD" 1 [["AmountUSD"]] rc m) ∧
        ∀ pc, simmProductOf ⟨1, 1⟩ v2_5 "USD" ((2 : ℝ) * 1) [["AmountUSD"]] pc =
          2 * simmProductOf ⟨1, 1⟩ v2_5 "USD" 1 [["AmountUSD"]] pc) :=
  ⟨by norm_num,
    exchange_rate_scaling ⟨1, 1⟩ v2_5 "USD" 1 2 [["AmountUSD"]] (by norm_num)⟩

/-- Shared: the per-bucket delta charge and clamped sensitivity do not
depend on the provider's gamma capability. -/
theorem deltaBucketKSGammaFree (wnc : WNC) (g : String → String → String → Option ℚ)
    (calcCcy riskClass : String) (crifOthers : Crif) (bucket : ℕ) :
    deltaBucketKS { wnc with gamma := g } calcCcy riskClass crifOthers bucket =
      deltaBucketKS wnc calcCcy riskClass crifOthers bucket := rfl

/-- Shared: positional lookup into a mapped prefix of an appended list. -/
theorem getDMapPrefix (l z : List ℕ) (S : ℕ → ℝ) (i : ℕ) (h : i < l.length) :
    ((l ++ z).map S).getD i 0 = S (l.getD i 0) := by
  rw [List.map_append]
  rw [List.getD_append _ _ _ _ (by simpa using h)]
  rw [List.getD_eq_getElem _ _ (by simpa using h), List.getD_eq_getElem _ _ h]
  simp

/-- C5 helper: membership of a positional element of the residual-free
bucket list. -/
theorem nonResGetDNeZero (buckets : List ℕ) (i : ℕ)
    (h : i < (buckets.filter (· ≠ 0)).length) :
    (buckets.filter (· ≠ 0)).getD i 0 ≠ 0 := by
  have hmem : (buckets.filter (· ≠ 0)).getD i 0 ∈ buckets.filter (· ≠ 0) := by
    rw [List.getD_eq_getElem _ _ h]
    exact List.getElem_mem _
  have := List.of_mem_filter hmem
  simpa using this

/-- C5: for the Credit and Equity risk classes, the non-rates delta margin
adds the residual bucket's charge linearly to the cross-bucket square-root
term, the gamma sum of that term ranges only over pairs of distinct
non-residual buckets (with their own `S` values), and the result does not
depend on the gamma values at any pair involving the residual bucket. -/
theorem residual_additive_and_gamma_isolated (wnc : WNC)
    (g₁ g₂ : String → String → String → Option ℚ) (calcCcy : String)
    (crif : Crif) (rt rc : String)
    (hrt : (rt, rc) ∈ [("Risk_CreditQ", "CreditQ"), ("Risk_CreditNonQ", "CreditNonQ"),
      ("Risk_Equity", "Equity")])
    (hpresent : (uniqueValues crif "RiskType").contains rt = true)
    (hz : bucketList (filterRows crif [("RiskType", [rt])]) =
      (bucketList (filterRows crif [("RiskType", [rt])])).filter (· ≠ 0) ++
        (bucketList (filterRows crif [("RiskType", [rt])])).filter (· = 0))
    (hg : ∀ rcl : String, ∀ b c : ℕ, b ≠ 0 → c ≠ 0 →
      g₁ rcl (toString b) (toString c) = g₂ rcl (toString b) (toString c)) :
    deltaMargin { wnc with gamma := g₁ } calcCcy crif rc "Delta" =
      Real.sqrt
        ((((bucketList (filterRows crif [("RiskType", [rt])])).filter (· ≠ 0)).map
            (fun b => (deltaBucketKS wnc calcCcy rt
              (filterRows crif [("RiskType", [rt])]) b).1 ^ 2)).sum +
          ∑ i ∈ Finset.range
            (((bucketList (filterRows crif [("RiskType", [rt])])).filter (· ≠ 0)).length),
            ∑ j ∈ Finset.range
              (((bucketList (filterRows crif [("RiskType", [rt])])).filter (· ≠ 0)).length),
              if i = j then 0
              else
                (((g₁ rt
                  (toString (((bucketList (filterRows crif [("RiskType", [rt])])).filter
                    (· ≠ 0)).getD i 0))
                  (toString (((bucketList (filterRows crif [("RiskType", [rt])])).filter
                    (· ≠ 0)).getD j 0))).getD 0 : ℚ) : ℝ) *
                  (deltaBucketKS wnc calcCcy rt (filterRows crif [("RiskType", [rt])])
                    (((bucketList (filterRows crif [("RiskType", [rt])])).filter
                      (· ≠ 0)).getD i 0)).2 *
                  (deltaBucketKS wnc calcCcy rt (filterRows crif [("RiskType", [rt])])
                    (((bucketList (filterRows crif [("RiskType", [rt])])).filter
                      (· ≠ 0)).getD j 0)).2) +
        (((bucketList (filterRows crif [("RiskType", [rt])])).filter (· = 0)).map
          (fun b => (deltaBucketKS wnc calcCcy rt
            (filterRows crif [("RiskType", [rt])]) b).1)).sum ∧
    deltaMargin { wnc with gamma := g₁ } calcCcy crif rc "Delta" =
      deltaMargin { wnc with gamma := g₂ } calcCcy crif rc "Delta" := by
  have key : ∀ g : String → String → String → Option ℚ,
      (∀ rcl : String, ∀ b c : ℕ, b ≠ 0 → c ≠ 0 →
        g rcl (toString b) (toString c) = g₁ rcl (toString b) (toString c)) →
      deltaCrossBucketParts { wnc with gamma := g } calcCcy rt
          (filterRows crif [("RiskType", [rt])]) =
        (Real.sqrt
          ((((bucketList (filterRows crif [("RiskType", [rt])])).filter (· ≠ 0)).map
              (fun b => (deltaBucketKS wnc calcCcy rt
                (filterRows crif [("RiskType", [rt])]) b).1 ^ 2)).sum +
            ∑ i ∈ Finset.range
              (((bucketList (filterRows crif [("RiskType", [rt])])).filter (· ≠ 0)).length),
              ∑ j ∈ Finset.range
                (((bucketList (filterRows crif [("RiskType", [rt])])).filter (· ≠ 0)).length),
                if i = j then 0
                else
                  (((g₁ rt
                    (toString (((bucketList (filterRows crif [("RiskType", [rt])])).filter
                      (· ≠ 0)).getD i 0))
                    (toString (((bucketList (filterRows crif [("RiskType", [rt])])).filter
                      (· ≠ 0)).getD j 0))).getD 0 : ℚ) : ℝ) *
                    (deltaBucketKS wnc calcCcy rt (filterRows crif [("RiskType", [rt])])
                      (((bucketList (filterRows crif [("RiskType", [rt])])).filter
                        (· ≠ 0)).getD i 0)).2 *
                    (deltaBucketKS wnc calcCcy rt (filterRows crif [("RiskType", [rt])])
                      (((bucketList (filterRows crif [("RiskType", [rt])])).filter
                        (· ≠ 0)).getD j 0)).2),
         (((bucketList (filterRows crif [("RiskType", [rt])])).filter (· = 0)).map
           (fun b => (deltaBucketKS wnc calcCcy rt
             (filterRows crif [("RiskType", [rt])]) b).1)).sum) := by
    intro g hgg
    set crifO := filterRows crif [("RiskType", [rt])] with hcrifO
    set buckets := bucketList crifO with hbuckets
    set nonRes := buckets.filter (· ≠ 0) with hnonRes
    simp only [deltaCrossBucketParts, deltaBucketKSGammaFree]
    refine Prod.ext ?_ rfl
    simp only []
    congr 1
    congr 1
    · rw [List.map_map]; rfl
    · refine Finset.sum_congr rfl fun i hi => Finset.sum_congr rfl fun j hj => ?_
      have hi' := Finset.mem_range.mp hi
      have hj' := Finset.mem_range.mp hj
      by_cases hij : i = j
      · simp [hij]
      · simp only [if_neg hij]
        have hSi : (buckets.map fun b =>
            (deltaBucketKS wnc calcCcy rt crifO b).2).getD i 0 =
            (deltaBucketKS wnc calcCcy rt crifO (nonRes.getD i 0)).2 := by
          have : buckets.map (fun b => (deltaBucketKS wnc calcCcy rt crifO b).2) =
              (nonRes ++ buckets.filter (· = 0)).map
                (fun b => (deltaBucketKS wnc calcCcy rt crifO b).2) := by
            rw [← hz]
          rw [this, getDMapPrefix _ _ _ i hi']
        have hSj : (buckets.map fun b =>
            (deltaBucketKS wnc calcCcy rt crifO b).2).getD j 0 =
            (deltaBucketKS wnc calcCcy rt crifO (nonRes.getD j 0)).2 := by
          have : buckets.map (fun b => (deltaBucketKS wnc calcCcy rt crifO b).2) =
              (nonRes ++ buckets.filter (· = 0)).map
                (fun b => (deltaBucketKS wnc calcCcy rt crifO b).2) := by
            rw [← hz]
          rw [this, getDMapPrefix _ _ _ j hj']
        rw [hSi, hSj]
        rw [hgg rt _ _ (nonResGetDNeZero buckets i hi') (nonResGetDNeZero buckets j hj')]
  have h1 := key g₁ (fun _ _ _ _ _ => rfl)
  have h2 := key g₂ (fun rcl b c hb hc => (hg rcl b c hb hc).symm)
  have hcell : ∀ g : String → String → String → Option ℚ,
      deltaMargin { wnc with gamma := g } calcCcy crif rc "Delta" =
        (deltaCrossBucketParts { wnc with gamma := g } calcCcy rt
          (filterRows crif [("RiskType", [rt])])).1 +
        (deltaCrossBucketParts { wnc with gamma := g } calcCcy rt
          (filterRows crif [("RiskType", [rt])])).2 := by
    intro g
    have hmem : rt ∈ uniqueValues crif "RiskType" := by simpa using hpresent
    simp only [List.mem_cons, List.not_mem_nil, or_false, Prod.mk.injEq] at hrt
    rcases hrt with ⟨rfl, rfl⟩ | ⟨rfl, rfl⟩ | ⟨rfl, rfl⟩ <;>
      simp [deltaMargin, hmem]
  constructor
  · rw [hcell g₁, h1]
  · rw [hcell g₁, hcell g₂, h1, h2]

/-- Witness for C5: version 2.5, a two-row Equity CRIF (numeric bucket 1
and a Residual row), and a second gamma capability that agrees with the
first on all bucket pairs. -/
theorem residual_additive_and_gamma_isolated_witness :
    (("Risk_Equity", "Equity") ∈
        [("Risk_CreditQ", "CreditQ"), ("Risk_CreditNonQ", "CreditNonQ"),
          ("Risk_Equity", "Equity")] ∧
      (uniqueValues
          [["ProductClass", "RiskType", "Qualifier", "Bucket", "Label1", "Label2", "AmountUSD"],
           ["Equity", "Risk_Equity", "AAPL", "1", "", "", "100"],
           ["Equity", "Risk_Equity", "XYZ", "Residual", "", "", "50"]]
          "RiskType").contains "Risk_Equity" = true ∧
      bucketList (filterRows
          [["ProductClass", "RiskType", "Qualifier", "Bucket", "Label1", "Label2", "AmountUSD"],
           ["Equity", "Risk_Equity", "AAPL", "1", "", "", "100"],
           ["Equity", "Risk_Equity", "XYZ", "Residual", "", "", "50"]]
          [("RiskType", ["Risk_Equity"])]) =
        (bucketList (filterRows
          [["ProductClass", "RiskType", "Qualifier", "Bucket", "Label1", "Label2", "AmountUSD"],
           ["Equity", "Risk_Equity", "AAPL", "1", "", "", "100"],
           ["Equity", "Risk_Equity", "XYZ", "Residual", "", "", "50"]]
          [("RiskType", ["Risk_Equity"])])).filter (· ≠ 0) ++
        (bucketList (filterRows
          [["ProductClass", "RiskType", "Qualifier", "Bucket", "Label1", "Label2", "AmountUSD"],
           ["Equity", "Risk_Equity", "AAPL", "1", "", "", "100"],
           ["Equity", "Risk_Equity", "XYZ", "Residual", "", "", "50"]]
          [("RiskType", ["Risk_Equity"])])).filter (· = 0)) ∧
    deltaMargin { v2_5 with gamma := v2_5.gamma } "USD"
        [["ProductClass", "RiskType", "Qualifier", "Bucket", "Label1", "Label2", "AmountUSD"],
         ["Equity", "Risk_Equity", "AAPL", "1", "", "", "100"],
         ["Equity", "Risk_Equity", "XYZ", "Residual", "", "", "50"]]
        "Equity" "Delta" =
      deltaMargin
        { v2_5 with gamma := fun rcl b c =>
            if rcl = "NOPE" then none else v2_5.gamma rcl b c } "USD"
        [["ProductClass", "RiskType", "Qualifier", "Bucket", "Label1", "Label2", "AmountUSD"],
         ["Equity", "Risk_Equity", "AAPL", "1", "", "", "100"],
         ["Equity", "Risk_Equity", "XYZ", "Residual", "", "", "50"]]
        "Equity" "Delta" :=
  ⟨⟨by decide, by decide, by decide⟩,
    (residual_additive_and_gamma_isolated v2_5 v2_5.gamma
      (fun rcl b c => if rcl = "NOPE" then none else v2_5.gamma rcl b c) "USD"
      [["ProductClass", "RiskType", "Qualifier", "Bucket", "Label1", "Label2", "AmountUSD"],
       ["Equity", "Risk_Equity", "AAPL", "1", "", "", "100"],
       ["Equity", "Risk_Equity", "XYZ", "Residual", "", "", "50"]]
      "Risk_Equity" "Equity" (by decide) (by decide) (by decide)
      (by
        intro rcl b c _ _
        by_cases h : rcl = "NOPE"
        · subst h
          simp [v2_5, v2_5_gamma, LIST_CREDIT_Q, LIST_CREDIT_NON_Q, LIST_EQUITY,
            LIST_COMMODITY]
        · simp [h])).2⟩

/-- C10: `scaling_func` is total and never fails: whenever the lowercased
label is not `"2w"` and the branch taken has no Rust-parsable numeric
content (the label with the branch letter removed is not accepted by the
`f64` parser), the function returns the default `0.5`.  Moreover the IR
curvature path builds its CVR terms from `unique_values(_, "Label1")` —
every distinct label, not only the canonical twelve tenors — so a
non-canonical label such as `"7q"` contributes with factor `0.5` instead of
being rejected: the curvature entries of a one-row `Risk_IRVol` CRIF with
label `"7q"` and amount `100` are `[(50, "7q")]`, although `tenor_list`
(used by the delta and vega paths) is empty on the same rows. -/
theorem scaling_func_total_and_curvature_labels :
    (∀ t : String, lowerStr t ≠ "2w" →
      ((lowerStr t).data.contains 'm' = true →
        rustParsesF64 (removeChar 'm' (lowerStr t)) = false) →
      ((lowerStr t).data.contains 'm' = false →
        (lowerStr t).data.contains 'y' = true →
        rustParsesF64 (removeChar 'y' (lowerStr t)) = false) →
      scalingFunc t = 1 / 2) ∧
    irCurvEntries
        [["ProductClass", "RiskType", "Qualifier", "Bucket", "Label1", "Label2", "AmountUSD"],
         ["Rates", "Risk_IRVol", "USD", "", "7q", "", "100"]] = [(50, "7q")] ∧
    tenorList
        [["ProductClass", "RiskType", "Qualifier", "Bucket", "Label1", "Label2", "AmountUSD"],
         ["Rates", "Risk_IRVol", "USD", "", "7q", "", "100"]] = [] := by
  refine ⟨fun t h2w hm hy => ?_, ?_, ?_⟩
  · have hparse : ∀ s : String, rustParsesF64 s = false → parseF64? s = none := by
      intro s hs
      simp only [rustParsesF64, Bool.or_eq_false_iff] at hs
      exact Option.not_isSome_iff_eq_none.mp (by simp [hs.1])
    simp only [scalingFunc]
    rw [if_neg h2w]
    cases hcm : (lowerStr t).data.contains 'm' with
    | true => simp only [hcm, if_true, hparse _ (hm hcm)]
    | false =>
        simp only [hcm, Bool.false_eq_true, if_false]
        cases hcy : (lowerStr t).data.contains 'y' with
        | true => simp only [hcy, if_true, hparse _ (hy hcm hcy)]
        | false => simp only [hcy, Bool.false_eq_true, if_false]
  · have hp : parseF64? "100" = some 100 := by
      simp [parseF64?, parseMant?, splitOnChar, stripSign, digitsVal, allDigits]
    have h2 : filterRows
        [["ProductClass", "RiskType", "Qualifier", "Bucket", "Label1", "Label2", "AmountUSD"],
         ["Rates", "Risk_IRVol", "USD", "", "7q", "", "100"]] [("RiskType", ["Risk_IRVol"])] =
        [["ProductClass", "RiskType", "Qualifier", "Bucket", "Label1", "Label2", "AmountUSD"],
         ["Rates", "Risk_IRVol", "USD", "", "7q", "", "100"]] := by decide
    have h5 : sumSensitivities
        [["ProductClass", "RiskType", "Qualifier", "Bucket", "Label1", "Label2", "AmountUSD"],
         ["Rates", "Risk_IRVol", "USD", "", "7q", "", "100"]] = 100 := by
      simp [sumSensitivities, getColumnValues, getColumnIndex, positionOf, hp]
    have h6 : scalingFunc "7q" = 1 / 2 := by
      simp [scalingFunc, lowerStr, asciiLower, asciiLowerPairs]
    have h1 : uniqueValues
        [["ProductClass", "RiskType", "Qualifier", "Bucket", "Label1", "Label2", "AmountUSD"],
         ["Rates", "Risk_IRVol", "USD", "", "7q", "", "100"]] "RiskType" = ["Risk_IRVol"] := by
      decide
    have h3 : uniqueValues
        [["ProductClass", "RiskType", "Qualifier", "Bucket", "Label1", "Label2", "AmountUSD"],
         ["Rates", "Risk_IRVol", "USD", "", "7q", "", "100"]] "Label1" = ["7q"] := by
      decide
    have h4 : filterRows
        [["ProductClass", "RiskType", "Qualifier", "Bucket", "Label1", "Label2", "AmountUSD"],
         ["Rates", "Risk_IRVol", "USD", "", "7q", "", "100"]] [("Label1", ["7q"])] =
        [["ProductClass", "RiskType", "Qualifier", "Bucket", "Label1", "Label2", "AmountUSD"],
         ["Rates", "Risk_IRVol", "USD", "", "7q", "", "100"]] := by decide
    simp only [irCurvEntries, h1, RATES_VEGA_TYPES, List.foldl, h2, h3, List.map,
      h4, h5, h6]
    norm_num
  · decide

/-- Witness for C10 at the concrete label `"qq"` (no `m`, no `y`, not
`"2w"`). -/
theorem scaling_func_total_and_curvature_labels_witness :
    (lowerStr "qq" ≠ "2w" ∧
      (lowerStr "qq").data.contains 'm' = false ∧
      (lowerStr "qq").data.contains 'y' = false) ∧
    scalingFunc "qq" = 1 / 2 :=
  ⟨⟨by decide, by decide, by decide⟩,
    scaling_func_total_and_curvature_labels.1 "qq" (by decide)
      (fun h => absurd h (by decide)) (fun _ h => absurd h (by decide))⟩

/-- Shared: Rust rounding of zero is zero. -/
theorem rustRoundZero : rustRound 0 = 0 := by
  rw [rustRound, if_pos le_rfl]
  rw [show ((0 : ℝ) + 1 / 2) = 1 / 2 by norm_num]
  rw [show ⌊(1 : ℝ) / 2⌋ = 0 by
    rw [Int.floor_eq_zero_iff]; constructor <;> norm_num]
  norm_num

/-- Shared: evaluation of the main calculation on the canonical header-only
CRIF: total zero and a two-row breakdown. -/
theorem calcSimmHeaderOnly (env : RtEnv) (wnc : WNC) (calcCcy : String)
    (xr : ℝ) (enumsR enumsP : String → List (String × List (String × ℝ)))
    (fmt : ℝ → String) :
    calculateSimm env wnc calcCcy xr
        [["ProductClass", "RiskType", "Qualifier", "Bucket", "Label1", "Label2",
          "Amount", "AmountCurrency", "AmountUSD"]]
        enumsR enumsP fmt =
      Except.ok
        (0, [breakdownHeaderNoAddOn, [fmt 0, "", "0", "", "0", "", "0"]]) := by
  have haddon : addonMargin
      [["ProductClass", "RiskType", "Qualifier", "Bucket", "Label1", "Label2",
        "Amount", "AmountCurrency", "AmountUSD"]] = Except.ok 0 := by
    simp [addonMargin, getColumnIndex, positionOf, dedupFirst]
  have hprod : productList
      [["ProductClass", "RiskType", "Qualifier", "Bucket", "Label1", "Label2",
        "Amount", "AmountCurrency", "AmountUSD"]] = [] := by decide
  rw [calculateSimm]
  rw [haddon]
  simp only [hprod, List.map_nil, List.sum_nil, List.isEmpty_nil, if_true,
    Rat.cast_zero, add_zero, zero_add, List.nil_bind]
  rw [rustRoundZero]
  norm_num

/-- C9: a CRIF consisting of only the canonical header row is accepted by
`from_crif` and produces `SIMM_total = 0` with a breakdown of exactly one
header row and one data row, for every parameter provider, configuration,
enumeration order and formatting function. -/
theorem header_only_crif (env : RtEnv) (wnc : WNC) (cfg : EngineConfig)
    (enumsR enumsP : String → List (String × List (String × ℝ)))
    (fmt : ℝ → String) :
    fromCrif env wnc
        [["ProductClass", "RiskType", "Qualifier", "Bucket", "Label1", "Label2",
          "Amount", "AmountCurrency", "AmountUSD"]]
        cfg enumsR enumsP fmt =
      Except.ok
        ⟨0, [breakdownHeaderNoAddOn, [fmt 0, "", "0", "", "0", "", "0"]]⟩ := by
  rw [fromCrif, if_neg (by simp)]
  rw [calcSimmHeaderOnly]

/-- C1: what `calculate_simm` adds to the total is
`round(add-on) * 100 / 100`, i.e. the add-on rounded to an INTEGER, not to
two decimal places as the in-source comment and the specification state.
At the failing input (a single `Param_AddOnFixedAmount` row of `0.25`) the
computed add-on is `0.25`; rounding to two decimals leaves `0.25`, but the
code adds `round(0.25) = 0` and the total is `0`. -/
theorem addon_rounded_to_integer (env : RtEnv) (wnc : WNC)
    (enumsR enumsP : String → List (String × List (String × ℝ)))
    (fmt : ℝ → String) :
    (∀ x : ℝ, rustRound x * 100 / 100 = rustRound x) ∧
    addonMargin
        [["ProductClass", "RiskType", "Qualifier", "Bucket", "Label1", "Label2", "AmountUSD"],
         ["", "Param_AddOnFixedAmount", "Q1", "", "", "", "0.25"]] =
      Except.ok (1 / 4) ∧
    roundTwoDecimals (1 / 4) = 1 / 4 ∧
    rustRound (1 / 4) * 100 / 100 = 0 ∧
    calculateSimm env wnc "USD" 1
        [["ProductClass", "RiskType", "Qualifier", "Bucket", "Label1", "Label2", "AmountUSD"],
         ["", "Param_AddOnFixedAmount", "Q1", "", "", "", "0.25"]]
        enumsR enumsP fmt =
      Except.ok
        (0, [breakdownHeaderNoAddOn, [fmt 0, "", "0", "", "0", "", "0"]]) := by
  have hp : parseF64? "0.25" = some (1 / 4) := by
    simp [parseF64?, parseMant?, splitOnChar, stripSign, digitsVal, allDigits]
    norm_num
  have haddon : addonMargin
      [["ProductClass", "RiskType", "Qualifier", "Bucket", "Label1", "Label2", "AmountUSD"],
       ["", "Param_AddOnFixedAmount", "Q1", "", "", "", "0.25"]] =
      Except.ok (1 / 4) := by
    simp [addonMargin, getColumnIndex, positionOf, dedupFirst, hp]
  have hround : rustRound (1 / 4) = 0 := by
    rw [rustRound, if_pos (by norm_num)]
    rw [show ((1 : ℝ) / 4 + 1 / 2) = 3 / 4 by norm_num]
    rw [show ⌊(3 : ℝ) / 4⌋ = 0 by
      rw [Int.floor_eq_zero_iff]; constructor <;> norm_num]
    norm_num
  have hround2 : roundTwoDecimals (1 / 4) = 1 / 4 := by
    rw [roundTwoDecimals]
    rw [show ((1 : ℝ) / 4 * 100) = 25 by norm_num]
    rw [show rustRound (25 : ℝ) = 25 by
      rw [rustRound, if_pos (by norm_num)]
      rw [show ((25 : ℝ) + 1 / 2) = 51 / 2 by norm_num]
      rw [show ⌊(51 : ℝ) / 2⌋ = 25 by rw [Int.floor_eq_iff] <;> norm_num]
      norm_num]
    norm_num
  refine ⟨fun x => by field_simp, haddon, hround2, by rw [hround]; norm_num, ?_⟩
  have hprod : productList
      [["ProductClass", "RiskType", "Qualifier", "Bucket", "Label1", "Label2", "AmountUSD"],
       ["", "Param_AddOnFixedAmount", "Q1", "", "", "", "0.25"]] = [] := by decide
  rw [calculateSimm, haddon]
  simp only [hprod, List.map_nil, List.sum_nil, List.isEmpty_nil, if_true,
    zero_add, List.nil_bind]
  rw [show (((1 : ℚ) / 4 : ℚ) : ℝ) = 1 / 4 by norm_num]
  rw [hround]
  norm_num

/-- C4 counterexample: at the CRIF whose only data row is a
`Param_AddOnFixedAmount` of `-500`, the code's SIMM total is `-500 < 0`. -/
theorem simm_total_negative_counterexample :
    calculateSimm ⟨1, 1⟩ v2_5 "USD" 1
        [["ProductClass", "RiskType", "Qualifier", "Bucket", "Label1", "Label2", "AmountUSD"],
         ["", "Param_AddOnFixedAmount", "Q1", "", "", "", "-500"]]
        (fun _ => []) (fun _ => []) (fun _ => "") =
      Except.ok
        (-500, [breakdownHeaderWithAddOn, ["", "", "", "0", "", "0", "", "0"]]) ∧
    (-500 : ℝ) < 0 := by
  have hp : parseF64? "-500" = some (-500) := by
    simp [parseF64?, parseMant?, splitOnChar, stripSign, digitsVal, allDigits]
  have haddon : addonMargin
      [["ProductClass", "RiskType", "Qualifier", "Bucket", "Label1", "Label2", "AmountUSD"],
       ["", "Param_AddOnFixedAmount", "Q1", "", "", "", "-500"]] =
      Except.ok (-500) := by
    simp [addonMargin, getColumnIndex, positionOf, dedupFirst, hp]
  have hprod : productList
      [["ProductClass", "RiskType", "Qualifier", "Bucket", "Label1", "Label2", "AmountUSD"],
       ["", "Param_AddOnFixedAmount", "Q1", "", "", "", "-500"]] = [] := by decide
  have hround : rustRound (-500 : ℝ) = -500 := by
    rw [rustRound, if_neg (by norm_num)]
    rw [show (-(-500 : ℝ) + 1 / 2) = 1001 / 2 by norm_num]
    rw [show ⌊(1001 : ℝ) / 2⌋ = 500 by rw [Int.floor_eq_iff] <;> norm_num]
    norm_num
  constructor
  · rw [calculateSimm, haddon]
    simp only [hprod, List.map_nil, List.sum_nil, List.isEmpty_nil, if_true,
      zero_add, List.nil_bind]
    rw [show (((-500 : ℚ) : ℝ)) = -500 by norm_num]
    rw [hround]
    norm_num
  · norm_num

/-- C4 (amended): every bucket-kernel value and every product-class SIMM is
non-negative (they are square roots, modelled by `Real.sqrt`), and the SIMM
total is non-negative whenever the rounded combined add-on — the only term
the code adds outside the square roots — is non-negative.  (As the
counterexample shows, a negative `Param_AddOnFixedAmount` makes the total
negative, so the unconditional claim fails.) -/
theorem kernels_products_nonneg_total_nonneg_with_addon :
    (∀ (wnc : WNC) (rc : String) (ws : List ℝ) (cr : Option (List ℝ))
        (bucket tenor index : Option (List String)) (ccy : String),
      0 ≤ kDelta wnc rc ws cr bucket tenor index ccy) ∧
    (∀ (wnc : WNC) (rc : String) (vr : List ℝ) (vcr : Option (List ℝ))
        (bucket : Option String) (index : Option (List String)),
      0 ≤ kVega wnc rc vr vcr bucket index) ∧
    (∀ (wnc : WNC) (rc : String) (cvr : List ℝ) (bucket : Option String)
        (index : Option (List String)),
      0 ≤ kCurvature wnc rc cvr bucket index) ∧
    (∀ (wnc : WNC) (entries : List (String × List (String × ℝ))),
      0 ≤ simmProductWith wnc entries) ∧
    ∀ (env : RtEnv) (wnc : WNC) (calcCcy : String) (xr : ℝ) (crif : Crif)
      (enumsR enumsP : String → List (String × List (String × ℝ)))
      (fmt : ℝ → String) (r : ℝ × Crif),
      calculateSimm env wnc calcCcy xr crif enumsR enumsP fmt = Except.ok r →
      0 ≤ rustRound
          (((productList crif).map fun pc =>
            if productMultiplierSum crif pc ≠ 0 then
              simmProductWith wnc (enumsP pc) *
                ((productMultiplierSum crif pc - 1 : ℚ) : ℝ)
            else 0).sum +
          (((addonMargin crif).toOption.getD 0 : ℚ) : ℝ)) * 100 / 100 →
      0 ≤ r.1 := by
  refine ⟨fun _ _ _ _ _ _ _ _ => Real.sqrt_nonneg _,
    fun _ _ _ _ _ _ => Real.sqrt_nonneg _,
    fun _ _ _ _ _ => Real.sqrt_nonneg _,
    fun _ _ => Real.sqrt_nonneg _, ?_⟩
  intro env wnc calcCcy xr crif enumsR enumsP fmt r hok haddon
  rw [calculateSimm] at hok
  cases ha : addonMargin crif with
  | error e => rw [ha] at hok; exact absurd hok (by simp)
  | ok addonBase =>
      rw [ha] at hok
      simp only [Except.ok.injEq] at hok
      have hr1 : r.1 =
          ((productList crif).map fun pc => simmProductWith wnc (enumsP pc)).sum +
            rustRound
              (((productList crif).map fun pc =>
                if productMultiplierSum crif pc ≠ 0 then
                  simmProductWith wnc (enumsP pc) *
                    ((productMultiplierSum crif pc - 1 : ℚ) : ℝ)
                else 0).sum + (addonBase : ℝ)) * 100 / 100 := by
        rw [← hok]
      have hsum : 0 ≤
          ((productList crif).map fun pc => simmProductWith wnc (enumsP pc)).sum :=
        List.sum_nonneg (by
          intro x hx
          obtain ⟨pc, _, rfl⟩ := List.mem_map.mp hx
          exact Real.sqrt_nonneg _)
      rw [ha] at haddon
      simp only [Except.toOption, Option.getD_some] at haddon
      rw [hr1]
      exact add_nonneg hsum haddon

/-- Witness for C4 (amended) at the canonical header-only CRIF, whose
rounded add-on is `0 ≥ 0` and whose total is `0 ≥ 0`. -/
theorem kernels_products_nonneg_witness :
    0 ≤ ((0, [breakdownHeaderNoAddOn,
      [(fun _ : ℝ => "") 0, "", "0", "", "0", "", "0"]]) : ℝ × Crif).1 :=
  kernels_products_nonneg_total_nonneg_with_addon.2.2.2.2 ⟨1, 1⟩ v2_5 "USD" 1
    [["ProductClass", "RiskType", "Qualifier", "Bucket", "Label1", "Label2",
      "Amount", "AmountCurrency", "AmountUSD"]]
    (fun _ => []) (fun _ => []) (fun _ => "") _
    (calcSimmHeaderOnly ⟨1, 1⟩ v2_5 "USD" 1 (fun _ => []) (fun _ => []) (fun _ => ""))
    (by
      have hprod : productList
          [["ProductClass", "RiskType", "Qualifier", "Bucket", "Label1", "Label2",
            "Amount", "AmountCurrency", "AmountUSD"]] = [] := by decide
      have haddon : addonMargin
          [["ProductClass", "RiskType", "Qualifier", "Bucket", "Label1", "Label2",
            "Amount", "AmountCurrency", "AmountUSD"]] = Except.ok 0 := by
        simp [addonMargin, getColumnIndex, positionOf, dedupFirst]
      rw [hprod, haddon]
      simp only [List.map_nil, List.sum_nil, Except.toOption, Option.getD_some,
        Rat.cast_zero, add_zero, zero_add]
      rw [rustRoundZero]
      norm_num)

theorem s1tA : filterRows s1CrifOis [("RiskType", RATES_DELTA_TYPES)] = s1CrifOis := by decide
theorem s1tB : uniqueValues s1CrifOis "Qualifier" = ["USD"] := by decide
theorem s1tC : filterRows s1CrifOis [("Qualifier", ["USD"])] = s1CrifOis := by decide
theorem s1tD : dropRows s1CrifOis [("RiskType", "Risk_XCcyBasis")] = s1CrifOis := by decide
theorem s1parse : parseF64? "1000" = some 1000 := by
  simp [parseF64?, parseMant?, splitOnChar, stripSign, digitsVal, allDigits]
theorem s1sum : sumSensitivities s1CrifOis = 1000 := by
  simp [s1CrifOis, s1HeaderRow, sumSensitivities, getColumnValues, getColumnIndex,
    positionOf, s1parse]
theorem s1t : (v2_5.t "Rates" "Delta" (some "USD") none).getD 1 = 230000000 := by
  simp [v2_5, v2_5_t, irDeltaCt]
  norm_num
theorem s1cr : irDeltaCr v2_5 s1CrifOis "USD" = 1 := by
  rw [irDeltaCr, s1tC, s1tD, s1t, s1sum, concentrationThreshold]
  rw [max_eq_left]
  rw [Real.sqrt_le_one]
  rw [abs_of_nonneg (by positivity)]
  push_cast
  norm_num
theorem s1rw115 : tenorRwLookup REG_VOL_RW "2w" = 115 := by decide
theorem s1entries : irDeltaWsEntries "USD" 1 s1CrifOis = [(115000, "2w", "OIS")] := by
  have h1 : uniqueValues s1CrifOis "RiskType" = ["Risk_IRCurve"] := by decide
  have h2 : filterRows s1CrifOis [("RiskType", ["Risk_IRCurve"])] = s1CrifOis := by decide
  have h3 : uniqueValues s1CrifOis "Label2" = ["OIS"] := by decide
  have h4 : filterRows s1CrifOis [("Label2", ["OIS"])] = s1CrifOis := by decide
  have h5 : tenorList s1CrifOis = ["2w"] := by decide
  have h6 : filterRows s1CrifOis [("Label1", ["2w"])] = s1CrifOis := by decide
  have hlow : lowerStr "2w" = "2w" := by decide
  simp only [irDeltaWsEntries, h1, List.foldl, RATES_DELTA_TYPES, h2, h3, h4, h5, h6,
    hlow, s1rw115, s1sum, List.map]
  simp [s1rw115, s1sum, h6, hlow, show ("USD" ∈ REG_VOL_CCY_BUCKET) from by decide]
  norm_num
theorem s1entriesEmpty : irDeltaWsEntries "USD" 1 s1CrifEmptyLabel2 = [] := by
  have h1 : uniqueValues s1CrifEmptyLabel2 "RiskType" = ["Risk_IRCurve"] := by decide
  have h2 : filterRows s1CrifEmptyLabel2 [("RiskType", ["Risk_IRCurve"])] =
      s1CrifEmptyLabel2 := by decide
  have h3 : uniqueValues s1CrifEmptyLabel2 "Label2" = [] := by decide
  simp only [irDeltaWsEntries, h1, List.foldl, RATES_DELTA_TYPES, h2, h3]
  simp
theorem s1ksOis : irDeltaKS v2_5 "USD" s1CrifOis "USD" = (115000, 115000) := by
  have he : irDeltaWsEntries "USD" (irDeltaCr v2_5 s1CrifOis "USD") s1CrifOis =
      [(115000, "2w", "OIS")] := by rw [s1cr, s1entries]
  simp only [irDeltaKS, s1tC]
  rw [he]
  simp only [List.map, kDeltaSingleton]
  norm_num

theorem s1crEmpty : irDeltaCr v2_5 s1CrifEmptyLabel2 "USD" = 1 := by
  have hC : filterRows s1CrifEmptyLabel2 [("Qualifier", ["USD"])] =
      s1CrifEmptyLabel2 := by decide
  have hD : dropRows s1CrifEmptyLabel2 [("RiskType", "Risk_XCcyBasis")] =
      s1CrifEmptyLabel2 := by decide
  have hsum : sumSensitivities s1CrifEmptyLabel2 = 1000 := by
    simp [sumSensitivities, s1CrifEmptyLabel2, getColumnIndex, getColumnValues,
      positionOf, s1HeaderRow, s1parse]
  rw [irDeltaCr, hC, hD, hsum, s1t, concentrationThreshold]
  rw [max_eq_left]
  rw [Real.sqrt_le_one]
  rw [abs_of_nonneg (by positivity)]
  push_cast
  norm_num

theorem s1ksEmptyOis : irDeltaKS v2_5 "USD" s1CrifEmptyLabel2 "USD" = (0, 0) := by
  have hC : filterRows s1CrifEmptyLabel2 [("Qualifier", ["USD"])] =
      s1CrifEmptyLabel2 := by decide
  have he : irDeltaWsEntries "USD" (irDeltaCr v2_5 s1CrifEmptyLabel2 "USD")
      s1CrifEmptyLabel2 = [] := by rw [s1crEmpty, s1entriesEmpty]
  simp only [irDeltaKS, hC]
  rw [he]
  simp only [List.map, kDeltaNil]
  norm_num

theorem s1marginK : irDeltaMarginK v2_5 "USD" s1CrifOis = 115000 := by
  simp only [irDeltaMarginK, s1tA, s1tB, List.map_cons, List.map_nil, s1ksOis,
    List.length_cons, List.length_nil, Finset.sum_range_one, List.getD]
  norm_num
  rw [show (13225000000 : ℝ) = 115000 ^ 2 by norm_num, Real.sqrt_sq (by norm_num)]

theorem s1marginKEmpty : irDeltaMarginK v2_5 "USD" s1CrifEmptyLabel2 = 0 := by
  have hA : filterRows s1CrifEmptyLabel2 [("RiskType", RATES_DELTA_TYPES)] =
      s1CrifEmptyLabel2 := by decide
  have hB : uniqueValues s1CrifEmptyLabel2 "Qualifier" = ["USD"] := by decide
  simp only [irDeltaMarginK, hA, hB, List.map_cons, List.map_nil, s1ksEmptyOis,
    List.length_cons, List.length_nil, Finset.sum_range_one, List.getD]
  norm_num

theorem onlyIRCurveGatedZero (env : RtEnv) (wnc : WNC) (calcCcy : String)
    (crif : Crif) (h : uniqueValues crif "RiskType" = ["Risk_IRCurve"])
    (rc m : String) :
    deltaMargin wnc calcCcy crif rc m = 0 ∧ irVegaMargin wnc crif rc m = 0 ∧
    vegaMargin env wnc crif rc m = 0 ∧
    irCurvatureMargin env wnc calcCcy crif rc m = 0 ∧
    curvatureMargin env wnc crif rc m = 0 := by
  refine ⟨?_, ?_, ?_, ?_, ?_⟩
  · simp [deltaMargin, h]
  · simp [irVegaMargin, h]
  · simp [vegaMargin, h]
  · simp [irCurvatureMargin, h]
  · simp [curvatureMargin, h]

theorem s1baseCorrZeroOis (wnc : WNC) (rc m : String) :
    baseCorrMargin wnc s1CrifOis rc m = 0 := by
  have hq : uniqueValues (filterRows s1CrifOis [("RiskType", ["Risk_BaseCorr"])])
      "Qualifier" = [] := by decide
  have hws : baseCorrWs s1CrifOis = [] := by
    simp [baseCorrWs, hq]
  simp [baseCorrMargin, hq, hws]

theorem s1baseCorrZeroEmpty (wnc : WNC) (rc m : String) :
    baseCorrMargin wnc s1CrifEmptyLabel2 rc m = 0 := by
  have hq : uniqueValues (filterRows s1CrifEmptyLabel2
      [("RiskType", ["Risk_BaseCorr"])]) "Qualifier" = [] := by decide
  have hws : baseCorrWs s1CrifEmptyLabel2 = [] := by
    simp [baseCorrWs, hq]
  simp [baseCorrMargin, hq, hws]

theorem s1cellOis (env : RtEnv) (rc m : String) :
    aggMarginCell env v2_5 "USD" s1CrifOis rc m =
      if rc = "Rates" ∧ m = "Delta" then 115000 else 0 := by
  have huniq : uniqueValues s1CrifOis "RiskType" = ["Risk_IRCurve"] := by decide
  obtain ⟨hd, hiv, hv, hic, hc⟩ :=
    onlyIRCurveGatedZero env v2_5 "USD" s1CrifOis huniq rc m
  simp only [aggMarginCell, hd, hiv, hv, hic, hc, s1baseCorrZeroOis, add_zero]
  simp [irDeltaMargin, huniq, s1marginK, Bool.and_eq_true, decide_eq_true_eq]

theorem s1cellEmpty (env : RtEnv) (rc m : String) :
    aggMarginCell env v2_5 "USD" s1CrifEmptyLabel2 rc m = 0 := by
  have huniq : uniqueValues s1CrifEmptyLabel2 "RiskType" = ["Risk_IRCurve"] := by
    decide
  obtain ⟨hd, hiv, hv, hic, hc⟩ :=
    onlyIRCurveGatedZero env v2_5 "USD" s1CrifEmptyLabel2 huniq rc m
  simp only [aggMarginCell, hd, hiv, hv, hic, hc, s1baseCorrZeroEmpty, add_zero]
  simp [irDeltaMargin, huniq, s1marginKEmpty]

theorem s1entriesCanon (env : RtEnv) :
    canonicalEntries env v2_5 "USD" 1 s1CrifOis =
      [("Rates", [("Delta", 115000), ("Vega", 0), ("Curvature", 0)]),
       ("FX", [("Delta", 0), ("Vega", 0), ("Curvature", 0)]),
       ("CreditQ", [("Delta", 0), ("Vega", 0), ("Curvature", 0), ("BaseCorr", 0)]),
       ("CreditNonQ", [("Delta", 0), ("Vega", 0), ("Curvature", 0)]),
       ("Equity", [("Delta", 0), ("Vega", 0), ("Curvature", 0)]),
       ("Commodity", [("Delta", 0), ("Vega", 0), ("Curvature", 0)])] := by
  simp [canonicalEntries, riskClassList, marginMeasures, simmRiskClassCell,
    s1cellOis]

theorem s1prodOis (env : RtEnv) :
    simmProductWith v2_5 (canonicalEntries env v2_5 "USD" 1 s1CrifOis) =
      115000 := by
  rw [s1entriesCanon]
  have hR : simmRcSum
      [("Rates", [("Delta", (115000 : ℝ)), ("Vega", 0), ("Curvature", 0)]),
       ("FX", [("Delta", 0), ("Vega", 0), ("Curvature", 0)]),
       ("CreditQ", [("Delta", 0), ("Vega", 0), ("Curvature", 0), ("BaseCorr", 0)]),
       ("CreditNonQ", [("Delta", 0), ("Vega", 0), ("Curvature", 0)]),
       ("Equity", [("Delta", 0), ("Vega", 0), ("Curvature", 0)]),
       ("Commodity", [("Delta", 0), ("Vega", 0), ("Curvature", 0)])] "Rates" =
      115000 := by
    simp [simmRcSum, List.find?]
  have hZ : ∀ rc ∈ (["FX", "CreditQ", "CreditNonQ", "Equity", "Commodity"] :
      List String), simmRcSum
      [("Rates", [("Delta", (115000 : ℝ)), ("Vega", 0), ("Curvature", 0)]),
       ("FX", [("Delta", 0), ("Vega", 0), ("Curvature", 0)]),
       ("CreditQ", [("Delta", 0), ("Vega", 0), ("Curvature", 0), ("BaseCorr", 0)]),
       ("CreditNonQ", [("Delta", 0), ("Vega", 0), ("Curvature", 0)]),
       ("Equity", [("Delta", 0), ("Vega", 0), ("Curvature", 0)]),
       ("Commodity", [("Delta", 0), ("Vega", 0), ("Curvature", 0)])] rc = 0 := by
    intro rc hrc
    fin_cases hrc <;> simp [simmRcSum, List.find?]
  simp only [simmProductWith, Finset.sum_range_succ, Finset.sum_range_zero,
    riskClassList, List.getD, List.get?_cons_zero, List.get?_cons_succ,
    List.get?_nil, Option.getD_some]
  rw [hR]
  rw [hZ "FX" (by decide), hZ "CreditQ" (by decide), hZ "CreditNonQ" (by decide),
    hZ "Equity" (by decide), hZ "Commodity" (by decide)]
  norm_num
  rw [show (13225000000 : ℝ) = 115000 ^ 2 by norm_num, Real.sqrt_sq (by norm_num)]

theorem s1entriesCanonEmpty (env : RtEnv) :
    canonicalEntries env v2_5 "USD" 1 s1CrifEmptyLabel2 =
      [("Rates", [("Delta", 0), ("Vega", 0), ("Curvature", 0)]),
       ("FX", [("Delta", 0), ("Vega", 0), ("Curvature", 0)]),
       ("CreditQ", [("Delta", 0), ("Vega", 0), ("Curvature", 0), ("BaseCorr", 0)]),
       ("CreditNonQ", [("Delta", 0), ("Vega", 0), ("Curvature", 0)]),
       ("Equity", [("Delta", 0), ("Vega", 0), ("Curvature", 0)]),
       ("Commodity", [("Delta", 0), ("Vega", 0), ("Curvature", 0)])] := by
  simp [canonicalEntries, riskClassList, marginMeasures, simmRiskClassCell,
    s1cellEmpty]

theorem s1prodEmpty (env : RtEnv) :
    simmProductWith v2_5 (canonicalEntries env v2_5 "USD" 1 s1CrifEmptyLabel2) =
      0 := by
  rw [s1entriesCanonEmpty]
  have hZ : ∀ rc ∈ (["Rates", "FX", "CreditQ", "CreditNonQ", "Equity",
      "Commodity"] : List String), simmRcSum
      [("Rates", [("Delta", (0 : ℝ)), ("Vega", 0), ("Curvature", 0)]),
       ("FX", [("Delta", 0), ("Vega", 0), ("Curvature", 0)]),
       ("CreditQ", [("Delta", 0), ("Vega", 0), ("Curvature", 0), ("BaseCorr", 0)]),
       ("CreditNonQ", [("Delta", 0), ("Vega", 0), ("Curvature", 0)]),
       ("Equity", [("Delta", 0), ("Vega", 0), ("Curvature", 0)]),
       ("Commodity", [("Delta", 0), ("Vega", 0), ("Curvature", 0)])] rc = 0 := by
    intro rc hrc
    fin_cases hrc <;> simp [simmRcSum, List.find?]
  simp only [simmProductWith, Finset.sum_range_succ, Finset.sum_range_zero,
    riskClassList, List.getD, List.get?_cons_zero, List.get?_cons_succ,
    List.get?_nil, Option.getD_some]
  rw [hZ "Rates" (by decide), hZ "FX" (by decide), hZ "CreditQ" (by decide),
    hZ "CreditNonQ" (by decide), hZ "Equity" (by decide),
    hZ "Commodity" (by decide)]
  norm_num

theorem s1colA : getColumnIndex s1CrifOis "AmountUSD" = some 6 := by decide
theorem s1colR : getColumnIndex s1CrifOis "RiskType" = some 1 := by decide
theorem s1colQ : getColumnIndex s1CrifOis "Qualifier" = some 2 := by decide

theorem s1addon : addonMargin s1CrifOis = Except.ok 0 := by
  simp [addonMargin, getColumnIndex, positionOf, s1CrifOis, s1HeaderRow,
    dedupFirst]

theorem s1mult : productMultiplierSum s1CrifOis "Rates" = 0 := by
  simp [productMultiplierSum, getColumnIndex, positionOf, s1CrifOis, s1HeaderRow]

theorem s1simmOis (env : RtEnv) (fmt : ℝ → String) :
    (calculateSimm env v2_5 "USD" 1 s1CrifOis
        (canonicalEnums env v2_5 "USD" 1 s1CrifOis)
        (canonicalEnums env v2_5 "USD" 1 s1CrifOis) fmt).map Prod.fst =
      Except.ok 115000 := by
  have hp : productList s1CrifOis = ["Rates"] := by decide
  have hPC : filterRows s1CrifOis [("ProductClass", ["Rates"])] = s1CrifOis := by
    decide
  have hprod : canonicalEnums env v2_5 "USD" 1 s1CrifOis "Rates" =
      canonicalEntries env v2_5 "USD" 1 s1CrifOis := by
    simp only [canonicalEnums, hPC]
  simp only [calculateSimm, hp, s1addon, List.map_cons, List.map_nil, hprod,
    s1prodOis, s1mult, List.sum_cons, List.sum_nil, rustRoundZero]
  norm_num [Except.map]
  rw [rustRoundZero]

theorem s1addonEmpty : addonMargin s1CrifEmptyLabel2 = Except.ok 0 := by
  simp [addonMargin, getColumnIndex, positionOf, s1CrifEmptyLabel2, s1HeaderRow,
    dedupFirst]

theorem s1multEmpty : productMultiplierSum s1CrifEmptyLabel2 "Rates" = 0 := by
  simp [productMultiplierSum, getColumnIndex, positionOf, s1CrifEmptyLabel2,
    s1HeaderRow]

theorem s1simmEmpty (env : RtEnv) (fmt : ℝ → String) :
    (calculateSimm env v2_5 "USD" 1 s1CrifEmptyLabel2
        (canonicalEnums env v2_5 "USD" 1 s1CrifEmptyLabel2)
        (canonicalEnums env v2_5 "USD" 1 s1CrifEmptyLabel2) fmt).map Prod.fst =
      Except.ok 0 := by
  have hp : productList s1CrifEmptyLabel2 = ["Rates"] := by decide
  have hPC : filterRows s1CrifEmptyLabel2 [("ProductClass", ["Rates"])] =
      s1CrifEmptyLabel2 := by decide
  have hprod : canonicalEnums env v2_5 "USD" 1 s1CrifEmptyLabel2 "Rates" =
      canonicalEntries env v2_5 "USD" 1 s1CrifEmptyLabel2 := by
    simp only [canonicalEnums, hPC]
  simp only [calculateSimm, hp, s1addonEmpty, List.map_cons, List.map_nil, hprod,
    s1prodEmpty, s1multEmpty, List.sum_cons, List.sum_nil]
  norm_num [Except.map]
  rw [rustRoundZero]

/-- **C8** (code_bug): the spec's scenario `S1` — one `Risk_IRCurve` row with
`Label2` empty, version 2.5, calculation currency `USD`, exchange rate 1 —
is claimed to yield `SIMM_total = 1000 · 115 = 115000` with the only
non-zero breakdown cell at `Rates`/`Delta`.  The code's `ir_delta_margin`
enumerates sub-curves via `unique_values(_, "Label2")`, which drops empty
strings, so the empty-`Label2` row contributes no weighted sensitivity: the
run returns a total of `0`, and every risk-class/measure cell is `0`.  The
identical row with `Label2 = "OIS"` does return `115000`, isolating the
divergence to the empty sub-curve label. -/
theorem ir_delta_empty_sub_curve_drops_row (env : RtEnv) (fmt : ℝ → String) :
    (calculateSimm env v2_5 "USD" 1 s1CrifEmptyLabel2
        (canonicalEnums env v2_5 "USD" 1 s1CrifEmptyLabel2)
        (canonicalEnums env v2_5 "USD" 1 s1CrifEmptyLabel2) fmt).map Prod.fst =
      Except.ok 0 ∧
    (0 : ℝ) ≠ 115000 ∧
    (∀ rc m, aggMarginCell env v2_5 "USD" s1CrifEmptyLabel2 rc m = 0) ∧
    (calculateSimm env v2_5 "USD" 1 s1CrifOis
        (canonicalEnums env v2_5 "USD" 1 s1CrifOis)
        (canonicalEnums env v2_5 "USD" 1 s1CrifOis) fmt).map Prod.fst =
      Except.ok 115000 :=
  ⟨s1simmEmpty env fmt, by norm_num, s1cellEmpty env, s1simmOis env fmt⟩

theorem bcUniqRt : uniqueValues baseCorrCrif "RiskType" = ["Risk_BaseCorr"] := by
  decide

theorem bcGatedZero (env : RtEnv) (wnc : WNC) (calcCcy : String)
    (rc m : String) :
    irDeltaMargin wnc calcCcy baseCorrCrif rc m = 0 ∧
    deltaMargin wnc calcCcy baseCorrCrif rc m = 0 ∧
    irVegaMargin wnc baseCorrCrif rc m = 0 ∧
    vegaMargin env wnc baseCorrCrif rc m = 0 ∧
    irCurvatureMargin env wnc calcCcy baseCorrCrif rc m = 0 ∧
    curvatureMargin env wnc baseCorrCrif rc m = 0 := by
  refine ⟨?_, ?_, ?_, ?_, ?_, ?_⟩
  · simp [irDeltaMargin, bcUniqRt]
  · simp [deltaMargin, bcUniqRt]
  · simp [irVegaMargin, bcUniqRt]
  · simp [vegaMargin, bcUniqRt]
  · simp [irCurvatureMargin, bcUniqRt]
  · simp [curvatureMargin, bcUniqRt]

theorem bcParse : parseF64? "100" = some 100 := by
  simp [parseF64?, parseMant?, splitOnChar, stripSign, digitsVal, allDigits]

theorem bcWs : baseCorrWs baseCorrCrif = [1000] := by
  have hBC : filterRows baseCorrCrif [("RiskType", ["Risk_BaseCorr"])] =
      baseCorrCrif := by decide
  have hq : uniqueValues baseCorrCrif "Qualifier" = ["X"] := by decide
  have hfX : filterRows baseCorrCrif [("Qualifier", ["X"])] = baseCorrCrif := by
    decide
  have hsum : sumSensitivities baseCorrCrif = 100 := by
    simp [sumSensitivities, baseCorrCrif, s1HeaderRow, getColumnIndex,
      getColumnValues, positionOf, bcParse]
  simp [baseCorrWs, hBC, hq, hfX, hsum, CREDIT_Q_BASE_CORR_WEIGHT]
  norm_num

theorem bcBaseCorrEval (wnc : WNC) (rc m : String) :
    baseCorrMargin wnc baseCorrCrif rc m =
      if rc = "CreditQ" ∧ m = "BaseCorr" then 1000 else 0 := by
  have hBC : filterRows baseCorrCrif [("RiskType", ["Risk_BaseCorr"])] =
      baseCorrCrif := by decide
  have hq : uniqueValues baseCorrCrif "Qualifier" = ["X"] := by decide
  have hs : Real.sqrt ((1000000 : ℝ)) = 1000 := by
    rw [show (1000000 : ℝ) = 1000 ^ 2 by norm_num, Real.sqrt_sq (by norm_num)]
  simp only [baseCorrMargin, hBC, hq, bcWs, List.length_cons, List.length_nil,
    Finset.sum_range_one, List.getD, List.get?_cons_zero, Option.getD_some]
  norm_num [Bool.and_eq_true, decide_eq_true_eq, hs]

theorem bcCell (env : RtEnv) (wnc : WNC) (calcCcy : String) (rc m : String) :
    aggMarginCell env wnc calcCcy baseCorrCrif rc m =
      if rc = "CreditQ" ∧ m = "BaseCorr" then 1000 else 0 := by
  obtain ⟨h1, h2, h3, h4, h5, h6⟩ := bcGatedZero env wnc calcCcy rc m
  simp only [aggMarginCell, h1, h2, h3, h4, h5, h6, zero_add, add_zero]
  exact bcBaseCorrEval wnc rc m

theorem bcEntriesCanon (env : RtEnv) (wnc : WNC) (calcCcy : String) :
    canonicalEntries env wnc calcCcy 1 baseCorrCrif = bcE1 := by
  simp [canonicalEntries, riskClassList, marginMeasures, simmRiskClassCell,
    bcCell, bcE1]

theorem bcProd1 (wnc : WNC) : simmProductWith wnc bcE1 = 1000 := by
  simp only [bcE1]
  have hC : simmRcSum
      [("Rates", [("Delta", (0 : ℝ)), ("Vega", 0), ("Curvature", 0)]),
       ("FX", [("Delta", 0), ("Vega", 0), ("Curvature", 0)]),
       ("CreditQ",
        [("Delta", 0), ("Vega", 0), ("Curvature", 0), ("BaseCorr", 1000)]),
       ("CreditNonQ", [("Delta", 0), ("Vega", 0), ("Curvature", 0)]),
       ("Equity", [("Delta", 0), ("Vega", 0), ("Curvature", 0)]),
       ("Commodity", [("Delta", 0), ("Vega", 0), ("Curvature", 0)])]
      "CreditQ" = 1000 := by
    simp [simmRcSum, List.find?]
  have hZ : ∀ rc ∈ (["Rates", "FX", "CreditNonQ", "Equity", "Commodity"] :
      List String), simmRcSum
      [("Rates", [("Delta", (0 : ℝ)), ("Vega", 0), ("Curvature", 0)]),
       ("FX", [("Delta", 0), ("Vega", 0), ("Curvature", 0)]),
       ("CreditQ",
        [("Delta", 0), ("Vega", 0), ("Curvature", 0), ("BaseCorr", 1000)]),
       ("CreditNonQ", [("Delta", 0), ("Vega", 0), ("Curvature", 0)]),
       ("Equity", [("Delta", 0), ("Vega", 0), ("Curvature", 0)]),
       ("Commodity", [("Delta", 0), ("Vega", 0), ("Curvature", 0)])] rc = 0 := by
    intro rc hrc
    fin_cases hrc <;> simp [simmRcSum, List.find?]
  simp only [simmProductWith, Finset.sum_range_succ, Finset.sum_range_zero,
    riskClassList, List.getD, List.get?_cons_zero, List.get?_cons_succ,
    List.get?_nil, Option.getD_some]
  rw [hC]
  rw [hZ "Rates" (by decide), hZ "FX" (by decide), hZ "CreditNonQ" (by decide),
    hZ "Equity" (by decide), hZ "Commodity" (by decide)]
  norm_num
  rw [show (1000000 : ℝ) = 1000 ^ 2 by norm_num, Real.sqrt_sq (by norm_num)]

theorem bcProd2 (wnc : WNC) : simmProductWith wnc bcE2 = 1000 := by
  simp only [bcE2]
  have hC : simmRcSum
      [("Rates", [("Delta", (0 : ℝ)), ("Vega", 0), ("Curvature", 0)]),
       ("FX", [("Delta", 0), ("Vega", 0), ("Curvature", 0)]),
       ("CreditQ",
        [("BaseCorr", 1000), ("Delta", 0), ("Vega", 0), ("Curvature", 0)]),
       ("CreditNonQ", [("Delta", 0), ("Vega", 0), ("Curvature", 0)]),
       ("Equity", [("Delta", 0), ("Vega", 0), ("Curvature", 0)]),
       ("Commodity", [("Delta", 0), ("Vega", 0), ("Curvature", 0)])]
      "CreditQ" = 1000 := by
    simp [simmRcSum, List.find?]
  have hZ : ∀ rc ∈ (["Rates", "FX", "CreditNonQ", "Equity", "Commodity"] :
      List String), simmRcSum
      [("Rates", [("Delta", (0 : ℝ)), ("Vega", 0), ("Curvature", 0)]),
       ("FX", [("Delta", 0), ("Vega", 0), ("Curvature", 0)]),
       ("CreditQ",
        [("BaseCorr", 1000), ("Delta", 0), ("Vega", 0), ("Curvature", 0)]),
       ("CreditNonQ", [("Delta", 0), ("Vega", 0), ("Curvature", 0)]),
       ("Equity", [("Delta", 0), ("Vega", 0), ("Curvature", 0)]),
       ("Commodity", [("Delta", 0), ("Vega", 0), ("Curvature", 0)])] rc = 0 := by
    intro rc hrc
    fin_cases hrc <;> simp [simmRcSum, List.find?]
  simp only [simmProductWith, Finset.sum_range_succ, Finset.sum_range_zero,
    riskClassList, List.getD, List.get?_cons_zero, List.get?_cons_succ,
    List.get?_nil, Option.getD_some]
  rw [hC]
  rw [hZ "Rates" (by decide), hZ "FX" (by decide), hZ "CreditNonQ" (by decide),
    hZ "Equity" (by decide), hZ "Commodity" (by decide)]
  norm_num
  rw [show (1000000 : ℝ) = 1000 ^ 2 by norm_num, Real.sqrt_sq (by norm_num)]

theorem bcAddon : addonMargin baseCorrCrif = Except.ok 0 := by
  simp [addonMargin, getColumnIndex, positionOf, baseCorrCrif, s1HeaderRow,
    dedupFirst]

theorem bcMult : productMultiplierSum baseCorrCrif "Credit" = 0 := by
  simp [productMultiplierSum, getColumnIndex, positionOf, baseCorrCrif,
    s1HeaderRow]

theorem bcRows1 : resultsProductClassWith "Credit" bcE1 =
    [⟨"Credit", "CreditQ", some "Delta", some 0, none, none⟩,
     ⟨"Credit", "CreditQ", some "Vega", some 0, none, none⟩,
     ⟨"Credit", "CreditQ", some "Curvature", some 0, none, none⟩,
     ⟨"Credit", "CreditQ", some "BaseCorr", some 1000, none, none⟩,
     ⟨"Credit", "CreditQ", none, none, some 1000, none⟩] := by
  norm_num [resultsProductClassWith, bcE1, resultsRowsOf, List.cons_bind,
    List.nil_bind]

theorem bcRows2 : resultsProductClassWith "Credit" bcE2 =
    [⟨"Credit", "CreditQ", some "BaseCorr", some 1000, none, none⟩,
     ⟨"Credit", "CreditQ", some "Delta", some 0, none, none⟩,
     ⟨"Credit", "CreditQ", some "Vega", some 0, none, none⟩,
     ⟨"Credit", "CreditQ", some "Curvature", some 0, none, none⟩,
     ⟨"Credit", "CreditQ", none, none, some 1000, none⟩] := by
  norm_num [resultsProductClassWith, bcE2, resultsRowsOf, List.cons_bind,
    List.nil_bind]

theorem bcRun1 : calculateSimm ⟨1, 1⟩ v2_5 "USD" 1 baseCorrCrif
    (fun _ => bcE1) (fun _ => bcE1) (fun _ => "") =
    Except.ok (1000,
      [breakdownHeaderNoAddOn,
       ["", "Credit", "", "CreditQ", "", "Delta", ""],
       ["", "Credit", "", "CreditQ", "", "Vega", ""],
       ["", "Credit", "", "CreditQ", "", "Curvature", ""],
       ["", "Credit", "", "CreditQ", "", "BaseCorr", ""],
       ["", "Credit", "", "CreditQ", "", "", ""]]) := by
  have hp : productList baseCorrCrif = ["Credit"] := by decide
  simp only [calculateSimm, hp, bcAddon, List.map_cons, List.map_nil, bcProd1,
    bcMult, List.sum_cons, List.sum_nil, List.cons_bind, List.nil_bind, bcRows1]
  norm_num [renderRowNoAddOn, rustRoundZero, breakdownHeaderNoAddOn]

theorem bcRun2 : calculateSimm ⟨1, 1⟩ v2_5 "USD" 1 baseCorrCrif
    (fun _ => bcE2) (fun _ => bcE2) (fun _ => "") =
    Except.ok (1000,
      [breakdownHeaderNoAddOn,
       ["", "Credit", "", "CreditQ", "", "BaseCorr", ""],
       ["", "Credit", "", "CreditQ", "", "Delta", ""],
       ["", "Credit", "", "CreditQ", "", "Vega", ""],
       ["", "Credit", "", "CreditQ", "", "Curvature", ""],
       ["", "Credit", "", "CreditQ", "", "", ""]]) := by
  have hp : productList baseCorrCrif = ["Credit"] := by decide
  simp only [calculateSimm, hp, bcAddon, List.map_cons, List.map_nil, bcProd2,
    bcMult, List.sum_cons, List.sum_nil, List.cons_bind, List.nil_bind, bcRows2]
  norm_num [renderRowNoAddOn, rustRoundZero, breakdownHeaderNoAddOn]

theorem bcValid1 : ValidEnums ⟨1, 1⟩ v2_5 "USD" 1 baseCorrCrif
    (fun _ => bcE1) := by
  intro pc hpc
  have hp : productList baseCorrCrif = ["Credit"] := by decide
  rw [hp] at hpc
  simp only [List.mem_cons, List.not_mem_nil, or_false] at hpc
  subst hpc
  have hPCf : filterRows baseCorrCrif [("ProductClass", ["Credit"])] =
      baseCorrCrif := by decide
  have hc : canonicalEnums ⟨1, 1⟩ v2_5 "USD" 1 baseCorrCrif "Credit" = bcE1 := by
    simp only [canonicalEnums, hPCf, bcEntriesCanon]
  rw [hc]
  exact ⟨bcE1, List.Perm.refl _,
    List.forall₂_same.mpr fun x _ => ⟨rfl, List.Perm.refl _⟩⟩

theorem bcValid2 : ValidEnums ⟨1, 1⟩ v2_5 "USD" 1 baseCorrCrif
    (fun _ => bcE2) := by
  intro pc hpc
  have hp : productList baseCorrCrif = ["Credit"] := by decide
  rw [hp] at hpc
  simp only [List.mem_cons, List.not_mem_nil, or_false] at hpc
  subst hpc
  have hPCf : filterRows baseCorrCrif [("ProductClass", ["Credit"])] =
      baseCorrCrif := by decide
  have hc : canonicalEnums ⟨1, 1⟩ v2_5 "USD" 1 baseCorrCrif "Credit" = bcE1 := by
    simp only [canonicalEnums, hPCf, bcEntriesCanon]
  rw [hc]
  refine ⟨bcE2, List.Perm.refl _, ?_⟩
  simp only [bcE1, bcE2]
  refine List.Forall₂.cons ⟨rfl, List.Perm.refl _⟩ ?_
  refine List.Forall₂.cons ⟨rfl, List.Perm.refl _⟩ ?_
  refine List.Forall₂.cons ⟨rfl, ?_⟩ ?_
  · exact @List.perm_append_comm _ [("BaseCorr", (1000 : ℝ))]
      [("Delta", 0), ("Vega", 0), ("Curvature", 0)]
  refine List.Forall₂.cons ⟨rfl, List.Perm.refl _⟩ ?_
  refine List.Forall₂.cons ⟨rfl, List.Perm.refl _⟩ ?_
  exact List.Forall₂.cons ⟨rfl, List.Perm.refl _⟩ List.Forall₂.nil

/-- **C2** (counterexample): two valid `HashMap` iteration orders of the
same CRIF run — the canonical one and one enumerating `CreditQ`'s
`BaseCorr` cell first — produce the same `SIMM_total` (1000) but
breakdown tables with the rows in different orders, so the run's output
table is not identical across runs. -/
theorem simm_breakdown_order_counterexample :
    ValidEnums ⟨1, 1⟩ v2_5 "USD" 1 baseCorrCrif (fun _ => bcE1) ∧
    ValidEnums ⟨1, 1⟩ v2_5 "USD" 1 baseCorrCrif (fun _ => bcE2) ∧
    calculateSimm ⟨1, 1⟩ v2_5 "USD" 1 baseCorrCrif
      (fun _ => bcE1) (fun _ => bcE1) (fun _ => "") =
      Except.ok (1000,
        [breakdownHeaderNoAddOn,
         ["", "Credit", "", "CreditQ", "", "Delta", ""],
         ["", "Credit", "", "CreditQ", "", "Vega", ""],
         ["", "Credit", "", "CreditQ", "", "Curvature", ""],
         ["", "Credit", "", "CreditQ", "", "BaseCorr", ""],
         ["", "Credit", "", "CreditQ", "", "", ""]]) ∧
    calculateSimm ⟨1, 1⟩ v2_5 "USD" 1 baseCorrCrif
      (fun _ => bcE2) (fun _ => bcE2) (fun _ => "") =
      Except.ok (1000,
        [breakdownHeaderNoAddOn,
         ["", "Credit", "", "CreditQ", "", "BaseCorr", ""],
         ["", "Credit", "", "CreditQ", "", "Delta", ""],
         ["", "Credit", "", "CreditQ", "", "Vega", ""],
         ["", "Credit", "", "CreditQ", "", "Curvature", ""],
         ["", "Credit", "", "CreditQ", "", "", ""]]) ∧
    ([breakdownHeaderNoAddOn,
      ["", "Credit", "", "CreditQ", "", "Delta", ""],
      ["", "Credit", "", "CreditQ", "", "Vega", ""],
      ["", "Credit", "", "CreditQ", "", "Curvature", ""],
      ["", "Credit", "", "CreditQ", "", "BaseCorr", ""],
      ["", "Credit", "", "CreditQ", "", "", ""]] : Crif) ≠
      [breakdownHeaderNoAddOn,
       ["", "Credit", "", "CreditQ", "", "BaseCorr", ""],
       ["", "Credit", "", "CreditQ", "", "Delta", ""],
       ["", "Credit", "", "CreditQ", "", "Vega", ""],
       ["", "Credit", "", "CreditQ", "", "Curvature", ""],
       ["", "Credit", "", "CreditQ", "", "", ""]] :=
  ⟨bcValid1, bcValid2, bcRun1, bcRun2, by decide⟩

theorem simmRcSumCongrForall₂ {m c : List (String × List (String × ℝ))}
    (h : List.Forall₂ (fun p q => p.1 = q.1 ∧ p.2.Perm q.2) m c) (rc : String) :
    simmRcSum m rc = simmRcSum c rc := by
  induction h with
  | nil => rfl
  | cons hpq htail ih =>
      rename_i p q m' c'
      by_cases hk : (p.1 == rc) = true
      · have hk2 : (q.1 == rc) = true := by rw [← hpq.1]; exact hk
        have e1 : List.find? (fun r => r.1 == rc) (p :: m') = some p :=
          List.find?_cons_of_pos _ hk
        have e2 : List.find? (fun r => r.1 == rc) (q :: c') = some q :=
          List.find?_cons_of_pos _ hk2
        rw [simmRcSum, simmRcSum, e1, e2]
        simp only [Option.map_some', Option.getD_some]
        exact ((hpq.2).map Prod.snd).sum_eq
      · have hk2 : ¬((q.1 == rc) = true) := by rw [← hpq.1]; exact hk
        have e1 : List.find? (fun r => r.1 == rc) (p :: m') =
            List.find? (fun r => r.1 == rc) m' :=
          List.find?_cons_of_neg _ (by simpa using hk)
        have e2 : List.find? (fun r => r.1 == rc) (q :: c') =
            List.find? (fun r => r.1 == rc) c' :=
          List.find?_cons_of_neg _ (by simpa using hk2)
        rw [simmRcSum, simmRcSum, e1, e2]
        exact ih

theorem findSwap {α : Type} (f : α → Bool) (x y : α) (l : List α)
    (hne : ¬(f x = true ∧ f y = true)) :
    List.find? f (y :: x :: l) = List.find? f (x :: y :: l) := by
  by_cases hy : f y = true
  · have hx : ¬(f x = true) := fun hx => hne ⟨hx, hy⟩
    have f1 : List.find? f (y :: x :: l) = some y :=
      List.find?_cons_of_pos _ hy
    have f2 : List.find? f (x :: y :: l) = List.find? f (y :: l) :=
      List.find?_cons_of_neg _ (by simpa using hx)
    have f3 : List.find? f (y :: l) = some y := List.find?_cons_of_pos _ hy
    rw [f1, f2, f3]
  · have f1 : List.find? f (y :: x :: l) = List.find? f (x :: l) :=
      List.find?_cons_of_neg _ (by simpa using hy)
    by_cases hx : f x = true
    · have f2 : List.find? f (x :: l) = some x := List.find?_cons_of_pos _ hx
      have f3 : List.find? f (x :: y :: l) = some x :=
        List.find?_cons_of_pos _ hx
      rw [f1, f2, f3]
    · have f2 : List.find? f (x :: l) = List.find? f l :=
        List.find?_cons_of_neg _ (by simpa using hx)
      have f3 : List.find? f (x :: y :: l) = List.find? f (y :: l) :=
        List.find?_cons_of_neg _ (by simpa using hx)
      have f4 : List.find? f (y :: l) = List.find? f l :=
        List.find?_cons_of_neg _ (by simpa using hy)
      rw [f1, f2, f3, f4]

theorem simmRcSumPerm {l1 l2 : List (String × List (String × ℝ))}
    (h : l1.Perm l2) (hn : (l2.map Prod.fst).Nodup) (rc : String) :
    simmRcSum l1 rc = simmRcSum l2 rc := by
  induction h with
  | nil => rfl
  | cons x h' ih =>
      rename_i t1 t2
      simp only [List.map_cons, List.nodup_cons] at hn
      by_cases hx : (x.1 == rc) = true
      · have e1 : List.find? (fun r => r.1 == rc) (x :: t1) = some x :=
          List.find?_cons_of_pos _ hx
        have e2 : List.find? (fun r => r.1 == rc) (x :: t2) = some x :=
          List.find?_cons_of_pos _ hx
        rw [simmRcSum, simmRcSum, e1, e2]
      · have e1 : List.find? (fun r => r.1 == rc) (x :: t1) =
            List.find? (fun r => r.1 == rc) t1 :=
          List.find?_cons_of_neg _ (by simpa using hx)
        have e2 : List.find? (fun r => r.1 == rc) (x :: t2) =
            List.find? (fun r => r.1 == rc) t2 :=
          List.find?_cons_of_neg _ (by simpa using hx)
        rw [simmRcSum, simmRcSum, e1, e2]
        exact ih hn.2
  | swap x y l =>
      simp only [List.map_cons, List.nodup_cons, List.mem_cons] at hn
      have hxy : x.1 ≠ y.1 := fun he => hn.1 (Or.inl he)
      have hne : ¬((x.1 == rc) = true ∧ (y.1 == rc) = true) := by
        rintro ⟨hx, hy⟩
        exact hxy (by
          have h1 : x.1 = rc := by simpa using hx
          have h2 : y.1 = rc := by simpa using hy
          rw [h1, h2])
      rw [simmRcSum, simmRcSum, findSwap (fun r => r.1 == rc) x y l hne]
  | trans h12 h23 ih12 ih23 =>
      have hn2 : (List.map Prod.fst _).Nodup :=
        ((h23.map Prod.fst).nodup_iff).mpr hn
      exact (ih12 hn2).trans (ih23 hn)

theorem forall₂KeysEq {m c : List (String × List (String × ℝ))}
    (h : List.Forall₂ (fun p q => p.1 = q.1 ∧ p.2.Perm q.2) m c) :
    m.map Prod.fst = c.map Prod.fst := by
  induction h with
  | nil => rfl
  | cons hpq htail ih => simp [hpq.1, ih]

theorem simmRcSumMatch {e c : List (String × List (String × ℝ))}
    (h : EntriesMatch e c) (hn : (c.map Prod.fst).Nodup) (rc : String) :
    simmRcSum e rc = simmRcSum c rc := by
  obtain ⟨mid, hperm, hf⟩ := h
  have hkeys : mid.map Prod.fst = c.map Prod.fst := forall₂KeysEq hf
  have hnm : (mid.map Prod.fst).Nodup := by rw [hkeys]; exact hn
  exact (simmRcSumPerm hperm hnm rc).trans (simmRcSumCongrForall₂ hf rc)

theorem simmProductWithMatch (wnc : WNC)
    {e c : List (String × List (String × ℝ))}
    (h : EntriesMatch e c) (hn : (c.map Prod.fst).Nodup) :
    simmProductWith wnc e = simmProductWith wnc c := by
  rw [simmProductWith, simmProductWith]
  congr 1
  refine Finset.sum_congr rfl fun i _ => Finset.sum_congr rfl fun j _ => ?_
  rw [simmRcSumMatch h hn, simmRcSumMatch h hn]

theorem canonicalKeysNodup (env : RtEnv) (wnc : WNC) (calcCcy : String)
    (xr : ℝ) (crif : Crif) :
    ((canonicalEntries env wnc calcCcy xr crif).map Prod.fst).Nodup := by
  simp [canonicalEntries, List.map_map, Function.comp, riskClassList]

theorem allPerm {α : Type} {l1 l2 : List α} (h : l1.Perm l2) (f : α → Bool) :
    l1.all f = l2.all f := by
  have : (l1.all f = true) ↔ (l2.all f = true) := by
    simp only [List.all_eq_true]
    exact ⟨fun ha x hx => ha x (h.mem_iff.mpr hx),
      fun ha x hx => ha x (h.mem_iff.mp hx)⟩
  cases hb : l2.all f
  · cases hc : l1.all f
    · rfl
    · exact absurd (hb ▸ this.mp hc) (by simp)
  · exact this.mpr hb

theorem resultsRowsOfPerm (pc : String) {p q : String × List (String × ℝ)}
    (hk : p.1 = q.1) (hp : p.2.Perm q.2) :
    (resultsRowsOf pc p).Perm (resultsRowsOf pc q) := by
  obtain ⟨k1, v1⟩ := p
  obtain ⟨k2, v2⟩ := q
  simp only at hk hp
  subst hk
  rw [resultsRowsOf, resultsRowsOf]
  simp only
  rw [allPerm (hp.map Prod.snd) (fun v => decide (v = 0))]
  by_cases hz : (v2.map Prod.snd).all (fun v => decide (v = 0)) = true
  · rw [if_pos hz, if_pos hz]
  · rw [if_neg hz, if_neg hz]
    refine List.Perm.append (hp.map _) ?_
    rw [(hp.map Prod.snd).sum_eq]

theorem bindPermForall₂ {α β : Type} {R : α → α → Prop} {m c : List α}
    (f : α → List β) (hf : ∀ p q, R p q → (f p).Perm (f q))
    (h : List.Forall₂ R m c) : (m.bind f).Perm (c.bind f) := by
  induction h with
  | nil => exact List.Perm.refl _
  | cons hpq htail ih =>
      simp only [List.cons_bind]
      exact List.Perm.append (hf _ _ hpq) ih

theorem resultsMatchPerm (pc : String)
    {e c : List (String × List (String × ℝ))} (h : EntriesMatch e c) :
    (resultsProductClassWith pc e).Perm (resultsProductClassWith pc c) := by
  obtain ⟨mid, hperm, hf⟩ := h
  rw [resultsProductClassWith, resultsProductClassWith]
  refine (hperm.bind_right _).trans ?_
  exact bindPermForall₂ _ (fun p q hpq => resultsRowsOfPerm pc hpq.1 hpq.2) hf

theorem bindPermOfMem {α β : Type} {l : List α} {f g : α → List β}
    (h : ∀ a ∈ l, (f a).Perm (g a)) : (l.bind f).Perm (l.bind g) := by
  induction l with
  | nil => exact List.Perm.refl _
  | cons x t ih =>
      simp only [List.cons_bind]
      exact List.Perm.append (h x (List.mem_cons_self _ _))
        (ih fun a ha => h a (List.mem_cons_of_mem _ ha))

theorem simmDetPieces (env : RtEnv) (wnc : WNC) (calcCcy : String) (xr : ℝ)
    (crif : Crif) (eP1 eP2 : String → List (String × List (String × ℝ)))
    (hP1 : ValidEnums env wnc calcCcy xr crif eP1)
    (hP2 : ValidEnums env wnc calcCcy xr crif eP2) :
    ∀ pc ∈ productList crif,
      simmProductWith wnc (eP1 pc) = simmProductWith wnc (eP2 pc) := by
  intro pc hpc
  have hn : ((canonicalEnums env wnc calcCcy xr crif pc).map Prod.fst).Nodup :=
    canonicalKeysNodup env wnc calcCcy xr _
  exact (simmProductWithMatch wnc (hP1 pc hpc) hn).trans
    (simmProductWithMatch wnc (hP2 pc hpc) hn).symm

/-- **C2** (amended): `calculate_simm` is deterministic in value but not in
row order.  For any two families of `HashMap` iteration orders that are
valid enumerations of the canonical per-product entries, the two runs
return the same outcome (`error` or `ok`), equal `SIMM_total`s, and
breakdown tables whose rows are permutations of one another; the original
claim's "same rows in the same order" is refuted by
the recorded counterexample. -/
theorem simm_total_deterministic_rows_up_to_order
    (env : RtEnv) (wnc : WNC) (calcCcy : String) (xr : ℝ) (crif : Crif)
    (fmt : ℝ → String)
    (eR1 eP1 eR2 eP2 : String → List (String × List (String × ℝ)))
    (hR1 : ValidEnums env wnc calcCcy xr crif eR1)
    (hP1 : ValidEnums env wnc calcCcy xr crif eP1)
    (hR2 : ValidEnums env wnc calcCcy xr crif eR2)
    (hP2 : ValidEnums env wnc calcCcy xr crif eP2) :
    (calculateSimm env wnc calcCcy xr crif eR1 eP1 fmt).map Prod.fst =
      (calculateSimm env wnc calcCcy xr crif eR2 eP2 fmt).map Prod.fst ∧
    ∀ t1 b1 t2 b2,
      calculateSimm env wnc calcCcy xr crif eR1 eP1 fmt = Except.ok (t1, b1) →
      calculateSimm env wnc calcCcy xr crif eR2 eP2 fmt = Except.ok (t2, b2) →
      t1 = t2 ∧ b1.Perm b2 := by
  have hP := simmDetPieces env wnc calcCcy xr crif eP1 eP2 hP1 hP2
  have hsum : ((productList crif).map
        fun pc => simmProductWith wnc (eP1 pc)).sum =
      ((productList crif).map fun pc => simmProductWith wnc (eP2 pc)).sum := by
    rw [List.map_congr_left hP]
  have hms : ((productList crif).map fun pc =>
        if productMultiplierSum crif pc ≠ 0 then
          simmProductWith wnc (eP1 pc) *
            ((productMultiplierSum crif pc - 1 : ℚ) : ℝ)
        else 0).sum =
      ((productList crif).map fun pc =>
        if productMultiplierSum crif pc ≠ 0 then
          simmProductWith wnc (eP2 pc) *
            ((productMultiplierSum crif pc - 1 : ℚ) : ℝ)
        else 0).sum := by
    rw [List.map_congr_left fun pc hpc => by rw [hP pc hpc]]
  have hall : ((productList crif).bind fun pc =>
        (resultsProductClassWith pc (eR1 pc)).map fun r =>
          { r with simmProductClass := some (simmProductWith wnc (eP1 pc)) }).Perm
      ((productList crif).bind fun pc =>
        (resultsProductClassWith pc (eR2 pc)).map fun r =>
          { r with simmProductClass := some (simmProductWith wnc (eP2 pc)) }) := by
    refine bindPermOfMem fun pc hpc => ?_
    rw [hP pc hpc]
    exact ((resultsMatchPerm pc (hR1 pc hpc)).trans
      (resultsMatchPerm pc (hR2 pc hpc)).symm).map _
  cases haddon : addonMargin crif with
  | error e =>
      constructor
      · simp [calculateSimm, haddon]
      · intro t1 b1 t2 b2 h1 h2
        simp [calculateSimm, haddon] at h1
  | ok addonBase =>
      constructor
      · simp only [calculateSimm, haddon, Except.map]
        rw [hsum, hms]
      · intro t1 b1 t2 b2 h1 h2
        simp only [calculateSimm, haddon, Except.ok.injEq, Prod.mk.injEq] at h1 h2
        obtain ⟨ht1, hb1⟩ := h1
        obtain ⟨ht2, hb2⟩ := h2
        subst ht1 hb1 ht2 hb2
        constructor
        · rw [hsum, hms]
        · rw [← hsum, ← hms]
          by_cases hemp : (productList crif).isEmpty
          · rw [if_pos hemp, if_pos hemp]
          · rw [if_neg hemp, if_neg hemp]
            by_cases hao : 0 < |rustRound
                ((((productList crif).map fun pc =>
                    if productMultiplierSum crif pc ≠ 0 then
                      simmProductWith wnc (eP1 pc) *
                        ((productMultiplierSum crif pc - 1 : ℚ) : ℝ)
                    else 0).sum) + (addonBase : ℝ)) * 100 / 100|
            · rw [if_pos hao, if_pos hao]
              exact (hall.map _).cons _
            · rw [if_neg hao, if_neg hao]
              exact (hall.map _).cons _

theorem simm_total_deterministic_rows_witness :
    ValidEnums ⟨1, 1⟩ v2_5 "USD" 1 baseCorrCrif (fun _ => bcE1) ∧
    ValidEnums ⟨1, 1⟩ v2_5 "USD" 1 baseCorrCrif (fun _ => bcE2) ∧
    ((calculateSimm ⟨1, 1⟩ v2_5 "USD" 1 baseCorrCrif
        (fun _ => bcE1) (fun _ => bcE1) (fun _ => "")).map Prod.fst =
      (calculateSimm ⟨1, 1⟩ v2_5 "USD" 1 baseCorrCrif
        (fun _ => bcE2) (fun _ => bcE2) (fun _ => "")).map Prod.fst ∧
    ∀ t1 b1 t2 b2,
      calculateSimm ⟨1, 1⟩ v2_5 "USD" 1 baseCorrCrif
        (fun _ => bcE1) (fun _ => bcE1) (fun _ => "") = Except.ok (t1, b1) →
      calculateSimm ⟨1, 1⟩ v2_5 "USD" 1 baseCorrCrif
        (fun _ => bcE2) (fun _ => bcE2) (fun _ => "") = Except.ok (t2, b2) →
      t1 = t2 ∧ b1.Perm b2) :=
  ⟨bcValid1, bcValid2,
    simm_total_deterministic_rows_up_to_order ⟨1, 1⟩ v2_5 "USD" 1 baseCorrCrif
      (fun _ => "") (fun _ => bcE1) (fun _ => bcE1) (fun _ => bcE2)
      (fun _ => bcE2) bcValid1 bcValid1 bcValid2 bcValid2⟩

end SimmRs
